import Mathlib

/-!
# LLGL: pipeline-state compilation and render-target attachment

A shallow embedding of

* `sources/Renderer/RenderTarget.cpp`
* `sources/Renderer/Direct3D11/Texture/D3D11RenderTarget.cpp`
* `sources/Renderer/OpenGL/RenderState/GLGraphicsPipeline.cpp`

Member functions are state passing: a member function of class `T` returning
`R` becomes a function `T → ... → Except Error R × T`.  The second component is
the object as it stands when the function returns or throws, so that the effects
that precede a `throw` stay visible.  Calls into the graphics API (the D3D11
device, the D3D11 context, the GL state manager) are recorded in call logs.
-/

namespace LLGL

/-! ## Failures -/

/-- Ways a modelled function can fail: the two C++ exception classes the sources
throw, and an access outside an allocated object (undefined behaviour in C++,
made explicit here so that it can never pass unnoticed). -/
inductive Error where
  | invalid_argument (what : String)
  | runtime_error (what : String)
  | out_of_bounds
deriving DecidableEq, Repr

/-- Predicate: the failure is a `std::invalid_argument`. -/
def Error.isInvalidArgument : Error → Bool
  | .invalid_argument _ => true
  | _ => false

/-- Predicate: the failure is a `std::runtime_error`. -/
def Error.isRuntimeError : Error → Bool
  | .runtime_error _ => true
  | _ => false

/-- Predicate on results: the call returned normally. -/
def succeeded {α : Type} : Except Error α → Bool
  | .ok _ => true
  | .error _ => false

/-- Predicate on results: the call threw `std::invalid_argument`. -/
def threwInvalidArgument {α : Type} : Except Error α → Bool
  | .ok _ => false
  | .error e => e.isInvalidArgument

/-- Predicate on results: the call threw `std::runtime_error`. -/
def threwRuntimeError {α : Type} : Except Error α → Bool
  | .ok _ => false
  | .error e => e.isRuntimeError

/-! ## `RenderTarget` (sources/Renderer/RenderTarget.cpp) -/

/-- The type `Gs::Vector2i`: two `int` components. -/
structure Vector2i where
  x : Int
  y : Int
deriving DecidableEq, Repr

/-- The data member of `RenderTarget` that `RenderTarget.cpp` touches. -/
structure RenderTarget where
  resolution_ : Vector2i
deriving DecidableEq, Repr

/-- `RenderTarget::ApplyResolution` (RenderTarget.cpp, lines 27-46). -/
def RenderTarget.ApplyResolution (self : RenderTarget) (resolution : Vector2i) :
    Except Error Unit × RenderTarget :=
  if resolution.x == 0 || resolution.y == 0 then
    (.error (.invalid_argument
      ("attachment to render target failed, due to invalid size (" ++
        toString resolution.x ++ ", " ++ toString resolution.x ++ ")")), self)
  else if self.resolution_ != Vector2i.mk 0 0 then
    if resolution != self.resolution_ then
      (.error (.invalid_argument
        "attachment to to render target failed, due to resolution mismatch"), self)
    else
      (.ok (), self)
  else
    (.ok (), { self with resolution_ := resolution })

/-- `RenderTarget::ResetResolution` (RenderTarget.cpp, lines 48-51). -/
def RenderTarget.ResetResolution (self : RenderTarget) : RenderTarget :=
  { self with resolution_ := Vector2i.mk 0 0 }

/-! ## Scalars and their object representation

The static state buffer is a `char` array.  Scalars are written into it and read
back through typed pointers, so the model fixes an object representation:
little-endian, two's complement for integers, the IEEE-754 bit pattern for
floating-point numbers.  A `float` or `double` is held as its bit pattern; no
floating-point arithmetic is performed anywhere in the modelled code. -/

/-- One `char` of raw storage, a value below 256. -/
abbrev Byte := Nat

/-- A C++ `float` (also `GLfloat`), held as its IEEE-754 binary32 bit pattern. -/
abbrev CFloat := Fin 4294967296

/-- A `GLdouble`, held as its IEEE-754 binary64 bit pattern. -/
abbrev GLdouble := Fin 18446744073709551616

/-- A `std::int32_t` (also `GLint` and `GLsizei` inside records). -/
abbrev Int32 := { i : Int // -2147483648 ≤ i ∧ i < 2147483648 }

/-- An OpenGL enumerant. -/
abbrev GLenum := Nat

/-- The comparison `f != 0.0f` on a `float`: false exactly for the two zeros
(bit patterns `0x00000000` and `0x80000000`), true for everything else, NaN
included. -/
def CFloat.neZero (f : CFloat) : Bool :=
  !(f.val == 0 || f.val == 2147483648)

/-- The four bytes of a 32-bit pattern, least significant first. -/
def bytesOfBits32 (w : Nat) : List Byte :=
  [w % 256, w / 256 % 256, w / 65536 % 256, w / 16777216 % 256]

/-- The 32-bit pattern held in (the first four of) some bytes. -/
def bits32OfBytes (bs : List Byte) : Nat :=
  bs.getD 0 0 + 256 * bs.getD 1 0 + 65536 * bs.getD 2 0 + 16777216 * bs.getD 3 0

/-- The eight bytes of a 64-bit pattern, least significant first. -/
def bytesOfBits64 (w : Nat) : List Byte :=
  bytesOfBits32 (w % 4294967296) ++ bytesOfBits32 (w / 4294967296)

/-- The 64-bit pattern held in (the first eight of) some bytes. -/
def bits64OfBytes (bs : List Byte) : Nat :=
  bits32OfBytes bs + 4294967296 * bits32OfBytes (bs.drop 4)

/-- Object representation of a `float`. -/
def CFloat.toBytes (f : CFloat) : List Byte :=
  bytesOfBits32 f.val

/-- The `float` stored in four bytes. -/
def CFloat.ofBytes (bs : List Byte) : CFloat :=
  ⟨bits32OfBytes bs % 4294967296, Nat.mod_lt _ (by decide)⟩

/-- Object representation of a `GLdouble`. -/
def GLdouble.toBytes (d : GLdouble) : List Byte :=
  bytesOfBits64 d.val

/-- The `GLdouble` stored in eight bytes. -/
def GLdouble.ofBytes (bs : List Byte) : GLdouble :=
  ⟨bits64OfBytes bs % 18446744073709551616, Nat.mod_lt _ (by decide)⟩

/-- The signed 32-bit integer with a given bit pattern (reduced modulo 2^32). -/
def Int32.ofBits (w : Nat) : Int32 :=
  ⟨if w % 4294967296 < 2147483648 then ((w % 4294967296 : Nat) : Int)
    else ((w % 4294967296 : Nat) : Int) - 4294967296, by split <;> omega⟩

/-- Object representation of a signed 32-bit integer (two's complement). -/
def Int32.toBytes (i : Int32) : List Byte :=
  bytesOfBits32 (i.val % 4294967296).toNat

/-- The signed 32-bit integer stored in four bytes. -/
def Int32.ofBytes (bs : List Byte) : Int32 :=
  Int32.ofBits (bits32OfBytes bs)

/-- The conversion `static_cast<GLsizei>(n)` of a `std::size_t` to a signed 32-bit
integer: the low 32 bits, read as two's complement. -/
def static_cast_GLsizei (n : Nat) : Int :=
  (Int32.ofBits n).val

/-- The conversion of a signed integer to `std::size_t` (64 bits), as done
implicitly when a `GLsizei` is passed for a `std::size_t` parameter or multiplied
by a `sizeof`. -/
def toSizeT (i : Int) : Nat :=
  (i % 18446744073709551616).toNat

/-- The position of the highest set bit of `n` (zero for `n < 2`), for `n` below
`2 ^ (fuel + 1)`. -/
def highestBit : Nat → Nat → Nat
  | 0, _ => 0
  | fuel + 1, n => if n < 2 then 0 else highestBit fuel (n / 2) + 1

/-- The conversion `static_cast<GLdouble>(f)` of a `float`.  Every `float` value is
a `double` value, so the conversion is exact: the sign is kept, the exponent is
re-biased (from 127 to 1023) and the 23 fraction bits become the top of the 52
fraction bits; a subnormal `float` becomes a normal `double`; a zero stays a zero
of the same sign, an infinity stays an infinity, and a NaN becomes a quiet NaN
with the same payload. -/
def static_cast_GLdouble (f : CFloat) : GLdouble :=
  let sign := f.val / 2147483648
  let exponent := f.val / 8388608 % 256
  let fraction := f.val % 8388608
  let bits :=
    if exponent = 255 then
      if fraction = 0 then
        sign * 2 ^ 63 + 2047 * 2 ^ 52
      else
        sign * 2 ^ 63 + 2047 * 2 ^ 52 + 2 ^ 51 + fraction % 4194304 * 2 ^ 29
    else if exponent = 0 then
      if fraction = 0 then
        sign * 2 ^ 63
      else
        let top := highestBit 23 fraction
        sign * 2 ^ 63 + (top + 874) * 2 ^ 52 + fraction * 2 ^ (52 - top) % 2 ^ 52
    else
      sign * 2 ^ 63 + (exponent + 896) * 2 ^ 52 + fraction * 2 ^ 29
  ⟨bits % 18446744073709551616, Nat.mod_lt _ (by decide)⟩

/-- Two consecutive stretches of a function body that works on an object of type
`σ`: the second runs on the object the first leaves behind, unless the first
threw. -/
def andThen {σ : Type} :
    Except Error Unit × σ → (σ → Except Error Unit × σ) → Except Error Unit × σ
  | (.error e, s), _ => (.error e, s)
  | (.ok (), s), next => next s

/-- The statement `member = f(...);` where the call may throw: nothing is assigned
when it throws. -/
def assign {σ α : Type} (s : σ) (store : σ → α → σ) : Except Error α → Except Error Unit × σ
  | .error e => (.error e, s)
  | .ok value => (.ok (), store s value)

/-- `std::vector::resize(n)`: the first `n` elements stay, missing ones are
value-initialised (`init`). -/
def vectorResize {α : Type} (v : List α) (n : Nat) (init : α) : List α :=
  v.take n ++ List.replicate (n - v.length) init

/-- Raw storage: `storeBytes buf addr bs` overwrites `bs.length` bytes of `buf` from
offset `addr` on; it fails when the range is not inside `buf`. -/
def storeBytes (buf : List Byte) (addr : Nat) (bs : List Byte) : Except Error (List Byte) :=
  if addr + bs.length ≤ buf.length then
    .ok (buf.take addr ++ bs ++ buf.drop (addr + bs.length))
  else
    .error .out_of_bounds

/-- Raw storage: `loadBytes buf addr n` reads `n` bytes of `buf` from offset `addr`
on; it fails when the range is not inside `buf`. -/
def loadBytes (buf : List Byte) (addr : Nat) (n : Nat) : Except Error (List Byte) :=
  if addr + n ≤ buf.length then
    .ok ((buf.drop addr).take n)
  else
    .error .out_of_bounds

/-- An array of `count` records of `size` bytes each, read off the front of `bs`. -/
def decodeRecords {α : Type} (decode : List Byte → α) (size : Nat) :
    Nat → List Byte → List α
  | 0, _ => []
  | n + 1, bs => decode (bs.take size) :: decodeRecords decode size n (bs.drop size)

/-- The loop `for (std::size_t i = 0; i < n; ++i) body`, from index `i` with `k`
iterations left; a failing iteration ends the loop. -/
def forLoopFrom {σ : Type} (body : Nat → σ → Except Error σ) :
    Nat → Nat → σ → Except Error σ
  | 0, _, s => .ok s
  | k + 1, i, s =>
    match body i s with
    | .error e => .error e
    | .ok s1 => forLoopFrom body k (i + 1) s1

/-- The loop `for (std::size_t i = 0; i < n; ++i) body`. -/
def forLoop {σ : Type} (n : Nat) (body : Nat → σ → Except Error σ) (s : σ) :
    Except Error σ :=
  forLoopFrom body n 0 s

/-- The element access `p[i]` of an array of known extent. -/
def elemAt {α : Type} (xs : List α) (i : Nat) : Except Error α :=
  match xs[i]? with
  | some x => .ok x
  | none => .error .out_of_bounds

/-! ## Pipeline descriptors (include/LLGL/GraphicsPipelineFlags.h)

The descriptor types are declared in a public header that is not among the
sources.  They are reproduced with the members that `GLGraphicsPipeline.cpp`
reads.  An enumeration that is only handed to `GLTypes::Map` keeps nothing but the
enumerators the sources name; all remaining enumerators are `other`. -/

/-- `BlendOp`: the two blend-factor enumerators, and all others. -/
inductive BlendOp where
  | BlendFactor
  | InvBlendFactor
  | other (enumerator : Nat)
deriving DecidableEq, Repr

/-- `LogicOp`: `Disabled`, and all others. -/
inductive LogicOp where
  | Disabled
  | other (enumerator : Nat)
deriving DecidableEq, Repr

/-- `PolygonMode`: its three enumerators, and every other value that an object of
the enumeration type can hold (the case the `throw` at line 91 is there for). -/
inductive PolygonMode where
  | Fill
  | Wireframe
  | Points
  | outOfRange (value : Nat)
deriving DecidableEq, Repr

/-- `PrimitiveTopology`: `Patches1` ... `Patches32` are `Patches i` with `i + 1`
control points; all other enumerators are `other`. -/
inductive PrimitiveTopology where
  | other (enumerator : Nat)
  | Patches (index : Fin 32)
deriving DecidableEq, Repr

/-- Modelled from the spec: `IsPrimitiveTopologyPatches` (public header, not among
the sources) tells whether the topology is a "patches" kind. -/
def IsPrimitiveTopologyPatches : PrimitiveTopology → Bool
  | .Patches _ => true
  | .other _ => false

/-- Modelled from the spec: `GetPrimitiveTopologyPatchSize` (public header, not among
the sources) resolves the patch vertex count from the topology variant. -/
def GetPrimitiveTopologyPatchSize : PrimitiveTopology → Nat
  | .Patches i => i.val + 1
  | .other _ => 0

/-- The enumerations `CompareOp`, `StencilOp`, `BlendArithmetic` and `CullMode` are
only handed to `GLTypes::Map`; they are held as the enumerator's ordinal. -/
abbrev CompareOp := Nat

/-- See `CompareOp`. -/
abbrev StencilOp := Nat

/-- See `CompareOp`. -/
abbrev BlendArithmetic := Nat

/-- See `CompareOp`. -/
abbrev CullMode := Nat

/-- `ColorRGBAf`. -/
structure ColorRGBAf where
  r : CFloat
  g : CFloat
  b : CFloat
  a : CFloat
deriving DecidableEq, Repr

/-- `ColorRGBAb`. -/
structure ColorRGBAb where
  r : Bool
  g : Bool
  b : Bool
  a : Bool
deriving DecidableEq, Repr

/-- `Viewport`: six `float` members. -/
structure Viewport where
  x : CFloat
  y : CFloat
  width : CFloat
  height : CFloat
  minDepth : CFloat
  maxDepth : CFloat
deriving DecidableEq, Repr

/-- `Scissor`: four `std::int32_t` members. -/
structure Scissor where
  x : Int32
  y : Int32
  width : Int32
  height : Int32
deriving DecidableEq, Repr

/-- `DepthDescriptor`. -/
structure DepthDescriptor where
  testEnabled : Bool
  writeEnabled : Bool
  compareOp : CompareOp
deriving DecidableEq, Repr

/-- `StencilFaceDescriptor`; `readMask`, `writeMask` and `reference` are
`std::uint32_t`. -/
structure StencilFaceDescriptor where
  stencilFailOp : StencilOp
  depthFailOp : StencilOp
  depthPassOp : StencilOp
  compareOp : CompareOp
  readMask : Nat
  writeMask : Nat
  reference : Nat
deriving DecidableEq, Repr

/-- `StencilDescriptor`. -/
structure StencilDescriptor where
  testEnabled : Bool
  front : StencilFaceDescriptor
  back : StencilFaceDescriptor
deriving DecidableEq, Repr

/-- `DepthBiasDescriptor`. -/
structure DepthBiasDescriptor where
  constantFactor : CFloat
  slopeFactor : CFloat
  clamp : CFloat
deriving DecidableEq, Repr

/-- `MultiSamplingDescriptor`, with the members the pipeline constructor reads. -/
structure MultiSamplingDescriptor where
  enabled : Bool
  samples : Nat
  sampleMask : Nat
deriving DecidableEq, Repr

/-- `RasterizerDescriptor`. -/
structure RasterizerDescriptor where
  polygonMode : PolygonMode
  cullMode : CullMode
  depthBias : DepthBiasDescriptor
  multiSampling : MultiSamplingDescriptor
  frontCCW : Bool
  depthClampEnabled : Bool
  scissorTestEnabled : Bool
  antiAliasedLineEnabled : Bool
  conservativeRasterization : Bool
  lineWidth : CFloat
deriving DecidableEq, Repr

/-- `BlendTargetDescriptor`. -/
structure BlendTargetDescriptor where
  srcColor : BlendOp
  dstColor : BlendOp
  colorArithmetic : BlendArithmetic
  srcAlpha : BlendOp
  dstAlpha : BlendOp
  alphaArithmetic : BlendArithmetic
  colorMask : ColorRGBAb
deriving DecidableEq, Repr

/-- `BlendDescriptor`. -/
structure BlendDescriptor where
  blendEnabled : Bool
  blendFactor : ColorRGBAf
  alphaToCoverageEnabled : Bool
  logicOp : LogicOp
  targets : List BlendTargetDescriptor
deriving DecidableEq, Repr

/-- What the pipeline reads of a `GLShaderProgram`: `GetID()` and
`HasFragmentShader()`. -/
structure GLShaderProgram where
  GetID : Nat
  HasFragmentShader : Bool
deriving DecidableEq, Repr

/-- `GraphicsPipelineDescriptor`; `shaderProgram` is a pointer and may be null. -/
structure GraphicsPipelineDescriptor where
  shaderProgram : Option GLShaderProgram
  primitiveTopology : PrimitiveTopology
  viewports : List Viewport
  scissors : List Scissor
  depth : DepthDescriptor
  stencil : StencilDescriptor
  rasterizer : RasterizerDescriptor
  blend : BlendDescriptor
deriving DecidableEq, Repr

/-- `RenderingLimits`, with the member the pipeline constructor reads
(`std::uint32_t`). -/
structure RenderingLimits where
  maxPatchVertices : Nat
deriving DecidableEq, Repr

/-! ## OpenGL state records and the state manager

`GLStateManager`, `GLState` and the records `GLViewport`, `GLDepthRange`,
`GLScissor`, `GLStencil`, `GLBlend` are declared in headers that are not among the
sources.  The state manager is modelled as the log of the calls made on it. -/

/-- `GLViewport`: four `GLfloat` members, 16 bytes. -/
structure GLViewport where
  x : CFloat
  y : CFloat
  width : CFloat
  height : CFloat
deriving DecidableEq, Repr

/-- `GLDepthRange`: two `GLdouble` members, 16 bytes. -/
structure GLDepthRange where
  minDepth : GLdouble
  maxDepth : GLdouble
deriving DecidableEq, Repr

/-- `GLScissor`: two `GLint` and two `GLsizei` members, 16 bytes. -/
structure GLScissor where
  x : Int32
  y : Int32
  width : Int32
  height : Int32
deriving DecidableEq, Repr

/-- The value of `sizeof(GLViewport)`. -/
def sizeof_GLViewport : Nat := 16

/-- The value of `sizeof(GLDepthRange)`. -/
def sizeof_GLDepthRange : Nat := 16

/-- The value of `sizeof(GLScissor)`. -/
def sizeof_GLScissor : Nat := 16

/-- `GLStencil`. -/
structure GLStencil where
  sfail : GLenum
  dpfail : GLenum
  dppass : GLenum
  func : GLenum
  ref : Int
  mask : Nat
  writeMask : Nat
deriving DecidableEq, Repr

/-- `GLBlend`; the colour mask holds `GLboolean` values. -/
structure GLBlend where
  srcColor : GLenum
  dstColor : GLenum
  funcColor : GLenum
  srcAlpha : GLenum
  dstAlpha : GLenum
  funcAlpha : GLenum
  colorMask_r : Nat
  colorMask_g : Nat
  colorMask_b : Nat
  colorMask_a : Nat
deriving DecidableEq, Repr

/-- `GLState`, with the enumerators `GLGraphicsPipeline.cpp` names. -/
inductive GLState where
  | BLEND
  | COLOR_LOGIC_OP
  | CULL_FACE
  | DEPTH_CLAMP
  | DEPTH_TEST
  | LINE_SMOOTH
  | MULTISAMPLE
  | POLYGON_OFFSET_FILL
  | POLYGON_OFFSET_LINE
  | POLYGON_OFFSET_POINT
  | RASTERIZER_DISCARD
  | SAMPLE_ALPHA_TO_COVERAGE
  | SCISSOR_TEST
  | STENCIL_TEST
deriving DecidableEq, Repr

/-- The OpenGL constant `GL_FALSE`. -/
def GL_FALSE : Nat := 0

/-- The OpenGL constant `GL_TRUE`. -/
def GL_TRUE : Nat := 1

/-- The OpenGL constant `GL_CW`. -/
def GL_CW : GLenum := 0x0900

/-- The OpenGL constant `GL_CCW`. -/
def GL_CCW : GLenum := 0x0901

/-- The OpenGL constant `GL_FRONT`. -/
def GL_FRONT : GLenum := 0x0404

/-- The OpenGL constant `GL_BACK`. -/
def GL_BACK : GLenum := 0x0405

/-- One call on the `GLStateManager`, with its arguments.  An array argument is
held as the `count` records the call reads through the pointer. -/
inductive GLCommand where
  | BindShaderProgram (program : Nat)
  | Set (state : GLState) (value : Bool)
  | Enable (state : GLState)
  | Disable (state : GLState)
  | SetPatchVertices (patchVertices : Int)
  | SetDepthFunc (func : GLenum)
  | SetDepthMask (flag : Nat)
  | SetStencilState (face : GLenum) (state : GLStencil)
  | SetPolygonMode (mode : GLenum)
  | SetFrontFace (mode : GLenum)
  | SetCullFace (face : GLenum)
  | SetPolygonOffset (factor : CFloat) (units : CFloat) (clamp : CFloat)
  | SetLineWidth (width : CFloat)
  | SetBlendStates (blendStates : List GLBlend) (blendEnabled : Bool)
  | SetBlendColor (color : ColorRGBAf)
  | SetLogicOp (opcode : GLenum)
  | SetViewportArray (first : Nat) (count : Int) (viewports : List GLViewport)
  | SetDepthRangeArray (first : Nat) (count : Int) (depthRanges : List GLDepthRange)
  | SetScissorArray (first : Nat) (count : Int) (scissors : List GLScissor)
deriving DecidableEq, Repr

/-- The `GLStateManager`, as the calls made on it so far, oldest first. -/
structure GLStateManager where
  calls : List GLCommand
deriving DecidableEq, Repr

/-- Record one call on the state manager. -/
def GLStateManager.call (stateMngr : GLStateManager) (c : GLCommand) : GLStateManager :=
  { stateMngr with calls := stateMngr.calls ++ [c] }

/-- What `GLGraphicsPipeline.cpp` takes from headers that are not among the sources:
the macro `LLGL_MAX_NUM_VIEWPORTS_AND_SCISSORS` (StaticLimits.h; an `int`
constant), the lookup table behind each overload of `GLTypes::Map` (`none` for a
value the table does not hold), the text of the exception that an unmapped value
raises, and the value of a value-initialised `GLBlend` (GLState.h). -/
structure GLEnv where
  LLGL_MAX_NUM_VIEWPORTS_AND_SCISSORS : Nat
  limit_is_int : LLGL_MAX_NUM_VIEWPORTS_AND_SCISSORS < 2147483648
  MapPrimitiveTopology : PrimitiveTopology → Option GLenum
  MapCompareOp : CompareOp → Option GLenum
  MapStencilOp : StencilOp → Option GLenum
  MapBlendOp : BlendOp → Option GLenum
  MapBlendArithmetic : BlendArithmetic → Option GLenum
  MapPolygonMode : PolygonMode → Option GLenum
  MapCullMode : CullMode → Option GLenum
  MapLogicOp : LogicOp → Option GLenum
  MapFailedWhat : String
  GLBlendInit : GLBlend

/-- Modelled from the spec: an overload of `GLTypes::Map` (GLCommon/GLTypes.h, not
among the sources) is a pure lookup, and "an unmapped value is a programming
error (`InvalidArgument`), never silently defaulted".  `table` is the lookup
table of the overload. -/
def GLTypes.Map {α : Type} (env : GLEnv) (table : α → Option GLenum) (value : α) :
    Except Error GLenum :=
  match table value with
  | some mapped => .ok mapped
  | none => .error (.invalid_argument env.MapFailedWhat)

/-- Modelled from the spec: `RawBufferIterator` (Core/RawBufferIterator.h, not among
the sources) is the running cursor over the packed buffer.  It is held as the
byte offset of the cursor from the start of the buffer it was created on. -/
structure RawBufferIterator where
  byteBuffer_ : Nat
deriving DecidableEq, Repr

/-- Modelled from the spec: `RawBufferIterator::Next<T>(count)` returns the cursor
position and advances the cursor by `count` records of `sizeof(T)` bytes. -/
def RawBufferIterator.Next (it : RawBufferIterator) (sizeofT : Nat) (count : Nat) :
    Nat × RawBufferIterator :=
  (it.byteBuffer_, { byteBuffer_ := it.byteBuffer_ + sizeofT * count })

/-! ## `GLGraphicsPipeline` (sources/Renderer/OpenGL/RenderState/GLGraphicsPipeline.cpp) -/

/-- The assignments to `dst->x`, `dst->y`, `dst->width`, `dst->height` through a
`GLViewport*` that points `dst` bytes into the buffer. -/
def store_GLViewport (buf : List Byte) (dst : Nat) (v : GLViewport) :
    Except Error (List Byte) := do
  let buf ← storeBytes buf dst v.x.toBytes
  let buf ← storeBytes buf (dst + 4) v.y.toBytes
  let buf ← storeBytes buf (dst + 8) v.width.toBytes
  storeBytes buf (dst + 12) v.height.toBytes

/-- The assignments to `dst->minDepth`, `dst->maxDepth` through a `GLDepthRange*`. -/
def store_GLDepthRange (buf : List Byte) (dst : Nat) (d : GLDepthRange) :
    Except Error (List Byte) := do
  let buf ← storeBytes buf dst d.minDepth.toBytes
  storeBytes buf (dst + 8) d.maxDepth.toBytes

/-- The assignments to `dst->x`, `dst->y`, `dst->width`, `dst->height` through a
`GLScissor*`. -/
def store_GLScissor (buf : List Byte) (dst : Nat) (sc : GLScissor) :
    Except Error (List Byte) := do
  let buf ← storeBytes buf dst sc.x.toBytes
  let buf ← storeBytes buf (dst + 4) sc.y.toBytes
  let buf ← storeBytes buf (dst + 8) sc.width.toBytes
  storeBytes buf (dst + 12) sc.height.toBytes

/-- The `GLViewport` whose object representation starts `bs`. -/
def GLViewport.ofBytes (bs : List Byte) : GLViewport :=
  { x := CFloat.ofBytes bs
    y := CFloat.ofBytes (bs.drop 4)
    width := CFloat.ofBytes (bs.drop 8)
    height := CFloat.ofBytes (bs.drop 12) }

/-- The `GLDepthRange` whose object representation starts `bs`. -/
def GLDepthRange.ofBytes (bs : List Byte) : GLDepthRange :=
  { minDepth := GLdouble.ofBytes bs
    maxDepth := GLdouble.ofBytes (bs.drop 8) }

/-- The `GLScissor` whose object representation starts `bs`. -/
def GLScissor.ofBytes (bs : List Byte) : GLScissor :=
  { x := Int32.ofBytes bs
    y := Int32.ofBytes (bs.drop 4)
    width := Int32.ofBytes (bs.drop 8)
    height := Int32.ofBytes (bs.drop 12) }

/-- The data members of `GLGraphicsPipeline` (build without
`LLGL_GL_ENABLE_VENDOR_EXT`).  `staticStateBuffer_` is the
`std::unique_ptr<char[]>`: `none` is the null pointer, `some buf` owns the array
`buf`.  The two counts are `GLsizei`, `patchVertices_` is `GLint`. -/
structure GLGraphicsPipeline where
  shaderProgram_ : Option GLShaderProgram
  drawMode_ : GLenum
  patchVertices_ : Int
  depthTestEnabled_ : Bool
  depthMask_ : Nat
  depthFunc_ : GLenum
  stencilTestEnabled_ : Bool
  stencilFront_ : GLStencil
  stencilBack_ : GLStencil
  polygonMode_ : GLenum
  cullFace_ : GLenum
  frontFace_ : GLenum
  scissorTestEnabled_ : Bool
  depthClampEnabled_ : Bool
  multiSampleEnabled_ : Bool
  sampleMask_ : Nat
  lineSmoothEnabled_ : Bool
  lineWidth_ : CFloat
  polygonOffsetEnabled_ : Bool
  polygonOffsetMode_ : GLState
  polygonOffsetFactor_ : CFloat
  polygonOffsetUnits_ : CFloat
  polygonOffsetClamp_ : CFloat
  blendEnabled_ : Bool
  blendColor_ : ColorRGBAf
  blendColorNeeded_ : Bool
  blendStates_ : List GLBlend
  sampleAlphaToCoverage_ : Bool
  logicOpEnabled_ : Bool
  logicOp_ : GLenum
  staticStateBuffer_ : Option (List Byte)
  numStaticViewports_ : Int
  numStaticScissors_ : Int
deriving DecidableEq, Repr

/-- Modelled from the spec: the default member initialisers are in
GLGraphicsPipeline.h, which is not among the sources.  A pipeline state starts
without a static state buffer, with no static viewports or scissors, with the
logic operation off and the patch count "disabled" (zero); all other members are
assigned by the constructor before they are read. -/
def GLGraphicsPipeline.init : GLGraphicsPipeline :=
  { shaderProgram_ := none
    drawMode_ := 0
    patchVertices_ := 0
    depthTestEnabled_ := false
    depthMask_ := 0
    depthFunc_ := 0
    stencilTestEnabled_ := false
    stencilFront_ := ⟨0, 0, 0, 0, 0, 0, 0⟩
    stencilBack_ := ⟨0, 0, 0, 0, 0, 0, 0⟩
    polygonMode_ := 0
    cullFace_ := 0
    frontFace_ := 0
    scissorTestEnabled_ := false
    depthClampEnabled_ := false
    multiSampleEnabled_ := false
    sampleMask_ := 0
    lineSmoothEnabled_ := false
    lineWidth_ := 0
    polygonOffsetEnabled_ := false
    polygonOffsetMode_ := GLState.POLYGON_OFFSET_FILL
    polygonOffsetFactor_ := 0
    polygonOffsetUnits_ := 0
    polygonOffsetClamp_ := 0
    blendEnabled_ := false
    blendColor_ := ⟨0, 0, 0, 0⟩
    blendColorNeeded_ := false
    blendStates_ := []
    sampleAlphaToCoverage_ := false
    logicOpEnabled_ := false
    logicOp_ := 0
    staticStateBuffer_ := none
    numStaticViewports_ := 0
    numStaticScissors_ := 0 }

/-- The conversion `static_cast<GLint>(u)` of a `std::uint32_t`. -/
def static_cast_GLint (u : Nat) : Int :=
  (Int32.ofBits u).val

/-- `Convert(GLStencil&, const StencilFaceDescriptor&)` (lines 25-34).  `dst` is
the parameter `to`, whose members are assigned one after the other; the first
component tells whether a `GLTypes::Map` threw, the second is the record at that
moment. -/
def ConvertStencil (env : GLEnv) (dst : GLStencil) (src : StencilFaceDescriptor) :
    Except Error Unit × GLStencil :=
  andThen (assign dst (fun dst v => { dst with sfail := v })
    (GLTypes.Map env env.MapStencilOp src.stencilFailOp)) fun dst =>
  andThen (assign dst (fun dst v => { dst with dpfail := v })
    (GLTypes.Map env env.MapStencilOp src.depthFailOp)) fun dst =>
  andThen (assign dst (fun dst v => { dst with dppass := v })
    (GLTypes.Map env env.MapStencilOp src.depthPassOp)) fun dst =>
  andThen (assign dst (fun dst v => { dst with func := v })
    (GLTypes.Map env env.MapCompareOp src.compareOp)) fun dst =>
  (.ok (), { dst with
    ref := static_cast_GLint src.reference
    mask := src.readMask
    writeMask := src.writeMask })

/-- The conversion `GLboolean(b)` of a `bool`. -/
def GLboolean (b : Bool) : Nat :=
  if b then 1 else 0

/-- `Convert(GLBlend&, const BlendTargetDescriptor&)` (lines 36-48), modelled like
the conversion of a stencil face. -/
def ConvertBlend (env : GLEnv) (dst : GLBlend) (src : BlendTargetDescriptor) :
    Except Error Unit × GLBlend :=
  andThen (assign dst (fun dst v => { dst with srcColor := v })
    (GLTypes.Map env env.MapBlendOp src.srcColor)) fun dst =>
  andThen (assign dst (fun dst v => { dst with dstColor := v })
    (GLTypes.Map env env.MapBlendOp src.dstColor)) fun dst =>
  andThen (assign dst (fun dst v => { dst with funcColor := v })
    (GLTypes.Map env env.MapBlendArithmetic src.colorArithmetic)) fun dst =>
  andThen (assign dst (fun dst v => { dst with srcAlpha := v })
    (GLTypes.Map env env.MapBlendOp src.srcAlpha)) fun dst =>
  andThen (assign dst (fun dst v => { dst with dstAlpha := v })
    (GLTypes.Map env env.MapBlendOp src.dstAlpha)) fun dst =>
  andThen (assign dst (fun dst v => { dst with funcAlpha := v })
    (GLTypes.Map env env.MapBlendArithmetic src.alphaArithmetic)) fun dst =>
  (.ok (), { dst with
    colorMask_r := GLboolean src.colorMask.r
    colorMask_g := GLboolean src.colorMask.g
    colorMask_b := GLboolean src.colorMask.b
    colorMask_a := GLboolean src.colorMask.a })

/-- The loop of `Convert(std::vector<DstType>&, const std::vector<SrcType>&)` (lines
54-55), at the blend-target instance, from some index on: `dst` and `src` are the
elements from that index on.  After the `resize` the two have the same length;
an element of `src` without its element of `dst` is an access out of bounds. -/
def ConvertBlendStatesLoop (env : GLEnv) :
    List GLBlend → List BlendTargetDescriptor → Except Error Unit × List GLBlend
  | dst, [] => (.ok (), dst)
  | [], _ :: _ => (.error .out_of_bounds, [])
  | t :: dst, f :: src =>
    match ConvertBlend env t f with
    | (.error e, t1) => (.error e, t1 :: dst)
    | (.ok (), t1) =>
      ((ConvertBlendStatesLoop env dst src).1, t1 :: (ConvertBlendStatesLoop env dst src).2)

/-- `Convert(std::vector<DstType>&, const std::vector<SrcType>&)` (lines 50-56), at
the blend-target instance. -/
def ConvertBlendStates (env : GLEnv) (dst : List GLBlend) (src : List BlendTargetDescriptor) :
    Except Error Unit × List GLBlend :=
  ConvertBlendStatesLoop env (vectorResize dst src.length env.GLBlendInit) src

/-- `IsBlendColorNeeded(const BlendOp)` (lines 58-61). -/
def IsBlendColorNeededOp (blendOp : BlendOp) : Bool :=
  blendOp == BlendOp.BlendFactor || blendOp == BlendOp.InvBlendFactor

/-- The loop of `IsBlendColorNeeded(const BlendDescriptor&)` over the targets
(lines 69-80). -/
def IsBlendColorNeededTargets : List BlendTargetDescriptor → Bool
  | [] => false
  | target :: rest =>
    if IsBlendColorNeededOp target.srcColor ||
       IsBlendColorNeededOp target.srcAlpha ||
       IsBlendColorNeededOp target.dstColor ||
       IsBlendColorNeededOp target.dstAlpha then
      true
    else
      IsBlendColorNeededTargets rest

/-- `IsBlendColorNeeded(const BlendDescriptor&)` (lines 64-81). -/
def IsBlendColorNeeded (blendDesc : BlendDescriptor) : Bool :=
  if !blendDesc.blendEnabled then
    false
  else
    IsBlendColorNeededTargets blendDesc.targets

/-- `PolygonModeToPolygonOffset` (lines 83-92): a value that is none of the three
enumerators falls through the `switch` to the `throw` at line 91. -/
def PolygonModeToPolygonOffset : PolygonMode → Except Error GLState
  | .Fill => .ok GLState.POLYGON_OFFSET_FILL
  | .Wireframe => .ok GLState.POLYGON_OFFSET_LINE
  | .Points => .ok GLState.POLYGON_OFFSET_POINT
  | .outOfRange _ => .error (.invalid_argument
      ("failed to map \x27PolygonMode\x27 to polygon offset mode " ++
        "(GL_POLYGON_OFFSET_FILL, GL_POLYGON_OFFSET_LINE, or GL_POLYGON_OFFSET_POINT)"))

/-- `IsPolygonOffsetEnabled` (lines 94-98). -/
def IsPolygonOffsetEnabled (desc : DepthBiasDescriptor) : Bool :=
  desc.slopeFactor.neZero || desc.constantFactor.neZero

/-- The values assigned to a `GLViewport` at lines 319-322; `static_cast<GLfloat>` of
a `float` is the identity. -/
def viewportRecord (v : Viewport) : GLViewport :=
  { x := v.x, y := v.y, width := v.width, height := v.height }

/-- The values assigned to a `GLDepthRange` at lines 331-332. -/
def depthRangeRecord (v : Viewport) : GLDepthRange :=
  { minDepth := static_cast_GLdouble v.minDepth
    maxDepth := static_cast_GLdouble v.maxDepth }

/-- The values assigned to a `GLScissor` at lines 355-358; the casts of a
`std::int32_t` to `GLint` and `GLsizei` are the identity. -/
def scissorRecord (sc : Scissor) : GLScissor :=
  { x := sc.x, y := sc.y, width := sc.width, height := sc.height }

/-- A write into the array owned by `staticStateBuffer_`; writing through a null
pointer is out of bounds. -/
def GLGraphicsPipeline.storeStatic (self : GLGraphicsPipeline)
    (write : List Byte → Except Error (List Byte)) : Except Error GLGraphicsPipeline :=
  match self.staticStateBuffer_ with
  | none => .error .out_of_bounds
  | some buf =>
    match write buf with
    | .error e => .error e
    | .ok buf1 => .ok { self with staticStateBuffer_ := some buf1 }

/-- `GLGraphicsPipeline::BuildStaticViewports` (lines 301-335). -/
def GLGraphicsPipeline.BuildStaticViewports (env : GLEnv) (self : GLGraphicsPipeline)
    (numViewports : Nat) (viewports : List Viewport) (rawBufferIter : RawBufferIterator) :
    Except Error RawBufferIterator × GLGraphicsPipeline :=
  let self := { self with numStaticViewports_ := static_cast_GLsizei numViewports }
  if self.numStaticViewports_ > (env.LLGL_MAX_NUM_VIEWPORTS_AND_SCISSORS : Int) then
    (.error (.invalid_argument
      ("too many viewports in graphics pipeline state (" ++
        toString self.numStaticViewports_ ++ " specified, but limit is " ++
        toString env.LLGL_MAX_NUM_VIEWPORTS_AND_SCISSORS ++ ")")), self)
  else
    let viewportLoop := forLoop numViewports
      (fun i (st : GLGraphicsPipeline × RawBufferIterator) => do
        let (dst, it) := st.2.Next sizeof_GLViewport 1
        let v ← elemAt viewports i
        let self1 ← st.1.storeStatic
          (fun buf => store_GLViewport buf dst (viewportRecord v))
        pure (self1, it))
      (self, rawBufferIter)
    match viewportLoop with
    | .error e => (.error e, self)
    | .ok st =>
      let depthRangeLoop := forLoop numViewports
        (fun i (st : GLGraphicsPipeline × RawBufferIterator) => do
          let (dst, it) := st.2.Next sizeof_GLDepthRange 1
          let v ← elemAt viewports i
          let self1 ← st.1.storeStatic
            (fun buf => store_GLDepthRange buf dst (depthRangeRecord v))
          pure (self1, it))
        st
      match depthRangeLoop with
      | .error e => (.error e, st.1)
      | .ok st1 => (.ok st1.2, st1.1)

/-- `GLGraphicsPipeline::BuildStaticScissors` (lines 337-361). -/
def GLGraphicsPipeline.BuildStaticScissors (env : GLEnv) (self : GLGraphicsPipeline)
    (numScissors : Nat) (scissors : List Scissor) (rawBufferIter : RawBufferIterator) :
    Except Error RawBufferIterator × GLGraphicsPipeline :=
  let self := { self with numStaticScissors_ := static_cast_GLsizei numScissors }
  if self.numStaticScissors_ > (env.LLGL_MAX_NUM_VIEWPORTS_AND_SCISSORS : Int) then
    (.error (.invalid_argument
      ("too many scissors in graphics pipeline state (" ++
        toString self.numStaticScissors_ ++ " specified, but limit is " ++
        toString env.LLGL_MAX_NUM_VIEWPORTS_AND_SCISSORS ++ ")")), self)
  else
    let scissorLoop := forLoop numScissors
      (fun i (st : GLGraphicsPipeline × RawBufferIterator) => do
        let (dst, it) := st.2.Next sizeof_GLScissor 1
        let sc ← elemAt scissors i
        let self1 ← st.1.storeStatic
          (fun buf => store_GLScissor buf dst (scissorRecord sc))
        pure (self1, it))
      (self, rawBufferIter)
    match scissorLoop with
    | .error e => (.error e, self)
    | .ok st => (.ok st.2, st.1)

/-- `MakeUniqueArray<char>(size)` (Core/Helper.h): a fresh array of `size` chars.
The initial contents are indeterminate in C++; they are zero here. -/
def MakeUniqueArray (size : Nat) : List Byte :=
  List.replicate size 0

/-- The `std::size_t` value `bufferSize` computed in `BuildStaticStateBuffer`
(lines 283-287), with 64-bit wrap-around. -/
def staticStateBufferSize (desc : GraphicsPipelineDescriptor) : Nat :=
  (desc.viewports.length * (sizeof_GLViewport + sizeof_GLDepthRange) +
    desc.scissors.length * sizeof_GLScissor) % 18446744073709551616

/-- `GLGraphicsPipeline::BuildStaticStateBuffer` (lines 280-299). -/
def GLGraphicsPipeline.BuildStaticStateBuffer (env : GLEnv) (self : GLGraphicsPipeline)
    (desc : GraphicsPipelineDescriptor) : Except Error Unit × GLGraphicsPipeline :=
  let bufferSize := staticStateBufferSize desc
  let self := { self with staticStateBuffer_ := some (MakeUniqueArray bufferSize) }
  let rawBufferIter : RawBufferIterator := { byteBuffer_ := 0 }
  let afterViewports : Except Error RawBufferIterator × GLGraphicsPipeline :=
    if !desc.viewports.isEmpty then
      self.BuildStaticViewports env desc.viewports.length desc.viewports rawBufferIter
    else
      (.ok rawBufferIter, self)
  match afterViewports with
  | (.error e, self1) => (.error e, self1)
  | (.ok rawBufferIter1, self1) =>
    if !desc.scissors.isEmpty then
      match self1.BuildStaticScissors env desc.scissors.length desc.scissors rawBufferIter1 with
      | (.error e, self2) => (.error e, self2)
      | (.ok _, self2) => (.ok (), self2)
    else
      (.ok (), self1)

/-- Lines 110-128 of the constructor: the input-assembler state, with the check of
the patch size against the limit. -/
def GLGraphicsPipeline.ctorInputAssembler (env : GLEnv) (self : GLGraphicsPipeline)
    (desc : GraphicsPipelineDescriptor) (limits : RenderingLimits) :
    Except Error Unit × GLGraphicsPipeline :=
  andThen (assign self (fun self v => { self with drawMode_ := v })
    (GLTypes.Map env env.MapPrimitiveTopology desc.primitiveTopology)) fun self =>
  if IsPrimitiveTopologyPatches desc.primitiveTopology then
    let patchSize := GetPrimitiveTopologyPatchSize desc.primitiveTopology
    if patchSize > limits.maxPatchVertices then
      (.error (.runtime_error
        ("renderer does not support " ++ toString self.patchVertices_ ++
          " control points for patches (limit is " ++
          toString limits.maxPatchVertices ++ ")")), self)
    else
      (.ok (), { self with patchVertices_ := static_cast_GLint patchSize })
  else
    (.ok (), { self with patchVertices_ := 0 })

/-- Lines 130-133 of the constructor: the depth state. -/
def GLGraphicsPipeline.ctorDepthState (env : GLEnv) (self : GLGraphicsPipeline)
    (desc : GraphicsPipelineDescriptor) : Except Error Unit × GLGraphicsPipeline :=
  let self := { self with
    depthTestEnabled_ := desc.depth.testEnabled
    depthMask_ := if desc.depth.writeEnabled then GL_TRUE else GL_FALSE }
  assign self (fun self v => { self with depthFunc_ := v })
    (GLTypes.Map env env.MapCompareOp desc.depth.compareOp)

/-- Lines 135-138 of the constructor: the stencil state.  `Convert` works on the
member it is handed, which keeps what was assigned before a throw. -/
def GLGraphicsPipeline.ctorStencilState (env : GLEnv) (self : GLGraphicsPipeline)
    (desc : GraphicsPipelineDescriptor) : Except Error Unit × GLGraphicsPipeline :=
  let self := { self with stencilTestEnabled_ := desc.stencil.testEnabled }
  andThen ((ConvertStencil env self.stencilFront_ desc.stencil.front).1,
    { self with stencilFront_ := (ConvertStencil env self.stencilFront_ desc.stencil.front).2 })
  fun self =>
  ((ConvertStencil env self.stencilBack_ desc.stencil.back).1,
    { self with stencilBack_ := (ConvertStencil env self.stencilBack_ desc.stencil.back).2 })

/-- Lines 140-154 of the constructor: the rasterizer state. -/
def GLGraphicsPipeline.ctorRasterizerState (env : GLEnv) (self : GLGraphicsPipeline)
    (desc : GraphicsPipelineDescriptor) : Except Error Unit × GLGraphicsPipeline :=
  andThen (assign self (fun self v => { self with polygonMode_ := v })
    (GLTypes.Map env env.MapPolygonMode desc.rasterizer.polygonMode)) fun self =>
  andThen (assign self (fun self v => { self with cullFace_ := v })
    (GLTypes.Map env env.MapCullMode desc.rasterizer.cullMode)) fun self =>
  let self := { self with
    frontFace_ := if desc.rasterizer.frontCCW then GL_CCW else GL_CW
    scissorTestEnabled_ := desc.rasterizer.scissorTestEnabled
    depthClampEnabled_ := desc.rasterizer.depthClampEnabled
    multiSampleEnabled_ := desc.rasterizer.multiSampling.enabled
    sampleMask_ := desc.rasterizer.multiSampling.sampleMask
    lineSmoothEnabled_ := desc.rasterizer.antiAliasedLineEnabled
    lineWidth_ := desc.rasterizer.lineWidth
    polygonOffsetEnabled_ := IsPolygonOffsetEnabled desc.rasterizer.depthBias }
  andThen (assign self (fun self v => { self with polygonOffsetMode_ := v })
    (PolygonModeToPolygonOffset desc.rasterizer.polygonMode)) fun self =>
  (.ok (), { self with
    polygonOffsetFactor_ := desc.rasterizer.depthBias.slopeFactor
    polygonOffsetUnits_ := desc.rasterizer.depthBias.constantFactor
    polygonOffsetClamp_ := desc.rasterizer.depthBias.clamp })

/-- Lines 160-165 of the constructor: the blend state. -/
def GLGraphicsPipeline.ctorBlendState (env : GLEnv) (self : GLGraphicsPipeline)
    (desc : GraphicsPipelineDescriptor) : Except Error Unit × GLGraphicsPipeline :=
  let self := { self with
    blendEnabled_ := desc.blend.blendEnabled
    blendColor_ := desc.blend.blendFactor
    blendColorNeeded_ := IsBlendColorNeeded desc.blend }
  andThen ((ConvertBlendStates env self.blendStates_ desc.blend.targets).1,
    { self with blendStates_ := (ConvertBlendStates env self.blendStates_ desc.blend.targets).2 })
  fun self =>
  (.ok (), { self with sampleAlphaToCoverage_ := desc.blend.alphaToCoverageEnabled })

/-- Lines 167-172 of the constructor: the colour logic operation. -/
def GLGraphicsPipeline.ctorLogicOp (env : GLEnv) (self : GLGraphicsPipeline)
    (desc : GraphicsPipelineDescriptor) : Except Error Unit × GLGraphicsPipeline :=
  if desc.blend.logicOp != LogicOp.Disabled then
    let self := { self with logicOpEnabled_ := true }
    assign self (fun self v => { self with logicOp_ := v })
      (GLTypes.Map env env.MapLogicOp desc.blend.logicOp)
  else
    (.ok (), self)

/-- Lines 130-172 of the constructor: the depth, stencil, rasterizer and blend
state and the colour logic operation. -/
def GLGraphicsPipeline.ctorRenderState (env : GLEnv) (self : GLGraphicsPipeline)
    (desc : GraphicsPipelineDescriptor) : Except Error Unit × GLGraphicsPipeline :=
  andThen (self.ctorDepthState env desc) fun self =>
  andThen (self.ctorStencilState env desc) fun self =>
  andThen (self.ctorRasterizerState env desc) fun self =>
  andThen (self.ctorBlendState env desc) fun self =>
  self.ctorLogicOp env desc

/-- The constructor `GLGraphicsPipeline::GLGraphicsPipeline` (lines 103-177).  The
first component tells whether the constructor returned or threw; the second is
the object under construction at that moment. -/
def GLGraphicsPipeline.ctor (env : GLEnv) (desc : GraphicsPipelineDescriptor)
    (limits : RenderingLimits) : Except Error Unit × GLGraphicsPipeline :=
  let self := GLGraphicsPipeline.init
  let self := { self with shaderProgram_ := desc.shaderProgram }
  if self.shaderProgram_.isNone then
    (.error (.invalid_argument
      "failed to create graphics pipeline due to missing shader program"), self)
  else
    andThen (self.ctorInputAssembler env desc limits) fun self =>
    andThen (self.ctorRenderState env desc) fun self =>
    if !desc.viewports.isEmpty || !desc.scissors.isEmpty then
      self.BuildStaticStateBuffer env desc
    else
      (.ok (), self)

/-- `GLGraphicsPipeline::SetStaticViewports` (lines 363-376).  `buf` is the array the
iterator runs over.  The `memcpy` reads its source range out of `buf` and fills
the local array `intermediateViewports` of `LLGL_MAX_NUM_VIEWPORTS_AND_SCISSORS`
entries (copying more bytes than the local array holds is out of bounds);
`SetViewportArray` reads `numStaticViewports_` records out of the local array,
`SetDepthRangeArray` reads its records straight out of `buf`. -/
def GLGraphicsPipeline.SetStaticViewports (env : GLEnv) (self : GLGraphicsPipeline)
    (buf : List Byte) (stateMngr : GLStateManager) (rawBufferIter : RawBufferIterator) :
    Except Error (GLStateManager × RawBufferIterator) := do
  let count := toSizeT self.numStaticViewports_
  let (src, rawBufferIter) := rawBufferIter.Next sizeof_GLViewport count
  let numBytes := (count * sizeof_GLViewport) % 18446744073709551616
  let copied ← loadBytes buf src numBytes
  if env.LLGL_MAX_NUM_VIEWPORTS_AND_SCISSORS * sizeof_GLViewport < numBytes then
    throw Error.out_of_bounds
  let intermediateViewports := copied
  let stateMngr := stateMngr.call (.SetViewportArray 0 self.numStaticViewports_
    (decodeRecords GLViewport.ofBytes sizeof_GLViewport self.numStaticViewports_.toNat
      intermediateViewports))
  let (src, rawBufferIter) := rawBufferIter.Next sizeof_GLDepthRange count
  let depthRanges ← loadBytes buf src (self.numStaticViewports_.toNat * sizeof_GLDepthRange)
  let stateMngr := stateMngr.call (.SetDepthRangeArray 0 self.numStaticViewports_
    (decodeRecords GLDepthRange.ofBytes sizeof_GLDepthRange self.numStaticViewports_.toNat
      depthRanges))
  pure (stateMngr, rawBufferIter)

/-- `GLGraphicsPipeline::SetStaticScissors` (lines 378-388), modelled like
`SetStaticViewports`. -/
def GLGraphicsPipeline.SetStaticScissors (env : GLEnv) (self : GLGraphicsPipeline)
    (buf : List Byte) (stateMngr : GLStateManager) (rawBufferIter : RawBufferIterator) :
    Except Error (GLStateManager × RawBufferIterator) := do
  let count := toSizeT self.numStaticScissors_
  let (src, rawBufferIter) := rawBufferIter.Next sizeof_GLScissor count
  let numBytes := (count * sizeof_GLScissor) % 18446744073709551616
  let copied ← loadBytes buf src numBytes
  if env.LLGL_MAX_NUM_VIEWPORTS_AND_SCISSORS * sizeof_GLScissor < numBytes then
    throw Error.out_of_bounds
  let intermediateScissors := copied
  let stateMngr := stateMngr.call (.SetScissorArray 0 self.numStaticScissors_
    (decodeRecords GLScissor.ofBytes sizeof_GLScissor self.numStaticScissors_.toNat
      intermediateScissors))
  pure (stateMngr, rawBufferIter)

/-- The first part of `GLGraphicsPipeline::Bind` (lines 181-262): everything up to
and including the colour logic operation.  `shader` is the object
`shaderProgram_` points to. -/
def GLGraphicsPipeline.BindRenderState (self : GLGraphicsPipeline) (shader : GLShaderProgram)
    (stateMngr : GLStateManager) : GLStateManager :=
  let stateMngr := stateMngr.call (.BindShaderProgram shader.GetID)
  let stateMngr := stateMngr.call (.Set GLState.RASTERIZER_DISCARD (!shader.HasFragmentShader))
  let stateMngr :=
    if self.patchVertices_ > 0 then
      stateMngr.call (.SetPatchVertices self.patchVertices_)
    else
      stateMngr
  let stateMngr :=
    if self.depthTestEnabled_ then
      (stateMngr.call (.Enable GLState.DEPTH_TEST)).call (.SetDepthFunc self.depthFunc_)
    else
      stateMngr.call (.Disable GLState.DEPTH_TEST)
  let stateMngr := stateMngr.call (.SetDepthMask self.depthMask_)
  let stateMngr :=
    if self.stencilTestEnabled_ then
      ((stateMngr.call (.Enable GLState.STENCIL_TEST)).call
        (.SetStencilState GL_FRONT self.stencilFront_)).call
        (.SetStencilState GL_BACK self.stencilBack_)
    else
      stateMngr.call (.Disable GLState.STENCIL_TEST)
  let stateMngr := stateMngr.call (.SetPolygonMode self.polygonMode_)
  let stateMngr := stateMngr.call (.SetFrontFace self.frontFace_)
  let stateMngr :=
    if self.cullFace_ != 0 then
      (stateMngr.call (.Enable GLState.CULL_FACE)).call (.SetCullFace self.cullFace_)
    else
      stateMngr.call (.Disable GLState.CULL_FACE)
  let stateMngr :=
    if self.polygonOffsetEnabled_ then
      (stateMngr.call (.Enable self.polygonOffsetMode_)).call
        (.SetPolygonOffset self.polygonOffsetFactor_ self.polygonOffsetUnits_
          self.polygonOffsetClamp_)
    else
      stateMngr.call (.Disable self.polygonOffsetMode_)
  let stateMngr := stateMngr.call (.Set GLState.SCISSOR_TEST self.scissorTestEnabled_)
  let stateMngr := stateMngr.call (.Set GLState.DEPTH_CLAMP self.depthClampEnabled_)
  let stateMngr := stateMngr.call (.Set GLState.MULTISAMPLE self.multiSampleEnabled_)
  let stateMngr := stateMngr.call (.Set GLState.LINE_SMOOTH self.lineSmoothEnabled_)
  let stateMngr := stateMngr.call (.SetLineWidth self.lineWidth_)
  let stateMngr := stateMngr.call (.Set GLState.BLEND self.blendEnabled_)
  let stateMngr := stateMngr.call (.SetBlendStates self.blendStates_ self.blendEnabled_)
  let stateMngr :=
    if self.blendColorNeeded_ then
      stateMngr.call (.SetBlendColor self.blendColor_)
    else
      stateMngr
  let stateMngr :=
    if self.multiSampleEnabled_ then
      stateMngr.call (.Set GLState.SAMPLE_ALPHA_TO_COVERAGE self.sampleAlphaToCoverage_)
    else
      stateMngr
  if self.logicOpEnabled_ then
    (stateMngr.call (.Enable GLState.COLOR_LOGIC_OP)).call (.SetLogicOp self.logicOp_)
  else
    stateMngr.call (.Disable GLState.COLOR_LOGIC_OP)

/-- The last part of `GLGraphicsPipeline::Bind` (lines 264-272): the static
viewports and scissors. -/
def GLGraphicsPipeline.BindStaticState (env : GLEnv) (self : GLGraphicsPipeline)
    (stateMngr : GLStateManager) : Except Error GLStateManager :=
  match self.staticStateBuffer_ with
  | none => .ok stateMngr
  | some buf =>
    let rawBufferIter : RawBufferIterator := { byteBuffer_ := 0 }
    let afterViewports : Except Error (GLStateManager × RawBufferIterator) :=
      if self.numStaticViewports_ > 0 then
        self.SetStaticViewports env buf stateMngr rawBufferIter
      else
        .ok (stateMngr, rawBufferIter)
    match afterViewports with
    | .error e => .error e
    | .ok (stateMngr1, rawBufferIter1) =>
      if self.numStaticScissors_ > 0 then
        match self.SetStaticScissors env buf stateMngr1 rawBufferIter1 with
        | .error e => .error e
        | .ok (stateMngr2, _) => .ok stateMngr2
      else
        .ok stateMngr1

/-- `GLGraphicsPipeline::Bind` (lines 179-273).  Dereferencing a null
`shaderProgram_` is out of bounds. -/
def GLGraphicsPipeline.Bind (env : GLEnv) (self : GLGraphicsPipeline)
    (stateMngr : GLStateManager) : Except Error GLStateManager :=
  match self.shaderProgram_ with
  | none => .error .out_of_bounds
  | some shader => self.BindStaticState env (self.BindRenderState shader stateMngr)

/-! ## Direct3D 11 types

The Direct3D 11 API is external.  Its structures are reproduced with the members
the sources touch, a COM object is an opaque identity, and the device is an oracle
that answers every creation call with an `HRESULT`. -/

/-- The type `DXGI_FORMAT`, as the numeric value of the enumerator. -/
abbrev DXGI_FORMAT := Nat

/-- The enumerator `DXGI_FORMAT_UNKNOWN`. -/
def DXGI_FORMAT_UNKNOWN : DXGI_FORMAT := 0

/-- The enumerator `DXGI_FORMAT_D32_FLOAT`. -/
def DXGI_FORMAT_D32_FLOAT : DXGI_FORMAT := 40

/-- The enumerator `DXGI_FORMAT_D24_UNORM_S8_UINT`. -/
def DXGI_FORMAT_D24_UNORM_S8_UINT : DXGI_FORMAT := 45

/-- The type `HRESULT`. -/
abbrev HRESULT := Int

/-- The macro `FAILED(hr)`. -/
def FAILED (hr : HRESULT) : Bool :=
  hr < 0

/-- The constant `D3D11_USAGE_DEFAULT`. -/
def D3D11_USAGE_DEFAULT : Nat := 0

/-- The constant `D3D11_BIND_DEPTH_STENCIL`. -/
def D3D11_BIND_DEPTH_STENCIL : Nat := 0x40

/-- Identity of a COM object: one that existed before the render target was built
(the native object of a texture), or the one created by the device call with the
given serial number. -/
inductive ComObject where
  | external (id : Nat)
  | created (serial : Nat)
deriving DecidableEq, Repr

/-- `DXGI_SAMPLE_DESC`. -/
structure DXGI_SAMPLE_DESC where
  Count : Nat
  Quality : Nat
deriving DecidableEq, Repr

/-- `D3D11_TEXTURE2D_DESC`; all numeric members are `UINT`. -/
structure D3D11_TEXTURE2D_DESC where
  Width : Nat
  Height : Nat
  MipLevels : Nat
  ArraySize : Nat
  Format : DXGI_FORMAT
  SampleDesc : DXGI_SAMPLE_DESC
  Usage : Nat
  BindFlags : Nat
  CPUAccessFlags : Nat
  MiscFlags : Nat
deriving DecidableEq, Repr

/-- The `ViewDimension` of a `D3D11_RENDER_TARGET_VIEW_DESC` together with the
member of the anonymous union that goes with it.  `UNKNOWN` is the state after
`InitMemory` (all zero). -/
inductive D3D11_RTV_DIMENSION where
  | UNKNOWN
  | TEXTURE1D (MipSlice : Nat)
  | TEXTURE1DARRAY (MipSlice : Nat) (FirstArraySlice : Nat) (ArraySize : Nat)
  | TEXTURE2D (MipSlice : Nat)
  | TEXTURE2DARRAY (MipSlice : Nat) (FirstArraySlice : Nat) (ArraySize : Nat)
  | TEXTURE2DMS
  | TEXTURE2DMSARRAY (FirstArraySlice : Nat) (ArraySize : Nat)
  | TEXTURE3D (MipSlice : Nat) (FirstWSlice : Nat) (WSize : Nat)
deriving DecidableEq, Repr

/-- `D3D11_RENDER_TARGET_VIEW_DESC`. -/
structure D3D11_RENDER_TARGET_VIEW_DESC where
  Format : DXGI_FORMAT
  View : D3D11_RTV_DIMENSION
deriving DecidableEq, Repr

/-- `D3D11CalcSubresource` (d3d11.h), in `UINT` arithmetic. -/
def D3D11CalcSubresource (MipSlice ArraySlice MipLevels : Nat) : Nat :=
  (MipSlice + ArraySlice * MipLevels) % 4294967296

/-- `TextureType` (include/LLGL/TextureFlags.h). -/
inductive TextureType where
  | Texture1D
  | Texture2D
  | Texture3D
  | TextureCube
  | Texture1DArray
  | Texture2DArray
  | TextureCubeArray
  | Texture2DMS
  | Texture2DMSArray
deriving DecidableEq, Repr

/-- Modelled from the spec: `IsMultiSampleTexture` (public header, not among the
sources) tells whether the texture "is already a multisample-type texture". -/
def IsMultiSampleTexture : TextureType → Bool
  | .Texture2DMS => true
  | .Texture2DMSArray => true
  | _ => false

/-- `AttachmentType` (include/LLGL/RenderTargetFlags.h). -/
inductive AttachmentType where
  | Color
  | Depth
  | DepthStencil
  | Stencil
deriving DecidableEq, Repr

/-- `Extent2D`: two `std::uint32_t` members. -/
structure Extent2D where
  width : Nat
  height : Nat
deriving DecidableEq, Repr

/-- What `D3D11RenderTarget.cpp` reads of a `D3D11Texture`: `GetType()`,
`GetFormat()`, the native object (`GetNative().resource` and `GetNative().tex2D`
are members of one union, hence the same pointer) and the description that
`tex2D->GetDesc` returns. -/
structure D3D11Texture where
  GetType : TextureType
  GetFormat : DXGI_FORMAT
  GetNative : Nat
  GetDesc : D3D11_TEXTURE2D_DESC
deriving DecidableEq, Repr

/-- `AttachmentDescriptor`; `texture` is a pointer and may be null. -/
structure AttachmentDescriptor where
  type : AttachmentType
  texture : Option D3D11Texture
  mipLevel : Nat
  arrayLayer : Nat
deriving DecidableEq, Repr

/-- `RenderTargetDescriptor`; `renderPass` is a pointer, held as an identity. -/
structure RenderTargetDescriptor where
  renderPass : Option Nat
  resolution : Extent2D
  multiSampling : MultiSamplingDescriptor
  attachments : List AttachmentDescriptor
deriving DecidableEq, Repr

/-- One call on the `ID3D11Device`, with its arguments and the `HRESULT` it
returned.  The object a successful call creates is `ComObject.created n`, where
`n` is the position of the call in the log. -/
inductive DeviceCall where
  | CreateTexture2D (desc : D3D11_TEXTURE2D_DESC) (hr : HRESULT)
  | CreateRenderTargetView (resource : Option ComObject)
      (desc : D3D11_RENDER_TARGET_VIEW_DESC) (hr : HRESULT)
  | CreateDepthStencilView (resource : Option ComObject) (hr : HRESULT)
deriving DecidableEq, Repr

/-- One call on the `ID3D11DeviceContext`. -/
inductive ContextCall where
  | ResolveSubresource (dstResource : Option ComObject) (dstSubresource : Nat)
      (srcResource : Option ComObject) (srcSubresource : Nat) (format : DXGI_FORMAT)
deriving DecidableEq, Repr

/-- An element of `multiSampledAttachments_` (declared in D3D11RenderTarget.h), in
the member order of the aggregate initialisation at lines 225-232. -/
structure MultiSampledAttachment where
  texture2DMS : Option ComObject
  targetTexture : Option ComObject
  targetSubresourceIndex : Nat
  format : DXGI_FORMAT
deriving DecidableEq, Repr

/-- The data members of `D3D11RenderTarget`, and the log of the calls made on
`device_` so far (oldest first).  A `ComPtr` or raw COM pointer is `none` when
null. -/
structure D3D11RenderTarget where
  deviceCalls : List DeviceCall
  resolution_ : Extent2D
  multiSamples_ : Nat
  renderPass_ : Option Nat
  renderTargetViews_ : List (Option ComObject)
  renderTargetViewsRef_ : List (Option ComObject)
  depthStencil_ : Option ComObject
  depthStencilView_ : Option ComObject
  depthStencilFormat_ : DXGI_FORMAT
  multiSampledAttachments_ : List MultiSampledAttachment
deriving DecidableEq, Repr

/-- What `D3D11RenderTarget.cpp` takes from outside the sources: the answers of the
device (each may depend on all earlier calls), the inherited member function
`RenderTarget::ValidateMipResolution` (it may inspect the render target and
throw, it has no access to the private members), and
`MultiSamplingDescriptor::SampleCount`. -/
structure D3D11Env where
  CreateTexture2D : List DeviceCall → D3D11_TEXTURE2D_DESC → HRESULT
  CreateRenderTargetView :
    List DeviceCall → Option ComObject → D3D11_RENDER_TARGET_VIEW_DESC → HRESULT
  CreateDepthStencilView : List DeviceCall → Option ComObject → HRESULT
  ValidateMipResolution : D3D11RenderTarget → D3D11Texture → Nat → Except Error Unit
  SampleCount : MultiSamplingDescriptor → Nat

/-- Modelled from the spec: `DXThrowIfFailed` (DXCommon/DXCore, not among the
sources) turns a failed native call into an immediate failure of the operation
(a `std::runtime_error` carrying `info`). -/
def DXThrowIfFailed (hr : HRESULT) (info : String) : Except Error Unit :=
  if FAILED hr then .error (.runtime_error info) else .ok ()

/-! ## `D3D11RenderTarget` (sources/Renderer/Direct3D11/Texture/D3D11RenderTarget.cpp) -/

/-- `D3D11RenderTarget::GetResolution` (lines 39-42). -/
def D3D11RenderTarget.GetResolution (self : D3D11RenderTarget) : Extent2D :=
  self.resolution_

/-- `D3D11RenderTarget::GetNumColorAttachments` (lines 44-47). -/
def D3D11RenderTarget.GetNumColorAttachments (self : D3D11RenderTarget) : Nat :=
  self.renderTargetViews_.length % 4294967296

/-- `D3D11RenderTarget::HasDepthAttachment` (lines 49-52). -/
def D3D11RenderTarget.HasDepthAttachment (self : D3D11RenderTarget) : Bool :=
  self.depthStencilView_ != none

/-- `D3D11RenderTarget::HasStencilAttachment` (lines 54-57). -/
def D3D11RenderTarget.HasStencilAttachment (self : D3D11RenderTarget) : Bool :=
  self.depthStencilView_ != none && self.depthStencilFormat_ == DXGI_FORMAT_D24_UNORM_S8_UINT

/-- `D3D11RenderTarget::HasMultiSampling` (lines 311-314). -/
def D3D11RenderTarget.HasMultiSampling (self : D3D11RenderTarget) : Bool :=
  self.multiSamples_ > 1

/-- `D3D11RenderTarget::ResolveSubresources` (lines 66-78): the calls made on the
context, in order, and the render target afterwards. -/
def D3D11RenderTarget.ResolveSubresources (self : D3D11RenderTarget)
    (context : List ContextCall) : List ContextCall × D3D11RenderTarget :=
  (self.multiSampledAttachments_.foldl
    (fun ctx attachment =>
      ctx ++ [ContextCall.ResolveSubresource attachment.targetTexture
        attachment.targetSubresourceIndex attachment.texture2DMS 0 attachment.format])
    context, self)

/-- The call `device_->CreateTexture2D(&desc, nullptr, p.ReleaseAndGetAddressOf())`:
the `HRESULT`, the new value of the `ComPtr` `p`, and the render target with the
call logged. -/
def D3D11RenderTarget.deviceCreateTexture2D (env : D3D11Env) (self : D3D11RenderTarget)
    (desc : D3D11_TEXTURE2D_DESC) : HRESULT × Option ComObject × D3D11RenderTarget :=
  let hr := env.CreateTexture2D self.deviceCalls desc
  (hr, if FAILED hr then none else some (ComObject.created self.deviceCalls.length),
    { self with deviceCalls := self.deviceCalls ++ [DeviceCall.CreateTexture2D desc hr] })

/-- The call `device_->CreateRenderTargetView(resource, &desc,
p.ReleaseAndGetAddressOf())`. -/
def D3D11RenderTarget.deviceCreateRenderTargetView (env : D3D11Env)
    (self : D3D11RenderTarget) (resource : Option ComObject)
    (desc : D3D11_RENDER_TARGET_VIEW_DESC) :
    HRESULT × Option ComObject × D3D11RenderTarget :=
  let hr := env.CreateRenderTargetView self.deviceCalls resource desc
  (hr, if FAILED hr then none else some (ComObject.created self.deviceCalls.length),
    { self with
      deviceCalls := self.deviceCalls ++ [DeviceCall.CreateRenderTargetView resource desc hr] })

/-- The call `device_->CreateDepthStencilView(resource, nullptr,
p.ReleaseAndGetAddressOf())`. -/
def D3D11RenderTarget.deviceCreateDepthStencilView (env : D3D11Env)
    (self : D3D11RenderTarget) (resource : Option ComObject) :
    HRESULT × Option ComObject × D3D11RenderTarget :=
  let hr := env.CreateDepthStencilView self.deviceCalls resource
  (hr, if FAILED hr then none else some (ComObject.created self.deviceCalls.length),
    { self with
      deviceCalls := self.deviceCalls ++ [DeviceCall.CreateDepthStencilView resource hr] })

/-- `D3D11RenderTarget::CreateDepthStencilAndDSV` (lines 272-298). -/
def D3D11RenderTarget.CreateDepthStencilAndDSV (env : D3D11Env) (self : D3D11RenderTarget)
    (format : DXGI_FORMAT) : Except Error Unit × D3D11RenderTarget :=
  let self := { self with depthStencilFormat_ := format }
  let texDesc : D3D11_TEXTURE2D_DESC :=
    { Width := self.GetResolution.width
      Height := self.GetResolution.height
      MipLevels := 1
      ArraySize := 1
      Format := self.depthStencilFormat_
      SampleDesc := { Count := max 1 self.multiSamples_, Quality := 0 }
      Usage := D3D11_USAGE_DEFAULT
      BindFlags := D3D11_BIND_DEPTH_STENCIL
      CPUAccessFlags := 0
      MiscFlags := 0 }
  match self.deviceCreateTexture2D env texDesc with
  | (hr, depthStencil, self) =>
    let self := { self with depthStencil_ := depthStencil }
    match DXThrowIfFailed hr "failed to create D3D11 depth-texture for render-target" with
    | .error e => (.error e, self)
    | .ok () =>
      match self.deviceCreateDepthStencilView env self.depthStencil_ with
      | (hr, depthStencilView, self) =>
        let self := { self with depthStencilView_ := depthStencilView }
        match DXThrowIfFailed hr
          "failed to create D3D11 depth-stencil-view (DSV) for render-target" with
        | .error e => (.error e, self)
        | .ok () => (.ok (), self)

/-- `D3D11RenderTarget::AttachDepthBuffer` (lines 113-116). -/
def D3D11RenderTarget.AttachDepthBuffer (env : D3D11Env) (self : D3D11RenderTarget) :
    Except Error Unit × D3D11RenderTarget :=
  self.CreateDepthStencilAndDSV env DXGI_FORMAT_D32_FLOAT

/-- `D3D11RenderTarget::AttachStencilBuffer` (lines 118-121). -/
def D3D11RenderTarget.AttachStencilBuffer (env : D3D11Env) (self : D3D11RenderTarget) :
    Except Error Unit × D3D11RenderTarget :=
  self.CreateDepthStencilAndDSV env DXGI_FORMAT_D24_UNORM_S8_UINT

/-- `D3D11RenderTarget::AttachDepthStencilBuffer` (lines 123-126). -/
def D3D11RenderTarget.AttachDepthStencilBuffer (env : D3D11Env) (self : D3D11RenderTarget) :
    Except Error Unit × D3D11RenderTarget :=
  self.CreateDepthStencilAndDSV env DXGI_FORMAT_D24_UNORM_S8_UINT

/-- `FillViewDescForTexture1D` (lines 128-132). -/
def FillViewDescForTexture1D (attachmentDesc : AttachmentDescriptor)
    (viewDesc : D3D11_RENDER_TARGET_VIEW_DESC) : D3D11_RENDER_TARGET_VIEW_DESC :=
  { viewDesc with View := .TEXTURE1D attachmentDesc.mipLevel }

/-- `FillViewDescForTexture2D` (lines 134-138). -/
def FillViewDescForTexture2D (attachmentDesc : AttachmentDescriptor)
    (viewDesc : D3D11_RENDER_TARGET_VIEW_DESC) : D3D11_RENDER_TARGET_VIEW_DESC :=
  { viewDesc with View := .TEXTURE2D attachmentDesc.mipLevel }

/-- `FillViewDescForTexture3D` (lines 140-146). -/
def FillViewDescForTexture3D (attachmentDesc : AttachmentDescriptor)
    (viewDesc : D3D11_RENDER_TARGET_VIEW_DESC) : D3D11_RENDER_TARGET_VIEW_DESC :=
  { viewDesc with View := .TEXTURE3D attachmentDesc.mipLevel attachmentDesc.arrayLayer 1 }

/-- `FillViewDescForTexture1DArray` (lines 148-154). -/
def FillViewDescForTexture1DArray (attachmentDesc : AttachmentDescriptor)
    (viewDesc : D3D11_RENDER_TARGET_VIEW_DESC) : D3D11_RENDER_TARGET_VIEW_DESC :=
  { viewDesc with
    View := .TEXTURE1DARRAY attachmentDesc.mipLevel attachmentDesc.arrayLayer 1 }

/-- `FillViewDescForTexture2DArray` (lines 156-162). -/
def FillViewDescForTexture2DArray (attachmentDesc : AttachmentDescriptor)
    (viewDesc : D3D11_RENDER_TARGET_VIEW_DESC) : D3D11_RENDER_TARGET_VIEW_DESC :=
  { viewDesc with
    View := .TEXTURE2DARRAY attachmentDesc.mipLevel attachmentDesc.arrayLayer 1 }

/-- `FillViewDescForTexture2DMS` (lines 164-167). -/
def FillViewDescForTexture2DMS (_attachmentDesc : AttachmentDescriptor)
    (viewDesc : D3D11_RENDER_TARGET_VIEW_DESC) : D3D11_RENDER_TARGET_VIEW_DESC :=
  { viewDesc with View := .TEXTURE2DMS }

/-- `FillViewDescForTexture2DArrayMS` (lines 169-174). -/
def FillViewDescForTexture2DArrayMS (attachmentDesc : AttachmentDescriptor)
    (viewDesc : D3D11_RENDER_TARGET_VIEW_DESC) : D3D11_RENDER_TARGET_VIEW_DESC :=
  { viewDesc with View := .TEXTURE2DMSARRAY attachmentDesc.arrayLayer 1 }

/-- `D3D11RenderTarget::CreateAndAppendRTV` (lines 300-309). -/
def D3D11RenderTarget.CreateAndAppendRTV (env : D3D11Env) (self : D3D11RenderTarget)
    (resource : Option ComObject) (rtvDesc : D3D11_RENDER_TARGET_VIEW_DESC) :
    Except Error Unit × D3D11RenderTarget :=
  match self.deviceCreateRenderTargetView env resource rtvDesc with
  | (hr, rtv, self) =>
    match DXThrowIfFailed hr "failed to create D3D11 render-target-view (RTV)" with
    | .error e => (.error e, self)
    | .ok () =>
      (.ok (), { self with
        renderTargetViews_ := self.renderTargetViews_ ++ [rtv]
        renderTargetViewsRef_ := self.renderTargetViewsRef_ ++ [rtv] })

/-- The `UINT` shift `value << shift`. -/
def shiftLeftUINT (value shift : Nat) : Nat :=
  (value * 2 ^ shift) % 4294967296

/-- The `switch` at lines 195-208: the view description for the intermediate
multi-sample texture, or the exception of the `default` branch. -/
def intermediateViewDesc (textureType : TextureType) (attachmentDesc : AttachmentDescriptor)
    (rtvDesc : D3D11_RENDER_TARGET_VIEW_DESC) : Except Error D3D11_RENDER_TARGET_VIEW_DESC :=
  match textureType with
  | .Texture2D => .ok (FillViewDescForTexture2DMS attachmentDesc rtvDesc)
  | .TextureCube => .ok (FillViewDescForTexture2DArrayMS attachmentDesc rtvDesc)
  | .Texture2DArray => .ok (FillViewDescForTexture2DArrayMS attachmentDesc rtvDesc)
  | .TextureCubeArray => .ok (FillViewDescForTexture2DArrayMS attachmentDesc rtvDesc)
  | _ => .error (.invalid_argument
      "failed to attach D3D11 texture to multi-sample render-target")

/-- The `switch` at lines 240-265: the view description for the target texture. -/
def targetViewDesc (textureType : TextureType) (attachmentDesc : AttachmentDescriptor)
    (rtvDesc : D3D11_RENDER_TARGET_VIEW_DESC) : D3D11_RENDER_TARGET_VIEW_DESC :=
  match textureType with
  | .Texture1D => FillViewDescForTexture1D attachmentDesc rtvDesc
  | .Texture2D => FillViewDescForTexture2D attachmentDesc rtvDesc
  | .Texture3D => FillViewDescForTexture3D attachmentDesc rtvDesc
  | .Texture1DArray => FillViewDescForTexture1DArray attachmentDesc rtvDesc
  | .TextureCube => FillViewDescForTexture2DArray attachmentDesc rtvDesc
  | .Texture2DArray => FillViewDescForTexture2DArray attachmentDesc rtvDesc
  | .TextureCubeArray => FillViewDescForTexture2DArray attachmentDesc rtvDesc
  | .Texture2DMS => FillViewDescForTexture2DMS attachmentDesc rtvDesc
  | .Texture2DMSArray => FillViewDescForTexture2DArrayMS attachmentDesc rtvDesc

/-- `D3D11RenderTarget::AttachTexture` (lines 176-270). -/
def D3D11RenderTarget.AttachTexture (env : D3D11Env) (self : D3D11RenderTarget)
    (texture : D3D11Texture) (attachmentDesc : AttachmentDescriptor) :
    Except Error Unit × D3D11RenderTarget :=
  let textureD3D := texture
  match env.ValidateMipResolution self texture attachmentDesc.mipLevel with
  | .error e => (.error e, self)
  | .ok () =>
    let rtvDesc : D3D11_RENDER_TARGET_VIEW_DESC :=
      { Format := textureD3D.GetFormat, View := .UNKNOWN }
    if self.HasMultiSampling && !IsMultiSampleTexture texture.GetType then
      match intermediateViewDesc texture.GetType attachmentDesc rtvDesc with
      | .error e => (.error e, self)
      | .ok rtvDesc =>
        let texDesc := textureD3D.GetDesc
        let texDesc := { texDesc with
          Width := shiftLeftUINT texDesc.Width attachmentDesc.mipLevel
          Height := shiftLeftUINT texDesc.Height attachmentDesc.mipLevel
          MipLevels := 1
          SampleDesc := { texDesc.SampleDesc with Count := self.multiSamples_ }
          MiscFlags := 0 }
        match self.deviceCreateTexture2D env texDesc with
        | (hr, tex2DMS, self) =>
          match DXThrowIfFailed hr
            "failed to create D3D11 multi-sampled 2D-texture for render-target" with
          | .error e => (.error e, self)
          | .ok () =>
            let entry : MultiSampledAttachment :=
              { texture2DMS := tex2DMS
                targetTexture := some (ComObject.external textureD3D.GetNative)
                targetSubresourceIndex :=
                  D3D11CalcSubresource attachmentDesc.mipLevel attachmentDesc.arrayLayer
                    texDesc.MipLevels
                format := texDesc.Format }
            let self := { self with
              multiSampledAttachments_ := self.multiSampledAttachments_ ++ [entry] }
            self.CreateAndAppendRTV env tex2DMS rtvDesc
    else
      let rtvDesc := targetViewDesc texture.GetType attachmentDesc rtvDesc
      self.CreateAndAppendRTV env (some (ComObject.external textureD3D.GetNative)) rtvDesc

/-- `D3D11RenderTarget::Attach` (lines 85-111). -/
def D3D11RenderTarget.Attach (env : D3D11Env) (self : D3D11RenderTarget)
    (attachmentDesc : AttachmentDescriptor) : Except Error Unit × D3D11RenderTarget :=
  match attachmentDesc.texture with
  | some texture => self.AttachTexture env texture attachmentDesc
  | none =>
    match attachmentDesc.type with
    | .Color =>
      (.error (.invalid_argument
        "cannot have color attachment in render target without a valid texture"), self)
    | .Depth => self.AttachDepthBuffer env
    | .DepthStencil => self.AttachDepthStencilBuffer env
    | .Stencil => self.AttachStencilBuffer env

/-- The loop `for (const auto& attachment : desc.attachments) Attach(attachment);`
of the constructor (lines 34-35); the first exception ends it. -/
def D3D11RenderTarget.AttachAll (env : D3D11Env) :
    D3D11RenderTarget → List AttachmentDescriptor → Except Error Unit × D3D11RenderTarget
  | self, [] => (.ok (), self)
  | self, attachment :: rest =>
    match self.Attach env attachment with
    | (.error e, self1) => (.error e, self1)
    | (.ok (), self1) => D3D11RenderTarget.AttachAll env self1 rest

/-- The constructor `D3D11RenderTarget::D3D11RenderTarget` (lines 19-37).  The
members without a mem-initialiser start out null or empty;
`depthStencilFormat_` is only ever read after `depthStencilView_` was found
non-null, hence after it was assigned. -/
def D3D11RenderTarget.ctor (env : D3D11Env) (desc : RenderTargetDescriptor) :
    Except Error Unit × D3D11RenderTarget :=
  let self : D3D11RenderTarget :=
    { deviceCalls := []
      resolution_ := desc.resolution
      multiSamples_ := env.SampleCount desc.multiSampling
      renderPass_ := desc.renderPass
      renderTargetViews_ := []
      renderTargetViewsRef_ := []
      depthStencil_ := none
      depthStencilView_ := none
      depthStencilFormat_ := DXGI_FORMAT_UNKNOWN
      multiSampledAttachments_ := [] }
  self.AttachAll env desc.attachments

/-! ## Notions used in the statements -/

/-- The state-manager calls that set a viewport, depth-range or scissor array. -/
def GLCommand.isStaticArray : GLCommand → Bool
  | .SetViewportArray _ _ _ => true
  | .SetDepthRangeArray _ _ _ => true
  | .SetScissorArray _ _ _ => true
  | _ => false

/-- Object representation of a `GLViewport`. -/
def GLViewport.toBytes (v : GLViewport) : List Byte :=
  v.x.toBytes ++ v.y.toBytes ++ v.width.toBytes ++ v.height.toBytes

/-- Object representation of a `GLDepthRange`. -/
def GLDepthRange.toBytes (d : GLDepthRange) : List Byte :=
  d.minDepth.toBytes ++ d.maxDepth.toBytes

/-- Object representation of a `GLScissor`. -/
def GLScissor.toBytes (sc : GLScissor) : List Byte :=
  sc.x.toBytes ++ sc.y.toBytes ++ sc.width.toBytes ++ sc.height.toBytes

/-- A blend target one of whose four factors is `BlendFactor` or `InvBlendFactor`. -/
def BlendTargetDescriptor.usesBlendFactor (target : BlendTargetDescriptor) : Prop :=
  (target.srcColor = BlendOp.BlendFactor ∨ target.srcColor = BlendOp.InvBlendFactor) ∨
  (target.srcAlpha = BlendOp.BlendFactor ∨ target.srcAlpha = BlendOp.InvBlendFactor) ∨
  (target.dstColor = BlendOp.BlendFactor ∨ target.dstColor = BlendOp.InvBlendFactor) ∨
  (target.dstAlpha = BlendOp.BlendFactor ∨ target.dstAlpha = BlendOp.InvBlendFactor)

/-- An attachment that carries a texture of a non-multisample type. -/
def AttachmentDescriptor.hasNonMultiSampleTexture (a : AttachmentDescriptor) : Bool :=
  match a.texture with
  | some texture => !IsMultiSampleTexture texture.GetType
  | none => false

/-- An attachment without a texture. -/
def AttachmentDescriptor.isTextureless (a : AttachmentDescriptor) : Bool :=
  a.texture == none

/-- The device calls that are `CreateTexture2D`. -/
def DeviceCall.isCreateTexture2D : DeviceCall → Bool
  | .CreateTexture2D _ _ => true
  | _ => false

/-- The native resolve call that `ResolveSubresources` issues for one entry. -/
def MultiSampledAttachment.resolveCall (attachment : MultiSampledAttachment) : ContextCall :=
  ContextCall.ResolveSubresource attachment.targetTexture attachment.targetSubresourceIndex
    attachment.texture2DMS 0 attachment.format

/-- The destination textures of the pending resolves that a render target with
`multiSamples` samples records for a list of attachments: one per attachment
that carries a texture of a non-multisample type when `multiSamples > 1`, none
otherwise, in the order of the list. -/
def intermediateTargets (multiSamples : Nat) (attachments : List AttachmentDescriptor) :
    List (Option ComObject) :=
  attachments.filterMap (fun a =>
    match a.texture with
    | some texture =>
      if multiSamples > 1 && !IsMultiSampleTexture texture.GetType then
        some (some (ComObject.external texture.GetNative))
      else
        none
    | none => none)

/-- The format of the implicit depth-stencil surface created for a texture-less
attachment of the given type (lines 100-108 and 113-126). -/
def implicitDepthStencilFormat : AttachmentType → DXGI_FORMAT
  | .Depth => DXGI_FORMAT_D32_FLOAT
  | _ => DXGI_FORMAT_D24_UNORM_S8_UINT

/-- The last texture-less attachment of a list, if there is one. -/
def lastTextureless : List AttachmentDescriptor → Option AttachmentDescriptor
  | [] => none
  | a :: rest =>
    match lastTextureless rest with
    | some b => some b
    | none => if a.isTextureless then some a else none

/-- The bytes that `BuildStaticStateBuffer` lays out: the viewport records, then the
depth-range records, then the scissor records. -/
def packedStaticState (vs : List Viewport) (ss : List Scissor) : List Byte :=
  vs.flatMap (fun v => (viewportRecord v).toBytes) ++
  vs.flatMap (fun v => (depthRangeRecord v).toBytes) ++
  ss.flatMap (fun sc => (scissorRecord sc).toBytes)

/-- The calls that replay static viewports and scissors: a viewport array and a
depth-range array when there are viewports, a scissor array when there are
scissors. -/
def staticArrayCalls (vs : List Viewport) (ss : List Scissor) : List GLCommand :=
  (if vs = [] then []
    else [GLCommand.SetViewportArray 0 vs.length (vs.map viewportRecord),
          GLCommand.SetDepthRangeArray 0 vs.length (vs.map (depthRangeRecord))]) ++
  (if ss = [] then []
    else [GLCommand.SetScissorArray 0 ss.length (ss.map scissorRecord)])

/-- The object under construction when the constructor reaches line 174: the
shader program, the input-assembler state and the render state are in place. -/
def GLGraphicsPipeline.beforeStatic (env : GLEnv) (desc : GraphicsPipelineDescriptor)
    (limits : RenderingLimits) : GLGraphicsPipeline :=
  ((({ GLGraphicsPipeline.init with shaderProgram_ := desc.shaderProgram } :
    GLGraphicsPipeline).ctorInputAssembler env desc limits).2.ctorRenderState env desc).2

/-- The constructor gets as far as line 174: neither the input-assembler stretch
(lines 110-128) nor the render-state stretch (lines 130-172) throws. -/
def GLGraphicsPipeline.reachesStatic (env : GLEnv) (desc : GraphicsPipelineDescriptor)
    (limits : RenderingLimits) : Prop :=
  (({ GLGraphicsPipeline.init with shaderProgram_ := desc.shaderProgram } :
    GLGraphicsPipeline).ctorInputAssembler env desc limits).1 = .ok () ∧
  ((({ GLGraphicsPipeline.init with shaderProgram_ := desc.shaderProgram } :
    GLGraphicsPipeline).ctorInputAssembler env desc limits).2.ctorRenderState env desc).1
    = .ok ()

/-- The calls that the first part of `Bind` (lines 181-262) makes, in order. -/
def GLGraphicsPipeline.renderStateCalls (self : GLGraphicsPipeline) (shader : GLShaderProgram) :
    List GLCommand :=
  [GLCommand.BindShaderProgram shader.GetID,
   GLCommand.Set GLState.RASTERIZER_DISCARD (!shader.HasFragmentShader)] ++
  (if self.patchVertices_ > 0 then [GLCommand.SetPatchVertices self.patchVertices_] else []) ++
  (if self.depthTestEnabled_ then
    [GLCommand.Enable GLState.DEPTH_TEST, GLCommand.SetDepthFunc self.depthFunc_]
   else [GLCommand.Disable GLState.DEPTH_TEST]) ++
  [GLCommand.SetDepthMask self.depthMask_] ++
  (if self.stencilTestEnabled_ then
    [GLCommand.Enable GLState.STENCIL_TEST,
     GLCommand.SetStencilState GL_FRONT self.stencilFront_,
     GLCommand.SetStencilState GL_BACK self.stencilBack_]
   else [GLCommand.Disable GLState.STENCIL_TEST]) ++
  [GLCommand.SetPolygonMode self.polygonMode_, GLCommand.SetFrontFace self.frontFace_] ++
  (if self.cullFace_ != 0 then
    [GLCommand.Enable GLState.CULL_FACE, GLCommand.SetCullFace self.cullFace_]
   else [GLCommand.Disable GLState.CULL_FACE]) ++
  (if self.polygonOffsetEnabled_ then
    [GLCommand.Enable self.polygonOffsetMode_,
     GLCommand.SetPolygonOffset self.polygonOffsetFactor_ self.polygonOffsetUnits_
       self.polygonOffsetClamp_]
   else [GLCommand.Disable self.polygonOffsetMode_]) ++
  [GLCommand.Set GLState.SCISSOR_TEST self.scissorTestEnabled_,
   GLCommand.Set GLState.DEPTH_CLAMP self.depthClampEnabled_,
   GLCommand.Set GLState.MULTISAMPLE self.multiSampleEnabled_,
   GLCommand.Set GLState.LINE_SMOOTH self.lineSmoothEnabled_,
   GLCommand.SetLineWidth self.lineWidth_,
   GLCommand.Set GLState.BLEND self.blendEnabled_,
   GLCommand.SetBlendStates self.blendStates_ self.blendEnabled_] ++
  (if self.blendColorNeeded_ then [GLCommand.SetBlendColor self.blendColor_] else []) ++
  (if self.multiSampleEnabled_ then
    [GLCommand.Set GLState.SAMPLE_ALPHA_TO_COVERAGE self.sampleAlphaToCoverage_] else []) ++
  (if self.logicOpEnabled_ then
    [GLCommand.Enable GLState.COLOR_LOGIC_OP, GLCommand.SetLogicOp self.logicOp_]
   else [GLCommand.Disable GLState.COLOR_LOGIC_OP])

/-- `GLGraphicsPipeline::BuildStaticStateBuffer` (lines 280-299), returning in
addition the value that its local cursor `rawBufferIter` has at the end of the
body. -/
def GLGraphicsPipeline.BuildStaticStateBufferIter (env : GLEnv) (self : GLGraphicsPipeline)
    (desc : GraphicsPipelineDescriptor) : Except Error RawBufferIterator × GLGraphicsPipeline :=
  let bufferSize := staticStateBufferSize desc
  let self := { self with staticStateBuffer_ := some (MakeUniqueArray bufferSize) }
  let rawBufferIter : RawBufferIterator := { byteBuffer_ := 0 }
  let afterViewports : Except Error RawBufferIterator × GLGraphicsPipeline :=
    if !desc.viewports.isEmpty then
      self.BuildStaticViewports env desc.viewports.length desc.viewports rawBufferIter
    else
      (.ok rawBufferIter, self)
  match afterViewports with
  | (.error e, self1) => (.error e, self1)
  | (.ok rawBufferIter1, self1) =>
    if !desc.scissors.isEmpty then
      self1.BuildStaticScissors env desc.scissors.length desc.scissors rawBufferIter1
    else
      (.ok rawBufferIter1, self1)

/-- The block of `Bind` guarded by `if (staticStateBuffer_)` (lines 266-271), on the
array `buf` that the pointer owns, returning in addition the value that the
local cursor `rawBufferIter` has at the end of the block. -/
def GLGraphicsPipeline.BindStaticStateIter (env : GLEnv) (self : GLGraphicsPipeline)
    (buf : List Byte) (stateMngr : GLStateManager) :
    Except Error (GLStateManager × RawBufferIterator) :=
  let rawBufferIter : RawBufferIterator := { byteBuffer_ := 0 }
  let afterViewports : Except Error (GLStateManager × RawBufferIterator) :=
    if self.numStaticViewports_ > 0 then
      self.SetStaticViewports env buf stateMngr rawBufferIter
    else
      .ok (stateMngr, rawBufferIter)
  match afterViewports with
  | .error e => .error e
  | .ok (stateMngr1, rawBufferIter1) =>
    if self.numStaticScissors_ > 0 then
      self.SetStaticScissors env buf stateMngr1 rawBufferIter1
    else
      .ok (stateMngr1, rawBufferIter1)

/-- The calls that set the patch vertex count. -/
def GLCommand.isSetPatchVertices : GLCommand → Bool
  | .SetPatchVertices _ => true
  | _ => false

/-- The three polygon-offset states. -/
def GLState.isPolygonOffset : GLState → Bool
  | .POLYGON_OFFSET_FILL => true
  | .POLYGON_OFFSET_LINE => true
  | .POLYGON_OFFSET_POINT => true
  | _ => false

/-- The calls that concern the polygon offset: a toggle of one of the three
polygon-offset states, or `SetPolygonOffset`. -/
def GLCommand.isPolygonOffsetCall : GLCommand → Bool
  | .Enable state => state.isPolygonOffset
  | .Disable state => state.isPolygonOffset
  | .Set state _ => state.isPolygonOffset
  | .SetPolygonOffset _ _ _ => true
  | _ => false

/-- The calls that concern the colour logic operation: a toggle of
`COLOR_LOGIC_OP`, or `SetLogicOp`. -/
def GLCommand.isLogicOpCall : GLCommand → Bool
  | .Enable state => state == GLState.COLOR_LOGIC_OP
  | .Disable state => state == GLState.COLOR_LOGIC_OP
  | .Set state _ => state == GLState.COLOR_LOGIC_OP
  | .SetLogicOp _ => true
  | _ => false

/-- The number a binary floating-point pattern stands for, given its sign bit, its
biased exponent field and its fraction field, for a format with exponent bias
`bias` and `width` fraction bits; `none` for an infinity or a NaN (exponent field
all ones, `top`). -/
def ieeeValue (bias width top : Nat) (sign exponent fraction : Nat) : Option ℚ :=
  if exponent = top then
    none
  else if exponent = 0 then
    some ((if sign = 1 then -1 else 1) * (fraction : ℚ) *
      (2 : ℚ) ^ ((1 : ℤ) - (bias : ℤ) - (width : ℤ)))
  else
    some ((if sign = 1 then -1 else 1) * ((2 : ℚ) ^ width + (fraction : ℚ)) *
      (2 : ℚ) ^ ((exponent : ℤ) - (bias : ℤ) - (width : ℤ)))

/-- The value of a `float` (IEEE-754 binary32: bias 127, 23 fraction bits). -/
def CFloat.value (f : CFloat) : Option ℚ :=
  ieeeValue 127 23 255 (f.val / 2147483648) (f.val / 8388608 % 256) (f.val % 8388608)

/-- The value of a `GLdouble` (IEEE-754 binary64: bias 1023, 52 fraction bits). -/
def GLdouble.value (d : GLdouble) : Option ℚ :=
  ieeeValue 1023 52 2047 (d.val / 9223372036854775808) (d.val / 4503599627370496 % 2048)
    (d.val % 4503599627370496)

/-- Predicate: the tables of `GLTypes::Map` hold the four values of a stencil face
that `Convert` looks up. -/
def StencilFaceDescriptor.isMappable (env : GLEnv) (face : StencilFaceDescriptor) : Bool :=
  (env.MapStencilOp face.stencilFailOp).isSome &&
  (env.MapStencilOp face.depthFailOp).isSome &&
  (env.MapStencilOp face.depthPassOp).isSome &&
  (env.MapCompareOp face.compareOp).isSome

/-- Predicate: the tables of `GLTypes::Map` hold the six values of a blend target
that `Convert` looks up. -/
def BlendTargetDescriptor.isMappable (env : GLEnv) (target : BlendTargetDescriptor) : Bool :=
  (env.MapBlendOp target.srcColor).isSome &&
  (env.MapBlendOp target.dstColor).isSome &&
  (env.MapBlendArithmetic target.colorArithmetic).isSome &&
  (env.MapBlendOp target.srcAlpha).isSome &&
  (env.MapBlendOp target.dstAlpha).isSome &&
  (env.MapBlendArithmetic target.alphaArithmetic).isSome

/-- Predicate: the tables of `GLTypes::Map` hold every enumeration value of the
descriptor that the constructor looks up (the logic operation only when it is
not `Disabled`), and the polygon mode is one of its three enumerators. -/
def GraphicsPipelineDescriptor.isMappable (env : GLEnv) (desc : GraphicsPipelineDescriptor) :
    Bool :=
  (env.MapPrimitiveTopology desc.primitiveTopology).isSome &&
  (env.MapCompareOp desc.depth.compareOp).isSome &&
  desc.stencil.front.isMappable env &&
  desc.stencil.back.isMappable env &&
  (env.MapPolygonMode desc.rasterizer.polygonMode).isSome &&
  (env.MapCullMode desc.rasterizer.cullMode).isSome &&
  (desc.rasterizer.polygonMode == PolygonMode.Fill ||
    desc.rasterizer.polygonMode == PolygonMode.Wireframe ||
    desc.rasterizer.polygonMode == PolygonMode.Points) &&
  desc.blend.targets.all (fun target => target.isMappable env) &&
  (desc.blend.logicOp == LogicOp.Disabled || (env.MapLogicOp desc.blend.logicOp).isSome)

/-! ## Sample inputs -/

/-- A sample environment: the limit is 16; the tables of `GLTypes::Map` hold the
first eight ordinals of `CompareOp` and `StencilOp`, the first five of
`BlendArithmetic`, the first three of `CullMode`, the three enumerators of
`PolygonMode`, and every `PrimitiveTopology`, `BlendOp` and `LogicOp`. -/
def sampleGLEnv : GLEnv :=
  { LLGL_MAX_NUM_VIEWPORTS_AND_SCISSORS := 16
    limit_is_int := by decide
    MapPrimitiveTopology := fun _ => some 4
    MapCompareOp := fun c => if c < 8 then some c else none
    MapStencilOp := fun c => if c < 8 then some c else none
    MapBlendOp := fun _ => some 1
    MapBlendArithmetic := fun c => if c < 5 then some c else none
    MapPolygonMode := fun mode =>
      match mode with
      | .outOfRange _ => none
      | _ => some 2
    MapCullMode := fun c => if c < 3 then some c else none
    MapLogicOp := fun _ => some 3
    MapFailedWhat := "failed to map value to OpenGL parameter"
    GLBlendInit := ⟨0, 0, 0, 0, 0, 0, 0, 0, 0, 0⟩ }

/-- A sample blend target that uses the blend factor as source colour. -/
def sampleBlendTarget : BlendTargetDescriptor :=
  { srcColor := BlendOp.BlendFactor
    dstColor := BlendOp.other 1
    colorArithmetic := 0
    srcAlpha := BlendOp.other 1
    dstAlpha := BlendOp.other 0
    alphaArithmetic := 0
    colorMask := ⟨true, true, true, true⟩ }

/-- A sample pipeline descriptor: one viewport of 640.0f x 480.0f (`0x44200000`,
`0x43F00000`) with the depth range 0.0f to 1.0f (`0x3F800000`), one scissor,
patches of three control points, blending with the blend factor, a depth bias
with the constant factor 1.0f. -/
def sampleDesc : GraphicsPipelineDescriptor :=
  { shaderProgram := some ⟨7, true⟩
    primitiveTopology := PrimitiveTopology.Patches 2
    viewports := [⟨0, 0, 1142947840, 1139802112, 0, 1065353216⟩]
    scissors := [⟨⟨0, by decide⟩, ⟨-5, by decide⟩, ⟨640, by decide⟩, ⟨480, by decide⟩⟩]
    depth := ⟨true, true, 1⟩
    stencil := ⟨false, ⟨0, 0, 0, 0, 0, 0, 0⟩, ⟨0, 0, 0, 0, 0, 0, 0⟩⟩
    rasterizer := ⟨PolygonMode.Fill, 0, ⟨1065353216, 0, 0⟩, ⟨false, 1, 0⟩, true, false,
      false, false, false, 1065353216⟩
    blend := ⟨true, ⟨0, 0, 0, 0⟩, false, LogicOp.Disabled, [sampleBlendTarget]⟩ }

/-- Sample limits. -/
def sampleLimits : RenderingLimits :=
  { maxPatchVertices := 32 }

/-- A sample device on which every call succeeds; validation passes and the
sample count is `samples`. -/
def sampleD3D11Env : D3D11Env :=
  { CreateTexture2D := fun _ _ => 0
    CreateRenderTargetView := fun _ _ _ => 0
    CreateDepthStencilView := fun _ _ => 0
    ValidateMipResolution := fun _ _ _ => .ok ()
    SampleCount := fun ms => ms.samples }

/-- A sample non-multisample 2D texture of 640 x 480 with one mip level. -/
def sampleTexture : D3D11Texture :=
  { GetType := TextureType.Texture2D
    GetFormat := 28
    GetNative := 1
    GetDesc := ⟨640, 480, 1, 1, 28, ⟨1, 0⟩, 0, 0x28, 0, 0⟩ }

/-- A sample render-target descriptor: 4x multisampling, the sample texture as
colour attachment at mip level 0, and an implicit depth buffer. -/
def sampleRenderTargetDesc : RenderTargetDescriptor :=
  { renderPass := none
    resolution := ⟨640, 480⟩
    multiSampling := ⟨true, 4, 0⟩
    attachments :=
      [⟨AttachmentType.Color, some sampleTexture, 0, 0⟩, ⟨AttachmentType.Depth, none, 0, 0⟩] }

/-- The members of a pipeline state other than the static state buffer and the two
static counts (those three are reset). -/
def GLGraphicsPipeline.renderState (self : GLGraphicsPipeline) : GLGraphicsPipeline :=
  { self with staticStateBuffer_ := none, numStaticViewports_ := 0, numStaticScissors_ := 0 }

/-- The sample descriptor with seventeen viewports, one more than the sample
limit. -/
def overLimitDesc : GraphicsPipelineDescriptor :=
  { sampleDesc with
    viewports := List.replicate 17 ⟨0, 0, 1142947840, 1139802112, 0, 1065353216⟩ }

/-- The sample descriptor with 2^32 viewports and no scissors. -/
def hugeDesc : GraphicsPipelineDescriptor :=
  { sampleDesc with
    viewports := List.replicate 4294967296 ⟨0, 0, 1142947840, 1139802112, 0, 1065353216⟩
    scissors := [] }

/-- A sample render-target descriptor: 4x multisampling and the sample texture as
the single attachment, at mip level 0. -/
def singleTextureTargetDesc : RenderTargetDescriptor :=
  { sampleRenderTargetDesc with
    attachments := [⟨AttachmentType.Color, some sampleTexture, 0, 0⟩] }

/-- A sample render-target descriptor without multisampling: an implicit depth
buffer followed by an implicit depth-stencil buffer. -/
def stencilTargetDesc : RenderTargetDescriptor :=
  { renderPass := none
    resolution := ⟨640, 480⟩
    multiSampling := ⟨false, 1, 0⟩
    attachments :=
      [⟨AttachmentType.Depth, none, 0, 0⟩, ⟨AttachmentType.DepthStencil, none, 0, 0⟩] }

/-- A sample 2D array texture of 256 x 256 with four mip levels and three layers. -/
def mippedArrayTexture : D3D11Texture :=
  { GetType := TextureType.Texture2DArray
    GetFormat := 28
    GetNative := 2
    GetDesc := ⟨256, 256, 4, 3, 28, ⟨1, 0⟩, 0, 0x28, 0, 0⟩ }

/-- A sample render-target descriptor: 4x multisampling and mip level 1 of layer 2
of the sample array texture as the single attachment. -/
def mippedArrayTargetDesc : RenderTargetDescriptor :=
  { renderPass := none
    resolution := ⟨128, 128⟩
    multiSampling := ⟨true, 4, 0⟩
    attachments := [⟨AttachmentType.Color, some mippedArrayTexture, 1, 2⟩] }

/-- A sample 3D texture. -/
def volumeTexture : D3D11Texture :=
  { sampleTexture with GetType := TextureType.Texture3D, GetNative := 3 }

/-- A sample render target with 4x multisampling and nothing attached yet. -/
def emptyMultiSampleTarget : D3D11RenderTarget :=
  (D3D11RenderTarget.ctor sampleD3D11Env { sampleRenderTargetDesc with attachments := [] }).2

/-- The sample descriptor with a depth comparison that the sample tables do not
hold. -/
def unmappedDesc : GraphicsPipelineDescriptor :=
  { sampleDesc with depth := ⟨true, true, 999999⟩ }

/-- The sample descriptor with a polygon mode that is none of the three
enumerators. -/
def outOfRangeDesc : GraphicsPipelineDescriptor :=
  { sampleDesc with
    rasterizer := { sampleDesc.rasterizer with polygonMode := PolygonMode.outOfRange 3 } }

/-- The sample environment with a table for `PolygonMode` that holds every value. -/
def lenientGLEnv : GLEnv :=
  { sampleGLEnv with MapPolygonMode := fun _ => some 2 }

/-- The sample descriptor with a colour logic operation. -/
def logicOpDesc : GraphicsPipelineDescriptor :=
  { sampleDesc with blend := { sampleDesc.blend with logicOp := LogicOp.other 3 } }

/-! ## Theorems -/

/-- C7: starting from an unset resolution, `ApplyResolution r` with both components
nonzero succeeds and stores `r`; afterwards `ApplyResolution r2` (both components
nonzero) succeeds exactly when `r2 = r`, throws `std::invalid_argument` otherwise,
and in both cases the stored resolution stays `r`. -/
theorem applyResolution_fixed_by_first (self : RenderTarget) (r : Vector2i)
    (hunset : self.resolution_ = Vector2i.mk 0 0) (hx : r.x ≠ 0) (hy : r.y ≠ 0) :
    (self.ApplyResolution r).1 = .ok () ∧
    (self.ApplyResolution r).2.resolution_ = r ∧
    ∀ r2 : Vector2i, r2.x ≠ 0 → r2.y ≠ 0 →
      (((self.ApplyResolution r).2.ApplyResolution r2).1 = .ok () ↔ r2 = r) ∧
      (r2 ≠ r →
        threwInvalidArgument ((self.ApplyResolution r).2.ApplyResolution r2).1 = true) ∧
      ((self.ApplyResolution r).2.ApplyResolution r2).2.resolution_ = r := by
  have hr0 : r ≠ Vector2i.mk 0 0 := by
    intro h
    exact hx (by rw [h])
  have h1 : self.ApplyResolution r = (.ok (), { self with resolution_ := r }) := by
    simp [RenderTarget.ApplyResolution, hx, hy, hunset]
  rw [h1]
  refine ⟨rfl, rfl, ?_⟩
  intro r2 h2x h2y
  by_cases heq : r2 = r
  · subst heq
    simp [RenderTarget.ApplyResolution, h2x, h2y, hr0]
  · simp [RenderTarget.ApplyResolution, h2x, h2y, hr0, heq, threwInvalidArgument,
      Error.isInvalidArgument]

/-- Witness for C7: 640 x 480 is applied first; applying 640 x 480 again succeeds,
applying 800 x 600 throws and leaves 640 x 480 in place. -/
theorem applyResolution_fixed_by_first_witness :
    ((RenderTarget.mk (Vector2i.mk 0 0)).ApplyResolution (Vector2i.mk 640 480)).1 = .ok () ∧
    ((RenderTarget.mk (Vector2i.mk 0 0)).ApplyResolution (Vector2i.mk 640 480)).2.resolution_
      = Vector2i.mk 640 480 ∧
    (((RenderTarget.mk (Vector2i.mk 0 0)).ApplyResolution
      (Vector2i.mk 640 480)).2.ApplyResolution (Vector2i.mk 640 480)).1 = .ok () ∧
    threwInvalidArgument (((RenderTarget.mk (Vector2i.mk 0 0)).ApplyResolution
      (Vector2i.mk 640 480)).2.ApplyResolution (Vector2i.mk 800 600)).1 = true ∧
    (((RenderTarget.mk (Vector2i.mk 0 0)).ApplyResolution
      (Vector2i.mk 640 480)).2.ApplyResolution (Vector2i.mk 800 600)).2.resolution_
      = Vector2i.mk 640 480 :=
  let h := applyResolution_fixed_by_first (RenderTarget.mk (Vector2i.mk 0 0))
    (Vector2i.mk 640 480) rfl (by decide) (by decide)
  ⟨h.1, h.2.1,
   (h.2.2 (Vector2i.mk 640 480) (by decide) (by decide)).1.mpr rfl,
   (h.2.2 (Vector2i.mk 800 600) (by decide) (by decide)).2.1 (by decide),
   (h.2.2 (Vector2i.mk 800 600) (by decide) (by decide)).2.2⟩

/-! ### Loops -/

/-- A property kept by every successful iteration is kept by the loop. -/
theorem forLoopFrom_invariant {σ : Type} (P : σ → Prop) (body : Nat → σ → Except Error σ)
    (hbody : ∀ i s s1, P s → body i s = .ok s1 → P s1) :
    ∀ (k i : Nat) (s s1 : σ), P s → forLoopFrom body k i s = .ok s1 → P s1 := by
  intro k
  induction k with
  | zero =>
    intro i s s1 hP h
    simp only [forLoopFrom, Except.ok.injEq] at h
    exact h ▸ hP
  | succ k ih =>
    intro i s s1 hP h
    unfold forLoopFrom at h
    cases hb : body i s with
    | error e => simp [hb] at h
    | ok s2 =>
      simp only [hb] at h
      exact ih (i + 1) s2 s1 (hbody i s s2 hP hb) h

/-! ### The pipeline constructor leaves the render state to the descriptor -/

theorem storeStatic_renderState (self self1 : GLGraphicsPipeline)
    (write : List Byte → Except Error (List Byte))
    (h : self.storeStatic write = .ok self1) : self1.renderState = self.renderState := by
  unfold GLGraphicsPipeline.storeStatic at h
  cases hb : self.staticStateBuffer_ with
  | none => simp [hb] at h
  | some buf =>
    simp only [hb] at h
    cases hw : write buf with
    | error e => simp [hw] at h
    | ok buf1 =>
      simp only [hw, Except.ok.injEq] at h
      rw [← h]
      rfl

theorem staticLoop_renderState {α : Type} (xs : List α) (size : Nat)
    (write : α → Nat → List Byte → Except Error (List Byte))
    (n : Nat) (st st1 : GLGraphicsPipeline × RawBufferIterator)
    (h : forLoop n
      (fun i (st : GLGraphicsPipeline × RawBufferIterator) => do
        let (dst, it) := st.2.Next size 1
        let x ← elemAt xs i
        let self1 ← st.1.storeStatic (write x dst)
        pure (self1, it)) st = .ok st1) :
    st1.1.renderState = st.1.renderState := by
  refine forLoopFrom_invariant (fun s => s.1.renderState = st.1.renderState) _ ?_ n 0 st st1 rfl h
  intro i s s1 hP hb
  cases hx : elemAt xs i with
  | error e => simp [hx, RawBufferIterator.Next, bind, Except.bind] at hb
  | ok x =>
    simp only [RawBufferIterator.Next, bind, Except.bind, hx, pure, Except.pure] at hb
    cases hs : s.1.storeStatic (write x s.2.byteBuffer_) with
    | error e =>
      rw [hs] at hb
      simp at hb
    | ok s2 =>
      have h2 := storeStatic_renderState _ _ _ hs
      rw [hs] at hb
      simp only [Except.ok.injEq] at hb
      rw [← hb]
      exact h2.trans hP

theorem buildStaticViewports_renderState (env : GLEnv) (self : GLGraphicsPipeline)
    (n : Nat) (vs : List Viewport) (it : RawBufferIterator) :
    (self.BuildStaticViewports env n vs it).2.renderState = self.renderState := by
  unfold GLGraphicsPipeline.BuildStaticViewports
  simp only []
  split
  · rfl
  · split
    · rfl
    · rename_i st hloop
      have h1 := staticLoop_renderState vs sizeof_GLViewport
        (fun v dst buf => store_GLViewport buf dst (viewportRecord v)) n _ st hloop
      split
      · exact h1
      · rename_i st1 hloop1
        have h2 := staticLoop_renderState vs sizeof_GLDepthRange
          (fun v dst buf => store_GLDepthRange buf dst (depthRangeRecord v)) n _ st1 hloop1
        exact h2.trans h1

theorem buildStaticScissors_renderState (env : GLEnv) (self : GLGraphicsPipeline)
    (n : Nat) (ss : List Scissor) (it : RawBufferIterator) :
    (self.BuildStaticScissors env n ss it).2.renderState = self.renderState := by
  unfold GLGraphicsPipeline.BuildStaticScissors
  simp only []
  split
  · rfl
  · split
    · rfl
    · rename_i st hloop
      exact staticLoop_renderState ss sizeof_GLScissor
        (fun sc dst buf => store_GLScissor buf dst (scissorRecord sc)) n _ st hloop

theorem buildStaticStateBuffer_renderState (env : GLEnv) (self : GLGraphicsPipeline)
    (desc : GraphicsPipelineDescriptor) :
    (self.BuildStaticStateBuffer env desc).2.renderState = self.renderState := by
  unfold GLGraphicsPipeline.BuildStaticStateBuffer
  simp only []
  split
  · rename_i e self1 hv
    split at hv
    · have h := buildStaticViewports_renderState env
        { self with staticStateBuffer_ := some (MakeUniqueArray (staticStateBufferSize desc)) }
        desc.viewports.length desc.viewports { byteBuffer_ := 0 }
      rw [hv] at h
      exact h
    · simp at hv
  · rename_i it1 self1 hv
    have h1 : self1.renderState = self.renderState := by
      split at hv
      · have h := buildStaticViewports_renderState env
          { self with staticStateBuffer_ := some (MakeUniqueArray (staticStateBufferSize desc)) }
          desc.viewports.length desc.viewports { byteBuffer_ := 0 }
        rw [hv] at h
        exact h
      · simp only [Prod.mk.injEq, Except.ok.injEq] at hv
        rw [← hv.2]
        rfl
    split
    · have h2 := buildStaticScissors_renderState env self1 desc.scissors.length desc.scissors it1
      split
      · rename_i e self2 hs
        rw [hs] at h2
        exact h2.trans h1
      · rename_i u self2 hs
        rw [hs] at h2
        exact h2.trans h1
    · exact h1

/-! ### Sequencing and lookups -/

theorem andThen_of_ok {σ : Type} (a : Except Error Unit × σ)
    (f : σ → Except Error Unit × σ) (h : a.1 = .ok ()) : andThen a f = f a.2 := by
  obtain ⟨r, s⟩ := a
  cases r with
  | error e => cases h
  | ok u => rfl

theorem andThen_ok_elim {σ : Type} (a : Except Error Unit × σ)
    (f : σ → Except Error Unit × σ) (h : (andThen a f).1 = .ok ()) : a.1 = .ok () := by
  obtain ⟨r, s⟩ := a
  cases r with
  | error e => cases h
  | ok u => rfl

theorem andThen_ok_intro {σ : Type} (a : Except Error Unit × σ)
    (f : σ → Except Error Unit × σ) (h : a.1 = .ok ()) (hf : (f a.2).1 = .ok ()) :
    (andThen a f).1 = .ok () := by
  rw [andThen_of_ok a f h]
  exact hf

theorem assign_ok_elim {σ α : Type} (s : σ) (store : σ → α → σ) (v : Except Error α)
    (h : (assign s store v).1 = .ok ()) :
    ∃ x, v = .ok x ∧ assign s store v = (.ok (), store s x) := by
  cases v with
  | error e => cases h
  | ok x => exact ⟨x, rfl, rfl⟩

theorem map_of_some {α : Type} (env : GLEnv) (table : α → Option GLenum) (value : α)
    (v : GLenum) (h : table value = some v) : GLTypes.Map env table value = .ok v := by
  unfold GLTypes.Map
  rw [h]

theorem map_ok_elim {α : Type} (env : GLEnv) (table : α → Option GLenum) (value : α)
    (v : GLenum) (h : GLTypes.Map env table value = .ok v) : table value = some v := by
  unfold GLTypes.Map at h
  cases ht : table value with
  | none => rw [ht] at h; cases h
  | some m =>
    rw [ht] at h
    cases h
    rfl

theorem map_of_isSome {α : Type} (env : GLEnv) (table : α → Option GLenum) (value : α)
    (h : (table value).isSome = true) : ∃ v, GLTypes.Map env table value = .ok v := by
  cases ht : table value with
  | none => rw [ht] at h; cases h
  | some m => exact ⟨m, map_of_some env table value m ht⟩

/-! ### The stretches of the pipeline constructor -/

theorem ctorInputAssembler_elim (env : GLEnv) (self : GLGraphicsPipeline)
    (desc : GraphicsPipelineDescriptor) (limits : RenderingLimits)
    (h : (self.ctorInputAssembler env desc limits).1 = .ok ()) :
    GetPrimitiveTopologyPatchSize desc.primitiveTopology ≤ limits.maxPatchVertices ∧
    ∃ drawMode : GLenum,
      (self.ctorInputAssembler env desc limits).2
        = { self with
            drawMode_ := drawMode
            patchVertices_ :=
              static_cast_GLint (GetPrimitiveTopologyPatchSize desc.primitiveTopology) } := by
  unfold GLGraphicsPipeline.ctorInputAssembler at h ⊢
  have h1 := andThen_ok_elim _ _ h
  obtain ⟨dm, _, e⟩ := assign_ok_elim _ _ _ h1
  rw [andThen_of_ok _ _ h1, e] at h ⊢
  simp only [] at h ⊢
  cases ht : desc.primitiveTopology with
  | other n =>
    simp only [ht, IsPrimitiveTopologyPatches, GetPrimitiveTopologyPatchSize, Bool.false_eq_true,
      if_false] at h ⊢
    exact ⟨Nat.zero_le _, dm, rfl⟩
  | Patches i =>
    simp only [ht, IsPrimitiveTopologyPatches, GetPrimitiveTopologyPatchSize, if_true] at h ⊢
    by_cases hp : i.val + 1 > limits.maxPatchVertices
    · rw [if_pos hp] at h
      cases h
    · rw [if_neg hp]
      exact ⟨by omega, dm, rfl⟩

theorem ctorInputAssembler_ok (env : GLEnv) (self : GLGraphicsPipeline)
    (desc : GraphicsPipelineDescriptor) (limits : RenderingLimits)
    (hmap : (env.MapPrimitiveTopology desc.primitiveTopology).isSome = true)
    (hpatch : GetPrimitiveTopologyPatchSize desc.primitiveTopology ≤ limits.maxPatchVertices) :
    (self.ctorInputAssembler env desc limits).1 = .ok () := by
  obtain ⟨v, hv⟩ := map_of_isSome env _ _ hmap
  unfold GLGraphicsPipeline.ctorInputAssembler
  simp only [hv, assign, andThen]
  split
  · rw [if_neg (by omega)]
  · rfl

theorem ctorDepthState_elim (env : GLEnv) (self : GLGraphicsPipeline)
    (desc : GraphicsPipelineDescriptor) (h : (self.ctorDepthState env desc).1 = .ok ()) :
    ∃ depthFunc : GLenum,
      (self.ctorDepthState env desc).2
        = { self with
            depthTestEnabled_ := desc.depth.testEnabled
            depthMask_ := if desc.depth.writeEnabled then GL_TRUE else GL_FALSE
            depthFunc_ := depthFunc } := by
  unfold GLGraphicsPipeline.ctorDepthState at h ⊢
  obtain ⟨x, _, e⟩ := assign_ok_elim _ _ _ h
  exact ⟨x, by rw [e]⟩

theorem ctorStencilState_elim (env : GLEnv) (self : GLGraphicsPipeline)
    (desc : GraphicsPipelineDescriptor) (h : (self.ctorStencilState env desc).1 = .ok ()) :
    ∃ front back : GLStencil,
      (self.ctorStencilState env desc).2
        = { self with
            stencilTestEnabled_ := desc.stencil.testEnabled
            stencilFront_ := front
            stencilBack_ := back } := by
  unfold GLGraphicsPipeline.ctorStencilState at h ⊢
  have h1 := andThen_ok_elim _ _ h
  rw [andThen_of_ok _ _ h1]
  exact ⟨_, _, rfl⟩

theorem ctorRasterizerState_elim (env : GLEnv) (self : GLGraphicsPipeline)
    (desc : GraphicsPipelineDescriptor) (h : (self.ctorRasterizerState env desc).1 = .ok ()) :
    ∃ (polygonMode cullFace : GLenum) (mode : GLState),
      PolygonModeToPolygonOffset desc.rasterizer.polygonMode = .ok mode ∧
      (self.ctorRasterizerState env desc).2
        = { self with
            polygonMode_ := polygonMode
            cullFace_ := cullFace
            frontFace_ := if desc.rasterizer.frontCCW then GL_CCW else GL_CW
            scissorTestEnabled_ := desc.rasterizer.scissorTestEnabled
            depthClampEnabled_ := desc.rasterizer.depthClampEnabled
            multiSampleEnabled_ := desc.rasterizer.multiSampling.enabled
            sampleMask_ := desc.rasterizer.multiSampling.sampleMask
            lineSmoothEnabled_ := desc.rasterizer.antiAliasedLineEnabled
            lineWidth_ := desc.rasterizer.lineWidth
            polygonOffsetEnabled_ := IsPolygonOffsetEnabled desc.rasterizer.depthBias
            polygonOffsetMode_ := mode
            polygonOffsetFactor_ := desc.rasterizer.depthBias.slopeFactor
            polygonOffsetUnits_ := desc.rasterizer.depthBias.constantFactor
            polygonOffsetClamp_ := desc.rasterizer.depthBias.clamp } := by
  unfold GLGraphicsPipeline.ctorRasterizerState at h ⊢
  have h1 := andThen_ok_elim _ _ h
  obtain ⟨pm, _, e1⟩ := assign_ok_elim _ _ _ h1
  rw [andThen_of_ok _ _ h1, e1] at h ⊢
  simp only [] at h ⊢
  have h2 := andThen_ok_elim _ _ h
  obtain ⟨cf, _, e2⟩ := assign_ok_elim _ _ _ h2
  rw [andThen_of_ok _ _ h2, e2] at h ⊢
  simp only [] at h ⊢
  have h3 := andThen_ok_elim _ _ h
  obtain ⟨mode, hmode, e3⟩ := assign_ok_elim _ _ _ h3
  rw [andThen_of_ok _ _ h3, e3]
  exact ⟨pm, cf, mode, hmode, rfl⟩

theorem ctorBlendState_elim (env : GLEnv) (self : GLGraphicsPipeline)
    (desc : GraphicsPipelineDescriptor) (h : (self.ctorBlendState env desc).1 = .ok ()) :
    ∃ blendStates : List GLBlend,
      (self.ctorBlendState env desc).2
        = { self with
            blendEnabled_ := desc.blend.blendEnabled
            blendColor_ := desc.blend.blendFactor
            blendColorNeeded_ := IsBlendColorNeeded desc.blend
            blendStates_ := blendStates
            sampleAlphaToCoverage_ := desc.blend.alphaToCoverageEnabled } := by
  unfold GLGraphicsPipeline.ctorBlendState at h ⊢
  have h1 := andThen_ok_elim _ _ h
  rw [andThen_of_ok _ _ h1]
  exact ⟨_, rfl⟩

theorem ctorLogicOp_elim (env : GLEnv) (self : GLGraphicsPipeline)
    (desc : GraphicsPipelineDescriptor) (h : (self.ctorLogicOp env desc).1 = .ok ()) :
    ∃ logicOp : GLenum,
      (desc.blend.logicOp ≠ LogicOp.Disabled →
        env.MapLogicOp desc.blend.logicOp = some logicOp) ∧
      (self.ctorLogicOp env desc).2
        = { self with
            logicOpEnabled_ := self.logicOpEnabled_ || (desc.blend.logicOp != LogicOp.Disabled)
            logicOp_ := if desc.blend.logicOp != LogicOp.Disabled then logicOp
              else self.logicOp_ } := by
  unfold GLGraphicsPipeline.ctorLogicOp at h ⊢
  by_cases hl : desc.blend.logicOp = LogicOp.Disabled
  · refine ⟨0, fun hn => absurd hl hn, ?_⟩
    simp [hl]
  · have hb : (desc.blend.logicOp != LogicOp.Disabled) = true := by simpa using hl
    rw [if_pos hb] at h ⊢
    simp only [] at h ⊢
    obtain ⟨x, hx, e⟩ := assign_ok_elim _ _ _ h
    refine ⟨x, fun _ => map_ok_elim env _ _ _ hx, ?_⟩
    rw [e]
    simp [hb]

theorem ctorRenderState_elim (env : GLEnv) (self : GLGraphicsPipeline)
    (desc : GraphicsPipelineDescriptor) (h : (self.ctorRenderState env desc).1 = .ok ()) :
    ∃ (depthFunc : GLenum) (front back : GLStencil) (polygonMode cullFace : GLenum)
      (mode : GLState) (blendStates : List GLBlend) (logicOp : GLenum),
      PolygonModeToPolygonOffset desc.rasterizer.polygonMode = .ok mode ∧
      (desc.blend.logicOp ≠ LogicOp.Disabled →
        env.MapLogicOp desc.blend.logicOp = some logicOp) ∧
      (self.ctorRenderState env desc).2
        = { self with
            depthTestEnabled_ := desc.depth.testEnabled
            depthMask_ := if desc.depth.writeEnabled then GL_TRUE else GL_FALSE
            depthFunc_ := depthFunc
            stencilTestEnabled_ := desc.stencil.testEnabled
            stencilFront_ := front
            stencilBack_ := back
            polygonMode_ := polygonMode
            cullFace_ := cullFace
            frontFace_ := if desc.rasterizer.frontCCW then GL_CCW else GL_CW
            scissorTestEnabled_ := desc.rasterizer.scissorTestEnabled
            depthClampEnabled_ := desc.rasterizer.depthClampEnabled
            multiSampleEnabled_ := desc.rasterizer.multiSampling.enabled
            sampleMask_ := desc.rasterizer.multiSampling.sampleMask
            lineSmoothEnabled_ := desc.rasterizer.antiAliasedLineEnabled
            lineWidth_ := desc.rasterizer.lineWidth
            polygonOffsetEnabled_ := IsPolygonOffsetEnabled desc.rasterizer.depthBias
            polygonOffsetMode_ := mode
            polygonOffsetFactor_ := desc.rasterizer.depthBias.slopeFactor
            polygonOffsetUnits_ := desc.rasterizer.depthBias.constantFactor
            polygonOffsetClamp_ := desc.rasterizer.depthBias.clamp
            blendEnabled_ := desc.blend.blendEnabled
            blendColor_ := desc.blend.blendFactor
            blendColorNeeded_ := IsBlendColorNeeded desc.blend
            blendStates_ := blendStates
            sampleAlphaToCoverage_ := desc.blend.alphaToCoverageEnabled
            logicOpEnabled_ := self.logicOpEnabled_ || (desc.blend.logicOp != LogicOp.Disabled)
            logicOp_ := if desc.blend.logicOp != LogicOp.Disabled then logicOp
              else self.logicOp_ } := by
  unfold GLGraphicsPipeline.ctorRenderState at h ⊢
  have h1 := andThen_ok_elim _ _ h
  obtain ⟨df, e1⟩ := ctorDepthState_elim env self desc h1
  rw [andThen_of_ok _ _ h1] at h ⊢
  have h2 := andThen_ok_elim _ _ h
  obtain ⟨sf, sb, e2⟩ := ctorStencilState_elim env _ desc h2
  rw [andThen_of_ok _ _ h2] at h ⊢
  have h3 := andThen_ok_elim _ _ h
  obtain ⟨pm, cf, mode, hmode, e3⟩ := ctorRasterizerState_elim env _ desc h3
  rw [andThen_of_ok _ _ h3] at h ⊢
  have h4 := andThen_ok_elim _ _ h
  obtain ⟨bs, e4⟩ := ctorBlendState_elim env _ desc h4
  rw [andThen_of_ok _ _ h4] at h ⊢
  obtain ⟨lo, hlo, e5⟩ := ctorLogicOp_elim env _ desc h
  refine ⟨df, sf, sb, pm, cf, mode, bs, lo, hmode, hlo, ?_⟩
  rw [e5, e4, e3, e2, e1]

theorem convertStencil_ok (env : GLEnv) (dst : GLStencil) (face : StencilFaceDescriptor)
    (h : face.isMappable env = true) : (ConvertStencil env dst face).1 = .ok () := by
  unfold StencilFaceDescriptor.isMappable at h
  simp only [Bool.and_eq_true] at h
  obtain ⟨⟨⟨h1, h2⟩, h3⟩, h4⟩ := h
  obtain ⟨v1, e1⟩ := map_of_isSome env _ _ h1
  obtain ⟨v2, e2⟩ := map_of_isSome env _ _ h2
  obtain ⟨v3, e3⟩ := map_of_isSome env _ _ h3
  obtain ⟨v4, e4⟩ := map_of_isSome env _ _ h4
  unfold ConvertStencil
  simp only [e1, e2, e3, e4, assign, andThen]

theorem convertBlend_ok (env : GLEnv) (dst : GLBlend) (target : BlendTargetDescriptor)
    (h : target.isMappable env = true) : (ConvertBlend env dst target).1 = .ok () := by
  unfold BlendTargetDescriptor.isMappable at h
  simp only [Bool.and_eq_true] at h
  obtain ⟨⟨⟨⟨⟨h1, h2⟩, h3⟩, h4⟩, h5⟩, h6⟩ := h
  obtain ⟨v1, e1⟩ := map_of_isSome env _ _ h1
  obtain ⟨v2, e2⟩ := map_of_isSome env _ _ h2
  obtain ⟨v3, e3⟩ := map_of_isSome env _ _ h3
  obtain ⟨v4, e4⟩ := map_of_isSome env _ _ h4
  obtain ⟨v5, e5⟩ := map_of_isSome env _ _ h5
  obtain ⟨v6, e6⟩ := map_of_isSome env _ _ h6
  unfold ConvertBlend
  simp only [e1, e2, e3, e4, e5, e6, assign, andThen]

theorem convertBlendStatesLoop_ok (env : GLEnv) :
    ∀ (src : List BlendTargetDescriptor) (dst : List GLBlend),
      dst.length = src.length → src.all (fun target => target.isMappable env) = true →
      (ConvertBlendStatesLoop env dst src).1 = .ok () := by
  intro src
  induction src with
  | nil =>
    intro dst _ _
    cases dst <;> rfl
  | cons f src ih =>
    intro dst hlen hall
    cases dst with
    | nil => simp at hlen
    | cons t dst =>
      simp only [List.all_cons, Bool.and_eq_true] at hall
      have hc := convertBlend_ok env t f hall.1
      unfold ConvertBlendStatesLoop
      cases hr : ConvertBlend env t f with
      | mk r t1 =>
        rw [hr] at hc
        simp only [] at hc
        subst hc
        simp only []
        exact ih dst (by simpa using hlen) hall.2

theorem vectorResize_length {α : Type} (v : List α) (n : Nat) (init : α) :
    (vectorResize v n init).length = n := by
  unfold vectorResize
  rw [List.length_append, List.length_take, List.length_replicate]
  omega

theorem ctorRenderState_ok (env : GLEnv) (self : GLGraphicsPipeline)
    (desc : GraphicsPipelineDescriptor) (h : desc.isMappable env = true) :
    (self.ctorRenderState env desc).1 = .ok () := by
  unfold GraphicsPipelineDescriptor.isMappable at h
  simp only [Bool.and_eq_true] at h
  obtain ⟨⟨⟨⟨⟨⟨⟨⟨_, hd⟩, hsf⟩, hsb⟩, hpm⟩, hcf⟩, hmode⟩, hbs⟩, hlo⟩ := h
  obtain ⟨vd, ed⟩ := map_of_isSome env _ _ hd
  obtain ⟨vpm, epm⟩ := map_of_isSome env _ _ hpm
  obtain ⟨vcf, ecf⟩ := map_of_isSome env _ _ hcf
  have emode : ∃ mode, PolygonModeToPolygonOffset desc.rasterizer.polygonMode = .ok mode := by
    cases hm : desc.rasterizer.polygonMode with
    | Fill => exact ⟨_, rfl⟩
    | Wireframe => exact ⟨_, rfl⟩
    | Points => exact ⟨_, rfl⟩
    | outOfRange n =>
      rw [hm] at hmode
      simp at hmode
  obtain ⟨mode, emode⟩ := emode
  have s1 : ∀ s : GLGraphicsPipeline, (s.ctorDepthState env desc).1 = .ok () := by
    intro s
    unfold GLGraphicsPipeline.ctorDepthState
    simp only [ed, assign]
  have s2 : ∀ s : GLGraphicsPipeline, (s.ctorStencilState env desc).1 = .ok () := by
    intro s
    unfold GLGraphicsPipeline.ctorStencilState
    exact andThen_ok_intro _ _ (convertStencil_ok env _ _ hsf)
      (convertStencil_ok env _ _ hsb)
  have s3 : ∀ s : GLGraphicsPipeline, (s.ctorRasterizerState env desc).1 = .ok () := by
    intro s
    unfold GLGraphicsPipeline.ctorRasterizerState
    simp only [epm, ecf, emode, assign, andThen]
  have s4 : ∀ s : GLGraphicsPipeline, (s.ctorBlendState env desc).1 = .ok () := by
    intro s
    unfold GLGraphicsPipeline.ctorBlendState
    exact andThen_ok_intro _ _
      (convertBlendStatesLoop_ok env _ _ (vectorResize_length _ _ _) hbs) rfl
  have s5 : ∀ s : GLGraphicsPipeline, (s.ctorLogicOp env desc).1 = .ok () := by
    intro s
    unfold GLGraphicsPipeline.ctorLogicOp
    by_cases hl : desc.blend.logicOp = LogicOp.Disabled
    · simp [hl]
    · have hb : (desc.blend.logicOp != LogicOp.Disabled) = true := by simpa using hl
      have hsome : (env.MapLogicOp desc.blend.logicOp).isSome = true := by
        simpa [hl] using hlo
      obtain ⟨vl, el⟩ := map_of_isSome env _ _ hsome
      rw [if_pos hb]
      simp only [el, assign]
  unfold GLGraphicsPipeline.ctorRenderState
  exact andThen_ok_intro _ _ (s1 _) (andThen_ok_intro _ _ (s2 _)
    (andThen_ok_intro _ _ (s3 _) (andThen_ok_intro _ _ (s4 _) (s5 _))))

/-! ### The conversion from `float` to `GLdouble` -/

theorem highestBit_spec : ∀ (fuel n : Nat), 0 < n → n < 2 ^ (fuel + 1) →
    2 ^ highestBit fuel n ≤ n ∧ n < 2 ^ (highestBit fuel n + 1) := by
  intro fuel
  induction fuel with
  | zero =>
    intro n h0 h1
    simp only [highestBit]
    omega
  | succ fuel ih =>
    intro n h0 h1
    unfold highestBit
    by_cases h2 : n < 2
    · rw [if_pos h2]
      omega
    · rw [if_neg h2]
      have hlt : n / 2 < 2 ^ (fuel + 1) := by
        rw [Nat.div_lt_iff_lt_mul (by decide)]
        rw [pow_succ] at h1
        exact h1
      obtain ⟨a, b⟩ := ih (n / 2) (by omega) hlt
      constructor
      · rw [pow_succ]
        omega
      · rw [pow_succ]
        omega

theorem gldouble_fields (bits s E M : Nat) (hs : s ≤ 1) (hE : E < 2048)
    (hM : M < 4503599627370496) (hb : bits = s * 2 ^ 63 + E * 2 ^ 52 + M) :
    GLdouble.value ⟨bits % 18446744073709551616, Nat.mod_lt _ (by decide)⟩
      = ieeeValue 1023 52 2047 s E M := by
  subst hb
  unfold GLdouble.value
  simp only [Nat.reducePow]
  have h1 : (s * 9223372036854775808 + E * 4503599627370496 + M) % 18446744073709551616
      = s * 9223372036854775808 + E * 4503599627370496 + M := by omega
  rw [h1]
  have h2 : (s * 9223372036854775808 + E * 4503599627370496 + M) / 9223372036854775808 = s := by
    omega
  have h3 : (s * 9223372036854775808 + E * 4503599627370496 + M) / 4503599627370496 % 2048
      = E := by omega
  have h4 : (s * 9223372036854775808 + E * 4503599627370496 + M) % 4503599627370496 = M := by
    omega
  rw [h2, h3, h4]

theorem convert_fields (s e m : Nat) (hs : s ≤ 1) (he : e < 256) (hm : m < 8388608) :
    GLdouble.value
      ⟨(if e = 255 then
          if m = 0 then
            s * 2 ^ 63 + 2047 * 2 ^ 52
          else
            s * 2 ^ 63 + 2047 * 2 ^ 52 + 2 ^ 51 + m % 4194304 * 2 ^ 29
        else if e = 0 then
          if m = 0 then
            s * 2 ^ 63
          else
            s * 2 ^ 63 + (highestBit 23 m + 874) * 2 ^ 52 +
              m * 2 ^ (52 - highestBit 23 m) % 2 ^ 52
        else
          s * 2 ^ 63 + (e + 896) * 2 ^ 52 + m * 2 ^ 29) % 18446744073709551616,
        Nat.mod_lt _ (by decide)⟩
      = ieeeValue 127 23 255 s e m := by
  by_cases h255 : e = 255
  · subst h255
    by_cases hm0 : m = 0
    · subst hm0
      simp only [if_true]
      rw [gldouble_fields (s * 2 ^ 63 + 2047 * 2 ^ 52) s 2047 0 hs (by decide) (by decide)
        (Nat.add_zero _).symm]
      simp [ieeeValue]
    · simp only [if_true, if_neg hm0]
      rw [gldouble_fields (s * 2 ^ 63 + 2047 * 2 ^ 52 + 2 ^ 51 + m % 4194304 * 2 ^ 29)
        s 2047 (2 ^ 51 + m % 4194304 * 2 ^ 29) hs (by decide)
        (by simp only [Nat.reducePow]; omega) (Nat.add_assoc _ _ _)]
      simp [ieeeValue]
  · simp only [if_neg h255]
    by_cases h0 : e = 0
    · subst h0
      by_cases hm0 : m = 0
      · subst hm0
        simp only [if_true]
        rw [gldouble_fields (s * 2 ^ 63) s 0 0 hs (by decide) (by decide) (by simp)]
        simp [ieeeValue]
      · simp only [if_true, if_neg hm0]
        obtain ⟨hk1, hk2⟩ := highestBit_spec 23 m (by omega)
          (lt_trans hm (by norm_num))
        generalize highestBit 23 m = k at hk1 hk2 ⊢
        have hk : k ≤ 22 := by
          by_contra hc
          have : 2 ^ 23 ≤ 2 ^ k := Nat.pow_le_pow_right (by decide) (by omega)
          simp only [Nat.reducePow] at this
          omega
        have hpow : 2 ^ k * 2 ^ (52 - k) = 2 ^ 52 := by
          rw [← pow_add]
          congr 1
          omega
        have hlo : 2 ^ 52 ≤ m * 2 ^ (52 - k) := by
          rw [← hpow]
          exact Nat.mul_le_mul_right _ hk1
        have hhi : m * 2 ^ (52 - k) < 2 ^ 52 + 2 ^ 52 := by
          have : 2 ^ (k + 1) * 2 ^ (52 - k) = 2 ^ 52 + 2 ^ 52 := by
            rw [pow_succ, Nat.mul_right_comm, hpow]
            norm_num
          rw [← this]
          exact Nat.mul_lt_mul_of_pos_right hk2 (by positivity)
        have hM : m * 2 ^ (52 - k) % 2 ^ 52 = m * 2 ^ (52 - k) - 2 ^ 52 := by
          rw [Nat.mod_eq_sub_mod hlo, Nat.mod_eq_of_lt (by omega)]
        have hMlt : m * 2 ^ (52 - k) % 2 ^ 52 < 4503599627370496 :=
          Nat.mod_lt _ (by norm_num)
        rw [gldouble_fields _ s (k + 874) (m * 2 ^ (52 - k) % 2 ^ 52) hs (by omega) hMlt rfl]
        have e1 : ¬ (k + 874 = 2047) := by omega
        have e2 : ¬ (k + 874 = 0) := by omega
        have e3 : ¬ ((0 : ℕ) = 255) := by decide
        simp only [ieeeValue, e1, e2, e3, if_false, if_true]
        congr 1
        have hq : ((m * 2 ^ (52 - k) % 2 ^ 52 : ℕ) : ℚ) = (m : ℚ) * 2 ^ (52 - k) - 2 ^ 52 := by
          rw [hM, Nat.cast_sub hlo]
          push_cast
          ring
        have hz : ((↑(k + 874) : ℤ) - ((1023 : ℕ) : ℤ) - ((52 : ℕ) : ℤ))
            = ((1 : ℤ) - ((127 : ℕ) : ℤ) - ((23 : ℕ) : ℤ)) + (-((52 - k : ℕ) : ℤ)) := by
          omega
        have hne : (2 : ℚ) ^ (52 - k) ≠ 0 := by positivity
        rw [hq, hz, zpow_add₀ (by norm_num : (2 : ℚ) ≠ 0), zpow_neg, zpow_natCast]
        field_simp
        split <;> ring
    · rw [if_neg h0]
      have hMlt : m * 2 ^ 29 < 4503599627370496 := by
        simp only [Nat.reducePow]
        omega
      rw [gldouble_fields _ s (e + 896) (m * 2 ^ 29) hs (by omega) hMlt rfl]
      have e1 : ¬ (e + 896 = 2047) := by omega
      have e2 : ¬ (e + 896 = 0) := by omega
      simp only [ieeeValue, e1, e2, h255, h0, if_false]
      congr 1
      have hz : ((↑(e + 896) : ℤ) - ((1023 : ℕ) : ℤ) - ((52 : ℕ) : ℤ))
          = ((e : ℤ) - ((127 : ℕ) : ℤ) - ((23 : ℕ) : ℤ)) + (-((29 : ℕ) : ℤ)) := by
        omega
      have hne : (2 : ℚ) ^ 29 ≠ 0 := by positivity
      rw [hz, zpow_add₀ (by norm_num : (2 : ℚ) ≠ 0), zpow_neg, zpow_natCast]
      push_cast
      field_simp
      split <;> ring

/-- The conversion to `GLdouble` is exact: a finite `float` and its `GLdouble` stand
for the same number, and an infinity or NaN stays one. -/
theorem static_cast_GLdouble_value (f : CFloat) :
    (static_cast_GLdouble f).value = f.value :=
  convert_fields (f.val / 2147483648) (f.val / 8388608 % 256) (f.val % 8388608)
    (by have := f.isLt; omega) (Nat.mod_lt _ (by decide)) (Nat.mod_lt _ (by decide))

/-- The conversion to `GLdouble` on sample values: 1.0f, 0.5f, -2.0f, the largest
finite `float`, the smallest and the largest subnormal `float`, the negative
zero and the positive infinity. -/
theorem static_cast_GLdouble_samples :
    static_cast_GLdouble 0x3F800000 = 0x3FF0000000000000 ∧
    static_cast_GLdouble 0x3F000000 = 0x3FE0000000000000 ∧
    static_cast_GLdouble 0xC0000000 = 0xC000000000000000 ∧
    static_cast_GLdouble 0x7F7FFFFF = 0x47EFFFFFE0000000 ∧
    static_cast_GLdouble 0x00000001 = 0x36A0000000000000 ∧
    static_cast_GLdouble 0x007FFFFF = 0x380FFFFFC0000000 ∧
    static_cast_GLdouble 0x80000000 = 0x8000000000000000 ∧
    static_cast_GLdouble 0x7F800000 = 0x7FF0000000000000 := by
  refine ⟨by decide, by decide, by decide, by decide, by decide, by decide, by decide,
    by decide⟩

/-- The failure paths of the render-state stretch: a value that the table of
`GLTypes::Map` does not hold makes the constructor throw `std::invalid_argument`
before anything of the static state exists, and so does a polygon mode outside
the three enumerators, at line 91 when the table holds it and in `GLTypes::Map`
otherwise. -/
theorem ctor_render_state_failures :
    (GLGraphicsPipeline.ctor sampleGLEnv unmappedDesc sampleLimits).1
      = .error (.invalid_argument sampleGLEnv.MapFailedWhat) ∧
    (GLGraphicsPipeline.ctor sampleGLEnv unmappedDesc sampleLimits).2.staticStateBuffer_
      = none ∧
    (GLGraphicsPipeline.ctor sampleGLEnv outOfRangeDesc sampleLimits).1
      = .error (.invalid_argument sampleGLEnv.MapFailedWhat) ∧
    threwInvalidArgument (GLGraphicsPipeline.ctor lenientGLEnv outOfRangeDesc sampleLimits).1
      = true ∧
    (GLGraphicsPipeline.ctor lenientGLEnv outOfRangeDesc sampleLimits).1
      = (PolygonModeToPolygonOffset (PolygonMode.outOfRange 3)).map (fun _ => ()) ∧
    unmappedDesc.isMappable sampleGLEnv = false ∧
    outOfRangeDesc.isMappable lenientGLEnv = false :=
  ⟨rfl, rfl, rfl, rfl, rfl, rfl, rfl⟩

theorem reachesStatic_of_ok (env : GLEnv) (desc : GraphicsPipelineDescriptor)
    (limits : RenderingLimits) (h : (GLGraphicsPipeline.ctor env desc limits).1 = .ok ()) :
    desc.shaderProgram.isNone = false ∧ GLGraphicsPipeline.reachesStatic env desc limits := by
  unfold GLGraphicsPipeline.ctor at h
  simp only [] at h
  cases hn : desc.shaderProgram.isNone with
  | true =>
    rw [hn] at h
    cases h
  | false =>
    rw [hn] at h
    simp only [Bool.false_eq_true, if_false] at h
    have h1 := andThen_ok_elim _ _ h
    rw [andThen_of_ok _ _ h1] at h
    exact ⟨rfl, h1, andThen_ok_elim _ _ h⟩

theorem reachesStatic_of_mappable (env : GLEnv) (desc : GraphicsPipelineDescriptor)
    (limits : RenderingLimits) (hmap : desc.isMappable env = true)
    (hpatch : GetPrimitiveTopologyPatchSize desc.primitiveTopology ≤ limits.maxPatchVertices) :
    GLGraphicsPipeline.reachesStatic env desc limits := by
  refine ⟨ctorInputAssembler_ok env _ desc limits ?_ hpatch, ctorRenderState_ok env _ desc hmap⟩
  unfold GraphicsPipelineDescriptor.isMappable at hmap
  simp only [Bool.and_eq_true] at hmap
  exact hmap.1.1.1.1.1.1.1.1

theorem ctor_of_reaches (env : GLEnv) (desc : GraphicsPipelineDescriptor)
    (limits : RenderingLimits) (hsp : desc.shaderProgram.isNone = false)
    (hr : GLGraphicsPipeline.reachesStatic env desc limits) :
    GLGraphicsPipeline.ctor env desc limits
      = if !desc.viewports.isEmpty || !desc.scissors.isEmpty then
          (GLGraphicsPipeline.beforeStatic env desc limits).BuildStaticStateBuffer env desc
        else
          (.ok (), GLGraphicsPipeline.beforeStatic env desc limits) := by
  unfold GLGraphicsPipeline.ctor GLGraphicsPipeline.beforeStatic
  simp only [hsp, Bool.false_eq_true, if_false]
  rw [andThen_of_ok _ _ hr.1, andThen_of_ok _ _ hr.2]

theorem static_cast_GLint_of_lt (n : Nat) (h : n < 2147483648) : static_cast_GLint n = n := by
  unfold static_cast_GLint Int32.ofBits
  simp only []
  split <;> omega

theorem getPrimitiveTopologyPatchSize_le (t : PrimitiveTopology) :
    GetPrimitiveTopologyPatchSize t ≤ 32 := by
  cases t with
  | other n => simp [GetPrimitiveTopologyPatchSize]
  | Patches i =>
    simp only [GetPrimitiveTopologyPatchSize]
    omega

/-- The object the constructor has built when it reaches line 174. -/
theorem beforeStatic_eq (env : GLEnv) (desc : GraphicsPipelineDescriptor)
    (limits : RenderingLimits) (hr : GLGraphicsPipeline.reachesStatic env desc limits) :
    GetPrimitiveTopologyPatchSize desc.primitiveTopology ≤ limits.maxPatchVertices ∧
    ∃ (drawMode depthFunc : GLenum) (front back : GLStencil) (polygonMode cullFace : GLenum)
      (mode : GLState) (blendStates : List GLBlend) (logicOp : GLenum),
      PolygonModeToPolygonOffset desc.rasterizer.polygonMode = .ok mode ∧
      (desc.blend.logicOp ≠ LogicOp.Disabled →
        env.MapLogicOp desc.blend.logicOp = some logicOp) ∧
      GLGraphicsPipeline.beforeStatic env desc limits
        = { GLGraphicsPipeline.init with
            shaderProgram_ := desc.shaderProgram
            drawMode_ := drawMode
            patchVertices_ := (GetPrimitiveTopologyPatchSize desc.primitiveTopology : Int)
            depthTestEnabled_ := desc.depth.testEnabled
            depthMask_ := if desc.depth.writeEnabled then GL_TRUE else GL_FALSE
            depthFunc_ := depthFunc
            stencilTestEnabled_ := desc.stencil.testEnabled
            stencilFront_ := front
            stencilBack_ := back
            polygonMode_ := polygonMode
            cullFace_ := cullFace
            frontFace_ := if desc.rasterizer.frontCCW then GL_CCW else GL_CW
            scissorTestEnabled_ := desc.rasterizer.scissorTestEnabled
            depthClampEnabled_ := desc.rasterizer.depthClampEnabled
            multiSampleEnabled_ := desc.rasterizer.multiSampling.enabled
            sampleMask_ := desc.rasterizer.multiSampling.sampleMask
            lineSmoothEnabled_ := desc.rasterizer.antiAliasedLineEnabled
            lineWidth_ := desc.rasterizer.lineWidth
            polygonOffsetEnabled_ := IsPolygonOffsetEnabled desc.rasterizer.depthBias
            polygonOffsetMode_ := mode
            polygonOffsetFactor_ := desc.rasterizer.depthBias.slopeFactor
            polygonOffsetUnits_ := desc.rasterizer.depthBias.constantFactor
            polygonOffsetClamp_ := desc.rasterizer.depthBias.clamp
            blendEnabled_ := desc.blend.blendEnabled
            blendColor_ := desc.blend.blendFactor
            blendColorNeeded_ := IsBlendColorNeeded desc.blend
            blendStates_ := blendStates
            sampleAlphaToCoverage_ := desc.blend.alphaToCoverageEnabled
            logicOpEnabled_ := (desc.blend.logicOp != LogicOp.Disabled)
            logicOp_ := if desc.blend.logicOp != LogicOp.Disabled then logicOp else 0 } := by
  obtain ⟨hpatch, dm, e1⟩ := ctorInputAssembler_elim env _ desc limits hr.1
  obtain ⟨df, sf, sb, pm, cf, mode, bs, lo, hmode, hlo, e2⟩ :=
    ctorRenderState_elim env _ desc hr.2
  refine ⟨hpatch, dm, df, sf, sb, pm, cf, mode, bs, lo, hmode, hlo, ?_⟩
  unfold GLGraphicsPipeline.beforeStatic
  rw [e2, e1, static_cast_GLint_of_lt _
    (lt_of_le_of_lt (getPrimitiveTopologyPatchSize_le _) (by decide))]
  simp [GLGraphicsPipeline.init]

theorem beforeStatic_members (env : GLEnv) (desc : GraphicsPipelineDescriptor)
    (limits : RenderingLimits) (hr : GLGraphicsPipeline.reachesStatic env desc limits) :
    (GLGraphicsPipeline.beforeStatic env desc limits).shaderProgram_ = desc.shaderProgram ∧
    (GLGraphicsPipeline.beforeStatic env desc limits).staticStateBuffer_ = none ∧
    (GLGraphicsPipeline.beforeStatic env desc limits).numStaticViewports_ = 0 ∧
    (GLGraphicsPipeline.beforeStatic env desc limits).numStaticScissors_ = 0 := by
  obtain ⟨_, dm, df, sf, sb, pm, cf, mode, bs, lo, _, _, e⟩ := beforeStatic_eq env desc limits hr
  rw [e]
  exact ⟨rfl, rfl, rfl, rfl⟩

theorem beforeStatic_renderState (env : GLEnv) (desc : GraphicsPipelineDescriptor)
    (limits : RenderingLimits) (hr : GLGraphicsPipeline.reachesStatic env desc limits) :
    (GLGraphicsPipeline.beforeStatic env desc limits).patchVertices_
      = (GetPrimitiveTopologyPatchSize desc.primitiveTopology : Int) ∧
    (GLGraphicsPipeline.beforeStatic env desc limits).polygonOffsetEnabled_
      = IsPolygonOffsetEnabled desc.rasterizer.depthBias ∧
    PolygonModeToPolygonOffset desc.rasterizer.polygonMode
      = .ok (GLGraphicsPipeline.beforeStatic env desc limits).polygonOffsetMode_ ∧
    (GLGraphicsPipeline.beforeStatic env desc limits).polygonOffsetFactor_
      = desc.rasterizer.depthBias.slopeFactor ∧
    (GLGraphicsPipeline.beforeStatic env desc limits).polygonOffsetUnits_
      = desc.rasterizer.depthBias.constantFactor ∧
    (GLGraphicsPipeline.beforeStatic env desc limits).polygonOffsetClamp_
      = desc.rasterizer.depthBias.clamp ∧
    (GLGraphicsPipeline.beforeStatic env desc limits).logicOpEnabled_
      = (desc.blend.logicOp != LogicOp.Disabled) ∧
    (GLGraphicsPipeline.beforeStatic env desc limits).blendColorNeeded_
      = IsBlendColorNeeded desc.blend ∧
    (desc.blend.logicOp ≠ LogicOp.Disabled →
      env.MapLogicOp desc.blend.logicOp
        = some (GLGraphicsPipeline.beforeStatic env desc limits).logicOp_) := by
  obtain ⟨_, dm, df, sf, sb, pm, cf, mode, bs, lo, hmode, hlo, e⟩ :=
    beforeStatic_eq env desc limits hr
  rw [e]
  refine ⟨rfl, rfl, hmode, rfl, rfl, rfl, rfl, rfl, ?_⟩
  intro hl
  have hb : (desc.blend.logicOp != LogicOp.Disabled) = true := by simpa using hl
  simp only [hb, if_true]
  exact hlo hl

/-- What a successful construction stores in the derived flags. -/
theorem ctor_ok_flags (env : GLEnv) (desc : GraphicsPipelineDescriptor)
    (limits : RenderingLimits) (h : (GLGraphicsPipeline.ctor env desc limits).1 = .ok ()) :
    (GLGraphicsPipeline.ctor env desc limits).2.shaderProgram_ = desc.shaderProgram ∧
    (GLGraphicsPipeline.ctor env desc limits).2.polygonOffsetEnabled_
      = IsPolygonOffsetEnabled desc.rasterizer.depthBias ∧
    (GLGraphicsPipeline.ctor env desc limits).2.blendColorNeeded_
      = IsBlendColorNeeded desc.blend := by
  obtain ⟨hsp, hr⟩ := reachesStatic_of_ok env desc limits h
  obtain ⟨m1, _, _, _⟩ := beforeStatic_members env desc limits hr
  obtain ⟨_, r2, _, _, _, _, _, r8, _⟩ := beforeStatic_renderState env desc limits hr
  rw [ctor_of_reaches env desc limits hsp hr]
  split
  · have hb := buildStaticStateBuffer_renderState env
      (GLGraphicsPipeline.beforeStatic env desc limits) desc
    have h1 := congrArg (fun r => r.shaderProgram_) hb
    have h2 := congrArg (fun r => r.polygonOffsetEnabled_) hb
    have h3 := congrArg (fun r => r.blendColorNeeded_) hb
    exact ⟨h1.trans m1, h2.trans r2, h3.trans r8⟩
  · exact ⟨m1, r2, r8⟩

/-! ### Blend colour and polygon offset flags -/

theorem isBlendColorNeededOp_iff (blendOp : BlendOp) :
    IsBlendColorNeededOp blendOp = true ↔
      blendOp = BlendOp.BlendFactor ∨ blendOp = BlendOp.InvBlendFactor := by
  simp [IsBlendColorNeededOp]

theorem isBlendColorNeededTargets_iff (targets : List BlendTargetDescriptor) :
    IsBlendColorNeededTargets targets = true ↔ ∃ target ∈ targets, target.usesBlendFactor := by
  induction targets with
  | nil => simp [IsBlendColorNeededTargets]
  | cons target rest ih =>
    unfold IsBlendColorNeededTargets
    by_cases hc : (IsBlendColorNeededOp target.srcColor ||
        IsBlendColorNeededOp target.srcAlpha ||
        IsBlendColorNeededOp target.dstColor ||
        IsBlendColorNeededOp target.dstAlpha) = true
    · rw [if_pos hc]
      simp only [Bool.or_eq_true, isBlendColorNeededOp_iff] at hc
      simp only [List.mem_cons, exists_eq_or_imp, true_iff]
      left
      unfold BlendTargetDescriptor.usesBlendFactor
      tauto
    · rw [if_neg hc, ih]
      simp only [Bool.or_eq_true, isBlendColorNeededOp_iff] at hc
      simp only [List.mem_cons, exists_eq_or_imp]
      constructor
      · intro h
        exact Or.inr h
      · rintro (h | h)
        · exfalso
          apply hc
          unfold BlendTargetDescriptor.usesBlendFactor at h
          tauto
        · exact h

/-- C4: `IsBlendColorNeeded` is true exactly when blending is enabled and some
target has `BlendFactor` or `InvBlendFactor` among its four factors; it is false
when blending is disabled and for an empty target list; a successful
construction stores this value in `blendColorNeeded_`. -/
theorem isBlendColorNeeded_iff (blendDesc : BlendDescriptor) :
    (IsBlendColorNeeded blendDesc = true ↔
      blendDesc.blendEnabled = true ∧ ∃ target ∈ blendDesc.targets, target.usesBlendFactor) ∧
    (blendDesc.blendEnabled = false → IsBlendColorNeeded blendDesc = false) ∧
    (blendDesc.targets = [] → IsBlendColorNeeded blendDesc = false) ∧
    (∀ (env : GLEnv) (desc : GraphicsPipelineDescriptor) (limits : RenderingLimits),
      desc.blend = blendDesc → (GLGraphicsPipeline.ctor env desc limits).1 = .ok () →
      (GLGraphicsPipeline.ctor env desc limits).2.blendColorNeeded_
        = IsBlendColorNeeded blendDesc) := by
  refine ⟨?_, ?_, ?_, ?_⟩
  · unfold IsBlendColorNeeded
    cases hb : blendDesc.blendEnabled with
    | false => simp
    | true => simpa using isBlendColorNeededTargets_iff blendDesc.targets
  · intro hb
    simp [IsBlendColorNeeded, hb]
  · intro ht
    cases hb : blendDesc.blendEnabled <;>
      simp [IsBlendColorNeeded, hb, ht, IsBlendColorNeededTargets]
  · intro env desc limits hd hok
    rw [← hd]
    exact (ctor_ok_flags env desc limits hok).2.2

/-- Witness for C4: the sample descriptor blends with the blend factor, and its
pipeline state is built with `blendColorNeeded_` set; with blending disabled, or
without targets, the flag is off. -/
theorem isBlendColorNeeded_iff_witness :
    (GLGraphicsPipeline.ctor sampleGLEnv sampleDesc sampleLimits).1 = .ok () ∧
    (GLGraphicsPipeline.ctor sampleGLEnv sampleDesc sampleLimits).2.blendColorNeeded_ = true ∧
    IsBlendColorNeeded { sampleDesc.blend with blendEnabled := false } = false ∧
    IsBlendColorNeeded { sampleDesc.blend with targets := [] } = false :=
  ⟨rfl,
   ((isBlendColorNeeded_iff sampleDesc.blend).2.2.2 sampleGLEnv sampleDesc sampleLimits
    rfl rfl).trans rfl,
   (isBlendColorNeeded_iff { sampleDesc.blend with blendEnabled := false }).2.1 rfl,
   (isBlendColorNeeded_iff { sampleDesc.blend with targets := [] }).2.2.1 rfl⟩

/-- C5: `IsPolygonOffsetEnabled` is true exactly when `slopeFactor != 0.0f` or
`constantFactor != 0.0f`; the clamp has no influence, so zero factors with any
clamp give false; a successful construction stores this value in
`polygonOffsetEnabled_`. -/
theorem isPolygonOffsetEnabled_iff (depthBias : DepthBiasDescriptor) :
    (IsPolygonOffsetEnabled depthBias = true ↔
      depthBias.slopeFactor.neZero = true ∨ depthBias.constantFactor.neZero = true) ∧
    (∀ clamp : CFloat,
      IsPolygonOffsetEnabled { depthBias with clamp := clamp }
        = IsPolygonOffsetEnabled depthBias) ∧
    (depthBias.slopeFactor.neZero = false → depthBias.constantFactor.neZero = false →
      IsPolygonOffsetEnabled depthBias = false) ∧
    (∀ (env : GLEnv) (desc : GraphicsPipelineDescriptor) (limits : RenderingLimits),
      desc.rasterizer.depthBias = depthBias →
      (GLGraphicsPipeline.ctor env desc limits).1 = .ok () →
      (GLGraphicsPipeline.ctor env desc limits).2.polygonOffsetEnabled_
        = IsPolygonOffsetEnabled depthBias) := by
  refine ⟨?_, ?_, ?_, ?_⟩
  · simp [IsPolygonOffsetEnabled]
  · intro clamp
    rfl
  · intro h1 h2
    simp [IsPolygonOffsetEnabled, h1, h2]
  · intro env desc limits hd hok
    rw [← hd]
    exact (ctor_ok_flags env desc limits hok).2.1

/-- Witness for C5: zero slope and constant factors with the clamp 1.0f
(`0x3F800000`) leave the polygon offset disabled; the sample descriptor, with
the constant factor 1.0f, is built with the polygon offset enabled. -/
theorem isPolygonOffsetEnabled_iff_witness :
    IsPolygonOffsetEnabled ⟨0, 0, 1065353216⟩ = false ∧
    (GLGraphicsPipeline.ctor sampleGLEnv sampleDesc sampleLimits).2.polygonOffsetEnabled_
      = true :=
  ⟨(isPolygonOffsetEnabled_iff ⟨0, 0, 1065353216⟩).2.2.1 (by decide) (by decide),
   ((isPolygonOffsetEnabled_iff sampleDesc.rasterizer.depthBias).2.2.2 sampleGLEnv sampleDesc
    sampleLimits rfl rfl).trans rfl⟩

/-! ### The Direct3D 11 render target -/

theorem dxThrowIfFailed_ok (hr : HRESULT) (info : String) (h : DXThrowIfFailed hr info = .ok ()) :
    FAILED hr = false := by
  unfold DXThrowIfFailed at h
  cases hf : FAILED hr with
  | false => rfl
  | true => simp [hf] at h

theorem createAndAppendRTV_ok (env : D3D11Env) (self self1 : D3D11RenderTarget)
    (resource : Option ComObject) (rtvDesc : D3D11_RENDER_TARGET_VIEW_DESC)
    (h : self.CreateAndAppendRTV env resource rtvDesc = (.ok (), self1)) :
    self1.multiSamples_ = self.multiSamples_ ∧
    self1.multiSampledAttachments_ = self.multiSampledAttachments_ ∧
    self1.deviceCalls.countP DeviceCall.isCreateTexture2D
      = self.deviceCalls.countP DeviceCall.isCreateTexture2D ∧
    self1.depthStencilView_ = self.depthStencilView_ ∧
    self1.depthStencilFormat_ = self.depthStencilFormat_ := by
  unfold D3D11RenderTarget.CreateAndAppendRTV D3D11RenderTarget.deviceCreateRenderTargetView at h
  simp only [] at h
  split at h
  · simp at h
  · simp only [Prod.mk.injEq, true_and] at h
    rw [← h]
    simp [DeviceCall.isCreateTexture2D]

theorem createDepthStencilAndDSV_ok (env : D3D11Env) (self self1 : D3D11RenderTarget)
    (format : DXGI_FORMAT)
    (h : self.CreateDepthStencilAndDSV env format = (.ok (), self1)) :
    self1.multiSamples_ = self.multiSamples_ ∧
    self1.multiSampledAttachments_ = self.multiSampledAttachments_ ∧
    self1.deviceCalls.countP DeviceCall.isCreateTexture2D
      = self.deviceCalls.countP DeviceCall.isCreateTexture2D + 1 ∧
    self1.depthStencilView_ ≠ none ∧
    self1.depthStencilFormat_ = format := by
  unfold D3D11RenderTarget.CreateDepthStencilAndDSV D3D11RenderTarget.deviceCreateTexture2D
    D3D11RenderTarget.deviceCreateDepthStencilView at h
  simp only [] at h
  split at h
  · simp at h
  · split at h
    · simp at h
    · rename_i h1 _ h2
      have hf := dxThrowIfFailed_ok _ _ h2
      simp only [Prod.mk.injEq, true_and] at h
      rw [← h]
      simp [DeviceCall.isCreateTexture2D, hf]

theorem attachTexture_ok (env : D3D11Env) (self self1 : D3D11RenderTarget)
    (texture : D3D11Texture) (a : AttachmentDescriptor)
    (h : self.AttachTexture env texture a = (.ok (), self1)) :
    self1.multiSamples_ = self.multiSamples_ ∧
    self1.multiSampledAttachments_.map (fun e => e.targetTexture)
      = self.multiSampledAttachments_.map (fun e => e.targetTexture) ++
        (if self.multiSamples_ > 1 && !IsMultiSampleTexture texture.GetType then
          [some (ComObject.external texture.GetNative)] else []) ∧
    self1.deviceCalls.countP DeviceCall.isCreateTexture2D
      = self.deviceCalls.countP DeviceCall.isCreateTexture2D +
        (if self.multiSamples_ > 1 && !IsMultiSampleTexture texture.GetType then 1 else 0) ∧
    self1.depthStencilView_ = self.depthStencilView_ ∧
    self1.depthStencilFormat_ = self.depthStencilFormat_ := by
  unfold D3D11RenderTarget.AttachTexture at h
  simp only [] at h
  split at h
  · simp at h
  · split at h
    · rename_i hms
      have hms1 : (decide (self.multiSamples_ > 1) && !IsMultiSampleTexture texture.GetType) = true := hms
      rw [if_pos hms1, if_pos hms1]
      split at h
      · simp at h
      · unfold D3D11RenderTarget.deviceCreateTexture2D at h
        simp only [] at h
        split at h
        · simp at h
        · have hr := createAndAppendRTV_ok _ _ _ _ _ h
          simp only [] at hr
          obtain ⟨r1, r2, r3, r4, r5⟩ := hr
          refine ⟨r1, ?_, ?_, r4, r5⟩
          · rw [r2]
            simp
          · rw [r3]
            simp [DeviceCall.isCreateTexture2D]
    · rename_i hms
      have hms1 : ¬ (decide (self.multiSamples_ > 1) && !IsMultiSampleTexture texture.GetType) = true := hms
      rw [if_neg hms1, if_neg hms1]
      have hr := createAndAppendRTV_ok _ _ _ _ _ h
      obtain ⟨r1, r2, r3, r4, r5⟩ := hr
      refine ⟨r1, ?_, ?_, r4, r5⟩
      · rw [r2]
        simp
      · rw [r3]
        simp

theorem attach_ok (env : D3D11Env) (self self1 : D3D11RenderTarget) (a : AttachmentDescriptor)
    (h : self.Attach env a = (.ok (), self1)) :
    self1.multiSamples_ = self.multiSamples_ ∧
    self1.multiSampledAttachments_.map (fun e => e.targetTexture)
      = self.multiSampledAttachments_.map (fun e => e.targetTexture) ++
        intermediateTargets self.multiSamples_ [a] ∧
    self1.deviceCalls.countP DeviceCall.isCreateTexture2D
      = self.deviceCalls.countP DeviceCall.isCreateTexture2D +
        (intermediateTargets self.multiSamples_ [a]).length +
        (if a.isTextureless then 1 else 0) ∧
    (a.isTextureless = false →
      self1.depthStencilView_ = self.depthStencilView_ ∧
      self1.depthStencilFormat_ = self.depthStencilFormat_) ∧
    (a.isTextureless = true →
      self1.depthStencilView_ ≠ none ∧
      self1.depthStencilFormat_ = implicitDepthStencilFormat a.type ∧
      a.type ≠ AttachmentType.Color) := by
  unfold D3D11RenderTarget.Attach at h
  cases htex : a.texture with
  | some texture =>
    rw [htex] at h
    simp only [] at h
    obtain ⟨r1, r2, r3, r4, r5⟩ := attachTexture_ok env self self1 texture a h
    have hnt : a.isTextureless = false := by simp [AttachmentDescriptor.isTextureless, htex]
    refine ⟨r1, ?_, ?_, fun _ => ⟨r4, r5⟩, fun ht => by simp [hnt] at ht⟩
    · rw [r2]
      simp only [intermediateTargets, List.filterMap_cons, htex, List.filterMap_nil]
      split <;> simp_all
    · rw [r3]
      simp only [intermediateTargets, List.filterMap_cons, htex, List.filterMap_nil, hnt]
      split <;> simp_all
  | none =>
    rw [htex] at h
    simp only [] at h
    have ht : a.isTextureless = true := by simp [AttachmentDescriptor.isTextureless, htex]
    have hi : intermediateTargets self.multiSamples_ [a] = [] := by
      simp [intermediateTargets, htex]
    rw [hi, ht]
    cases hty : a.type with
    | Color => simp [hty] at h
    | Depth =>
      rw [hty] at h
      obtain ⟨r1, r2, r3, r4, r5⟩ := createDepthStencilAndDSV_ok env self self1 _ h
      exact ⟨r1, by simp [r2], by simp [r3], fun hf => by simp at hf,
        fun _ => ⟨r4, by rw [r5]; rfl, by simp⟩⟩
    | DepthStencil =>
      rw [hty] at h
      obtain ⟨r1, r2, r3, r4, r5⟩ := createDepthStencilAndDSV_ok env self self1 _ h
      exact ⟨r1, by simp [r2], by simp [r3], fun hf => by simp at hf,
        fun _ => ⟨r4, by rw [r5]; rfl, by simp⟩⟩
    | Stencil =>
      rw [hty] at h
      obtain ⟨r1, r2, r3, r4, r5⟩ := createDepthStencilAndDSV_ok env self self1 _ h
      exact ⟨r1, by simp [r2], by simp [r3], fun hf => by simp at hf,
        fun _ => ⟨r4, by rw [r5]; rfl, by simp⟩⟩

theorem lastTextureless_eq (l : List AttachmentDescriptor) :
    lastTextureless l = (l.filter AttachmentDescriptor.isTextureless).getLast? := by
  induction l with
  | nil => rfl
  | cons a rest ih =>
    unfold lastTextureless
    rw [ih]
    cases hf : rest.filter AttachmentDescriptor.isTextureless with
    | nil =>
      cases ha : a.isTextureless <;> simp [List.filter_cons, ha, hf]
    | cons b bs =>
      cases hg : (b :: bs).getLast? with
      | none => simp at hg
      | some x =>
        cases ha : a.isTextureless <;> simp [List.filter_cons, ha, hf, hg]

theorem intermediateTargets_cons (ms : Nat) (a : AttachmentDescriptor)
    (rest : List AttachmentDescriptor) :
    intermediateTargets ms (a :: rest)
      = intermediateTargets ms [a] ++ intermediateTargets ms rest := by
  unfold intermediateTargets
  rw [← List.filterMap_append]
  rfl

theorem attachAll_ok (env : D3D11Env) :
    ∀ (l : List AttachmentDescriptor) (self self1 : D3D11RenderTarget),
      D3D11RenderTarget.AttachAll env self l = (.ok (), self1) →
      self1.multiSamples_ = self.multiSamples_ ∧
      self1.multiSampledAttachments_.map (fun e => e.targetTexture)
        = self.multiSampledAttachments_.map (fun e => e.targetTexture) ++
          intermediateTargets self.multiSamples_ l ∧
      self1.deviceCalls.countP DeviceCall.isCreateTexture2D
        = self.deviceCalls.countP DeviceCall.isCreateTexture2D +
          (intermediateTargets self.multiSamples_ l).length +
          l.countP AttachmentDescriptor.isTextureless ∧
      (match lastTextureless l with
        | none =>
          self1.depthStencilView_ = self.depthStencilView_ ∧
          self1.depthStencilFormat_ = self.depthStencilFormat_
        | some b =>
          self1.depthStencilView_ ≠ none ∧
          self1.depthStencilFormat_ = implicitDepthStencilFormat b.type) := by
  intro l
  induction l with
  | nil =>
    intro self self1 h
    simp only [D3D11RenderTarget.AttachAll, Prod.mk.injEq, true_and] at h
    subst h
    simp [intermediateTargets, lastTextureless]
  | cons a rest ih =>
    intro self self1 h
    unfold D3D11RenderTarget.AttachAll at h
    cases ha : self.Attach env a with
    | mk r selfa =>
      rw [ha] at h
      cases r with
      | error e => simp at h
      | ok u =>
        simp only [] at h
        obtain ⟨a1, a2, a3, a4, a5⟩ := attach_ok env self selfa a ha
        obtain ⟨b1, b2, b3, b4⟩ := ih selfa self1 h
        rw [a1] at b2 b3
        refine ⟨b1.trans a1, ?_, ?_, ?_⟩
        · rw [b2, a2, intermediateTargets_cons self.multiSamples_ a rest, List.append_assoc]
        · rw [b3, a3, intermediateTargets_cons self.multiSamples_ a rest, List.length_append,
            List.countP_cons]
          omega
        · unfold lastTextureless
          cases hl : lastTextureless rest with
          | some b =>
            rw [hl] at b4
            exact b4
          | none =>
            rw [hl] at b4
            simp only [] at b4 ⊢
            cases hat : a.isTextureless with
            | true =>
              obtain ⟨c1, c2, _⟩ := a5 hat
              simp only [if_true]
              exact ⟨b4.1 ▸ c1, b4.2.trans c2⟩
            | false =>
              obtain ⟨c1, c2⟩ := a4 hat
              simp only [Bool.false_eq_true, if_false]
              exact ⟨b4.1.trans c1, b4.2.trans c2⟩

theorem intermediateTargets_single_length (ms : Nat) (a : AttachmentDescriptor) :
    (intermediateTargets ms [a]).length
      = if ms > 1 ∧ a.hasNonMultiSampleTexture = true then 1 else 0 := by
  cases ht : a.texture with
  | none => simp [intermediateTargets, AttachmentDescriptor.hasNonMultiSampleTexture, ht]
  | some t =>
    by_cases hms : ms > 1
    · cases hty : IsMultiSampleTexture t.GetType <;>
        simp [intermediateTargets, AttachmentDescriptor.hasNonMultiSampleTexture, ht, hms, hty]
    · simp [intermediateTargets, AttachmentDescriptor.hasNonMultiSampleTexture, ht, hms]

theorem intermediateTargets_length (ms : Nat) (l : List AttachmentDescriptor) :
    (intermediateTargets ms l).length
      = if ms > 1 then l.countP AttachmentDescriptor.hasNonMultiSampleTexture else 0 := by
  induction l with
  | nil => simp [intermediateTargets]
  | cons a rest ih =>
    rw [intermediateTargets_cons ms a rest, List.length_append, ih,
      intermediateTargets_single_length, List.countP_cons]
    by_cases hms : ms > 1
    · cases ha : a.hasNonMultiSampleTexture <;> simp [hms]
      omega
    · simp [hms]

theorem attachAll_fails_of_color_without_texture (env : D3D11Env) (a : AttachmentDescriptor)
    (hty : a.type = AttachmentType.Color) (htex : a.texture = none) :
    ∀ (l : List AttachmentDescriptor) (self : D3D11RenderTarget), a ∈ l →
      succeeded (D3D11RenderTarget.AttachAll env self l).1 = false := by
  intro l
  induction l with
  | nil =>
    intro self hmem
    simp at hmem
  | cons b rest ih =>
    intro self hmem
    unfold D3D11RenderTarget.AttachAll
    cases hb : self.Attach env b with
    | mk r selfb =>
      cases r with
      | error e => rfl
      | ok u =>
        simp only []
        rcases List.mem_cons.mp hmem with heq | hin
        · subst heq
          simp [D3D11RenderTarget.Attach, htex, hty] at hb
        · exact ih selfb hin

/-- C6: attaching a `Color` attachment without a texture throws
`std::invalid_argument` and leaves the render target, its device-call log
included, as it was (no view, no surface); constructing a render target from a
descriptor that contains such an attachment fails. -/
theorem attach_color_without_texture (env : D3D11Env) (self : D3D11RenderTarget)
    (a : AttachmentDescriptor) (hty : a.type = AttachmentType.Color)
    (htex : a.texture = none) :
    (self.Attach env a).1 = .error (.invalid_argument
      "cannot have color attachment in render target without a valid texture") ∧
    (self.Attach env a).2 = self ∧
    ∀ desc : RenderTargetDescriptor, a ∈ desc.attachments →
      succeeded (D3D11RenderTarget.ctor env desc).1 = false := by
  refine ⟨?_, ?_, ?_⟩
  · simp [D3D11RenderTarget.Attach, htex, hty]
  · simp [D3D11RenderTarget.Attach, htex, hty]
  · intro desc hmem
    exact attachAll_fails_of_color_without_texture env a hty htex desc.attachments _ hmem

/-- Witness for C6: a texture-less colour attachment after a valid one. -/
theorem attach_color_without_texture_witness :
    succeeded (D3D11RenderTarget.ctor sampleD3D11Env
      { sampleRenderTargetDesc with
        attachments := [⟨AttachmentType.Color, some sampleTexture, 0, 0⟩,
          ⟨AttachmentType.Color, none, 0, 0⟩] }).1 = false :=
  (attach_color_without_texture sampleD3D11Env (D3D11RenderTarget.ctor sampleD3D11Env
      sampleRenderTargetDesc).2 ⟨AttachmentType.Color, none, 0, 0⟩ rfl rfl).2.2
    { sampleRenderTargetDesc with
      attachments := [⟨AttachmentType.Color, some sampleTexture, 0, 0⟩,
        ⟨AttachmentType.Color, none, 0, 0⟩] } (by decide)

/-- C8: after a successful construction the number of pending resolves is the
number of attachments that carry a texture of a non-multisample type when the
sample count exceeds 1, and zero otherwise; the device was asked for exactly
that many textures beyond the one implicit depth-stencil surface per
texture-less attachment; a 4x target with a single non-multisample 2D texture at
mip level 0 records exactly one pending resolve. -/
theorem pending_resolves_count (env : D3D11Env) (desc : RenderTargetDescriptor)
    (h : (D3D11RenderTarget.ctor env desc).1 = .ok ()) :
    (D3D11RenderTarget.ctor env desc).2.multiSampledAttachments_.length
      = (if env.SampleCount desc.multiSampling > 1 then
          desc.attachments.countP AttachmentDescriptor.hasNonMultiSampleTexture
        else 0) ∧
    (D3D11RenderTarget.ctor env desc).2.deviceCalls.countP DeviceCall.isCreateTexture2D
      = (D3D11RenderTarget.ctor env desc).2.multiSampledAttachments_.length +
        desc.attachments.countP AttachmentDescriptor.isTextureless ∧
    (∀ (a : AttachmentDescriptor) (texture : D3D11Texture),
      env.SampleCount desc.multiSampling = 4 → desc.attachments = [a] →
      a.texture = some texture → texture.GetType = TextureType.Texture2D → a.mipLevel = 0 →
      (D3D11RenderTarget.ctor env desc).2.multiSampledAttachments_.length = 1) := by
  have hc : D3D11RenderTarget.ctor env desc = (.ok (), (D3D11RenderTarget.ctor env desc).2) :=
    Prod.ext h rfl
  unfold D3D11RenderTarget.ctor at hc
  simp only [] at hc
  obtain ⟨_, h2, h3, _⟩ := attachAll_ok env _ _ _ hc
  simp only [List.map_nil, List.nil_append, List.countP_nil, Nat.zero_add] at h2 h3
  have hlen := congrArg List.length h2
  rw [List.length_map, intermediateTargets_length] at hlen
  have hunf : (D3D11RenderTarget.AttachAll env
      { deviceCalls := [], resolution_ := desc.resolution,
        multiSamples_ := env.SampleCount desc.multiSampling, renderPass_ := desc.renderPass,
        renderTargetViews_ := [], renderTargetViewsRef_ := [], depthStencil_ := none,
        depthStencilView_ := none, depthStencilFormat_ := DXGI_FORMAT_UNKNOWN,
        multiSampledAttachments_ := [] } desc.attachments).2
      = (D3D11RenderTarget.ctor env desc).2 := rfl
  rw [hunf] at hlen h3
  refine ⟨hlen, ?_, ?_⟩
  · rw [h3, intermediateTargets_length, hlen]
  · intro a texture hs hl ht hty _
    rw [hlen, hs, hl]
    simp [AttachmentDescriptor.hasNonMultiSampleTexture, ht, hty, IsMultiSampleTexture]

/-- Witness for C8: the sample render target (4x, one 2D colour texture, one
implicit depth buffer) records one pending resolve and creates two textures;
so does the 4x target with the 2D texture as its single attachment. -/
theorem pending_resolves_count_witness :
    (D3D11RenderTarget.ctor sampleD3D11Env sampleRenderTargetDesc).2.multiSampledAttachments_.length
      = 1 ∧
    (D3D11RenderTarget.ctor sampleD3D11Env sampleRenderTargetDesc).2.deviceCalls.countP
      DeviceCall.isCreateTexture2D = 2 ∧
    (D3D11RenderTarget.ctor sampleD3D11Env
      singleTextureTargetDesc).2.multiSampledAttachments_.length = 1 :=
  ⟨(pending_resolves_count sampleD3D11Env sampleRenderTargetDesc rfl).1.trans rfl,
   (pending_resolves_count sampleD3D11Env sampleRenderTargetDesc rfl).2.1.trans rfl,
   (pending_resolves_count sampleD3D11Env singleTextureTargetDesc rfl).2.2
    ⟨AttachmentType.Color, some sampleTexture, 0, 0⟩ sampleTexture rfl rfl rfl rfl rfl⟩

theorem resolve_foldl (l : List MultiSampledAttachment) (context : List ContextCall) :
    l.foldl (fun ctx attachment =>
      ctx ++ [ContextCall.ResolveSubresource attachment.targetTexture
        attachment.targetSubresourceIndex attachment.texture2DMS 0 attachment.format]) context
      = context ++ l.map MultiSampledAttachment.resolveCall := by
  induction l generalizing context with
  | nil => simp
  | cons a rest ih =>
    rw [List.foldl_cons, ih]
    simp [MultiSampledAttachment.resolveCall]

/-- C9: `ResolveSubresources` issues one `ResolveSubresource` call per entry of
`multiSampledAttachments_`, in list order, with the entry's destination texture
and subresource, the intermediate surface as source (subresource 0) and the
entry's format; it issues nothing for an empty list and leaves the render target
unchanged; after a successful construction the entries are in the order of the
descriptor's attachments. -/
theorem resolveSubresources_calls (self : D3D11RenderTarget) (context : List ContextCall) :
    (self.ResolveSubresources context).1
      = context ++ self.multiSampledAttachments_.map MultiSampledAttachment.resolveCall ∧
    (self.ResolveSubresources context).2 = self ∧
    (self.multiSampledAttachments_ = [] → (self.ResolveSubresources context).1 = context) ∧
    (∀ (env : D3D11Env) (desc : RenderTargetDescriptor),
      D3D11RenderTarget.ctor env desc = (.ok (), self) →
      self.multiSampledAttachments_.map (fun e => e.targetTexture)
        = intermediateTargets (env.SampleCount desc.multiSampling) desc.attachments) := by
  refine ⟨resolve_foldl _ _, rfl, ?_, ?_⟩
  · intro hnil
    unfold D3D11RenderTarget.ResolveSubresources
    rw [hnil]
    rfl
  · intro env desc hc
    unfold D3D11RenderTarget.ctor at hc
    simp only [] at hc
    obtain ⟨_, h2, _, _⟩ := attachAll_ok env _ _ _ hc
    simpa using h2

/-- Witness for C9: resolving the sample render target issues its one resolve;
resolving a render target without pending resolves issues nothing. -/
theorem resolveSubresources_calls_witness :
    ((D3D11RenderTarget.ctor sampleD3D11Env sampleRenderTargetDesc).2.ResolveSubresources []).1
      = [ContextCall.ResolveSubresource (some (ComObject.external 1)) 0
          (some (ComObject.created 0)) 0 28] ∧
    (D3D11RenderTarget.ctor sampleD3D11Env
        sampleRenderTargetDesc).2.multiSampledAttachments_.map (fun e => e.targetTexture)
      = [some (ComObject.external 1)] ∧
    ((D3D11RenderTarget.ctor sampleD3D11Env stencilTargetDesc).2.ResolveSubresources []).1
      = [] :=
  ⟨(resolveSubresources_calls (D3D11RenderTarget.ctor sampleD3D11Env sampleRenderTargetDesc).2
      []).1.trans rfl,
   ((resolveSubresources_calls (D3D11RenderTarget.ctor sampleD3D11Env sampleRenderTargetDesc).2
      []).2.2.2 sampleD3D11Env sampleRenderTargetDesc rfl).trans rfl,
   (resolveSubresources_calls (D3D11RenderTarget.ctor sampleD3D11Env stencilTargetDesc).2
      []).2.2.1 rfl⟩

/-- C10: after a successful construction `HasStencilAttachment` is true only if a
depth-stencil view exists and its format is `D24_UNORM_S8_UINT`; it is false
when the only texture-less attachment has type `Depth` (the format is then
`D32_FLOAT`), true when the last texture-less attachment has type `Stencil` or
`DepthStencil`; and it implies `HasDepthAttachment`. -/
theorem hasStencilAttachment_spec (env : D3D11Env) (desc : RenderTargetDescriptor)
    (h : (D3D11RenderTarget.ctor env desc).1 = .ok ()) :
    ((D3D11RenderTarget.ctor env desc).2.HasStencilAttachment = true →
      (D3D11RenderTarget.ctor env desc).2.depthStencilView_ ≠ none ∧
      (D3D11RenderTarget.ctor env desc).2.depthStencilFormat_
        = DXGI_FORMAT_D24_UNORM_S8_UINT) ∧
    (∀ a : AttachmentDescriptor,
      desc.attachments.filter AttachmentDescriptor.isTextureless = [a] →
      a.type = AttachmentType.Depth →
      (D3D11RenderTarget.ctor env desc).2.depthStencilFormat_ = DXGI_FORMAT_D32_FLOAT ∧
      (D3D11RenderTarget.ctor env desc).2.HasStencilAttachment = false) ∧
    (∀ a : AttachmentDescriptor,
      (desc.attachments.filter AttachmentDescriptor.isTextureless).getLast? = some a →
      a.type = AttachmentType.Stencil ∨ a.type = AttachmentType.DepthStencil →
      (D3D11RenderTarget.ctor env desc).2.HasStencilAttachment = true) ∧
    ((D3D11RenderTarget.ctor env desc).2.HasStencilAttachment = true →
      (D3D11RenderTarget.ctor env desc).2.HasDepthAttachment = true) := by
  have hc : D3D11RenderTarget.ctor env desc = (.ok (), (D3D11RenderTarget.ctor env desc).2) :=
    Prod.ext h rfl
  unfold D3D11RenderTarget.ctor at hc
  simp only [] at hc
  obtain ⟨_, _, _, h4⟩ := attachAll_ok env _ _ _ hc
  have hunf : (D3D11RenderTarget.AttachAll env
      { deviceCalls := [], resolution_ := desc.resolution,
        multiSamples_ := env.SampleCount desc.multiSampling, renderPass_ := desc.renderPass,
        renderTargetViews_ := [], renderTargetViewsRef_ := [], depthStencil_ := none,
        depthStencilView_ := none, depthStencilFormat_ := DXGI_FORMAT_UNKNOWN,
        multiSampledAttachments_ := [] } desc.attachments).2
      = (D3D11RenderTarget.ctor env desc).2 := rfl
  rw [hunf, lastTextureless_eq] at h4
  refine ⟨?_, ?_, ?_, ?_⟩
  · intro hs
    simpa [D3D11RenderTarget.HasStencilAttachment] using hs
  · intro a hf hty
    rw [hf] at h4
    simp only [List.getLast?_singleton, hty] at h4
    refine ⟨h4.2, ?_⟩
    simp [D3D11RenderTarget.HasStencilAttachment, h4.2, implicitDepthStencilFormat,
      DXGI_FORMAT_D32_FLOAT, DXGI_FORMAT_D24_UNORM_S8_UINT]
  · intro a hl hty
    rw [hl] at h4
    simp only [] at h4
    have hfmt : (D3D11RenderTarget.ctor env desc).2.depthStencilFormat_
        = DXGI_FORMAT_D24_UNORM_S8_UINT := by
      rcases hty with hty | hty <;> rw [h4.2, hty] <;> rfl
    simp [D3D11RenderTarget.HasStencilAttachment, hfmt, h4.1]
  · intro hs
    simp only [D3D11RenderTarget.HasStencilAttachment, Bool.and_eq_true] at hs
    exact hs.1

/-- Witness for C10: the sample render target has an implicit depth buffer, hence
a depth attachment and no stencil attachment; the target with an implicit
depth-stencil buffer has a stencil attachment, in the format
`D24_UNORM_S8_UINT`, and a depth attachment. -/
theorem hasStencilAttachment_spec_witness :
    (D3D11RenderTarget.ctor sampleD3D11Env sampleRenderTargetDesc).2.HasStencilAttachment
      = false ∧
    (D3D11RenderTarget.ctor sampleD3D11Env sampleRenderTargetDesc).2.HasDepthAttachment = true ∧
    (D3D11RenderTarget.ctor sampleD3D11Env stencilTargetDesc).2.HasStencilAttachment = true ∧
    (D3D11RenderTarget.ctor sampleD3D11Env stencilTargetDesc).2.depthStencilFormat_
      = DXGI_FORMAT_D24_UNORM_S8_UINT ∧
    (D3D11RenderTarget.ctor sampleD3D11Env stencilTargetDesc).2.HasDepthAttachment = true :=
  let h := hasStencilAttachment_spec sampleD3D11Env stencilTargetDesc rfl
  let hs := h.2.2.1 ⟨AttachmentType.DepthStencil, none, 0, 0⟩ rfl (Or.inr rfl)
  ⟨((hasStencilAttachment_spec sampleD3D11Env sampleRenderTargetDesc rfl).2.1
      ⟨AttachmentType.Depth, none, 0, 0⟩ rfl rfl).2, rfl, hs, (h.1 hs).2, h.2.2.2 hs⟩

/-! ### The static state buffer -/

/-! ### Object representations -/

theorem bytesOfBits32_length (w : Nat) : (bytesOfBits32 w).length = 4 := rfl

theorem bits32OfBytes_bytesOfBits32 (w : Nat) (rest : List Byte) (h : w < 4294967296) :
    bits32OfBytes (bytesOfBits32 w ++ rest) = w := by
  simp only [bytesOfBits32, bits32OfBytes, List.cons_append, List.nil_append, List.getD_cons_zero,
    List.getD_cons_succ]
  omega

theorem bits64OfBytes_bytesOfBits64 (w : Nat) (rest : List Byte)
    (h : w < 18446744073709551616) :
    bits64OfBytes (bytesOfBits64 w ++ rest) = w := by
  unfold bits64OfBytes bytesOfBits64
  rw [List.append_assoc, bits32OfBytes_bytesOfBits32 _ _ (Nat.mod_lt _ (by decide))]
  have hd : List.drop 4 (bytesOfBits32 (w % 4294967296) ++ (bytesOfBits32 (w / 4294967296) ++ rest))
      = bytesOfBits32 (w / 4294967296) ++ rest := by
    simp [bytesOfBits32]
  rw [hd, bits32OfBytes_bytesOfBits32 _ _ (by omega)]
  omega

theorem cfloat_toBytes_length (f : CFloat) : f.toBytes.length = 4 := rfl

theorem cfloat_ofBytes_toBytes (f : CFloat) (rest : List Byte) :
    CFloat.ofBytes (f.toBytes ++ rest) = f := by
  apply Fin.ext
  simp only [CFloat.ofBytes, CFloat.toBytes]
  rw [bits32OfBytes_bytesOfBits32 _ _ f.isLt]
  exact Nat.mod_eq_of_lt f.isLt

theorem gldouble_toBytes_length (d : GLdouble) : d.toBytes.length = 8 := rfl

theorem gldouble_ofBytes_toBytes (d : GLdouble) (rest : List Byte) :
    GLdouble.ofBytes (d.toBytes ++ rest) = d := by
  apply Fin.ext
  simp only [GLdouble.ofBytes, GLdouble.toBytes]
  rw [bits64OfBytes_bytesOfBits64 _ _ d.isLt]
  exact Nat.mod_eq_of_lt d.isLt

theorem int32_toBytes_length (i : Int32) : i.toBytes.length = 4 := rfl

theorem int32_ofBytes_toBytes (i : Int32) (rest : List Byte) :
    Int32.ofBytes (i.toBytes ++ rest) = i := by
  obtain ⟨v, hlo, hhi⟩ := i
  apply Subtype.ext
  simp only [Int32.ofBytes, Int32.toBytes, Int32.ofBits]
  rw [bits32OfBytes_bytesOfBits32 _ _ (by omega)]
  split <;> omega

theorem glViewport_toBytes_length (v : GLViewport) : v.toBytes.length = 16 := rfl

theorem glDepthRange_toBytes_length (d : GLDepthRange) : d.toBytes.length = 16 := rfl

theorem glScissor_toBytes_length (sc : GLScissor) : sc.toBytes.length = 16 := rfl

theorem drop_append_length_add {α : Type} (a b : List α) (n : Nat) (h : a.length = n) :
    (a ++ b).drop n = b := by
  subst h
  exact List.drop_left a b

theorem glViewport_ofBytes_toBytes (v : GLViewport) (rest : List Byte) :
    GLViewport.ofBytes (v.toBytes ++ rest) = v := by
  obtain ⟨x, y, w, h⟩ := v
  simp only [GLViewport.ofBytes, GLViewport.toBytes, List.append_assoc]
  have d4 : List.drop 4 (x.toBytes ++ (y.toBytes ++ (w.toBytes ++ (h.toBytes ++ rest))))
      = y.toBytes ++ (w.toBytes ++ (h.toBytes ++ rest)) := drop_append_length_add _ _ 4 rfl
  have d8 : List.drop 8 (x.toBytes ++ (y.toBytes ++ (w.toBytes ++ (h.toBytes ++ rest))))
      = w.toBytes ++ (h.toBytes ++ rest) := by
    rw [← List.append_assoc]
    exact drop_append_length_add _ _ 8 rfl
  have d12 : List.drop 12 (x.toBytes ++ (y.toBytes ++ (w.toBytes ++ (h.toBytes ++ rest))))
      = h.toBytes ++ rest := by
    rw [← List.append_assoc, ← List.append_assoc]
    exact drop_append_length_add _ _ 12 rfl
  rw [d4, d8, d12, cfloat_ofBytes_toBytes, cfloat_ofBytes_toBytes, cfloat_ofBytes_toBytes,
    cfloat_ofBytes_toBytes]

theorem glScissor_ofBytes_toBytes (sc : GLScissor) (rest : List Byte) :
    GLScissor.ofBytes (sc.toBytes ++ rest) = sc := by
  obtain ⟨x, y, w, h⟩ := sc
  simp only [GLScissor.ofBytes, GLScissor.toBytes, List.append_assoc]
  have d4 : List.drop 4 (x.toBytes ++ (y.toBytes ++ (w.toBytes ++ (h.toBytes ++ rest))))
      = y.toBytes ++ (w.toBytes ++ (h.toBytes ++ rest)) := drop_append_length_add _ _ 4 rfl
  have d8 : List.drop 8 (x.toBytes ++ (y.toBytes ++ (w.toBytes ++ (h.toBytes ++ rest))))
      = w.toBytes ++ (h.toBytes ++ rest) := by
    rw [← List.append_assoc]
    exact drop_append_length_add _ _ 8 rfl
  have d12 : List.drop 12 (x.toBytes ++ (y.toBytes ++ (w.toBytes ++ (h.toBytes ++ rest))))
      = h.toBytes ++ rest := by
    rw [← List.append_assoc, ← List.append_assoc]
    exact drop_append_length_add _ _ 12 rfl
  rw [d4, d8, d12, int32_ofBytes_toBytes, int32_ofBytes_toBytes, int32_ofBytes_toBytes,
    int32_ofBytes_toBytes]

theorem glDepthRange_ofBytes_toBytes (d : GLDepthRange) (rest : List Byte) :
    GLDepthRange.ofBytes (d.toBytes ++ rest) = d := by
  obtain ⟨a, b⟩ := d
  simp only [GLDepthRange.ofBytes, GLDepthRange.toBytes, List.append_assoc]
  have d8 : List.drop 8 (a.toBytes ++ (b.toBytes ++ rest)) = b.toBytes ++ rest :=
    drop_append_length_add _ _ 8 rfl
  rw [d8, gldouble_ofBytes_toBytes, gldouble_ofBytes_toBytes]

/-- Reading back an array of records that were laid out back to back. -/
theorem decodeRecords_flatMap {α : Type} (decode : List Byte → α) (enc : α → List Byte)
    (size : Nat) (henc : ∀ x, (enc x).length = size)
    (hdec : ∀ x rest, decode (enc x ++ rest) = x) :
    ∀ (l : List α) (rest : List Byte),
      decodeRecords decode size l.length (l.flatMap enc ++ rest) = l := by
  intro l
  induction l with
  | nil =>
    intro rest
    rfl
  | cons x xs ih =>
    intro rest
    simp only [List.length_cons, decodeRecords, List.flatMap_cons, List.append_assoc]
    rw [drop_append_length_add _ _ size (henc x), ih]
    have ht : List.take size (enc x ++ (xs.flatMap enc ++ rest)) = enc x := by
      rw [List.take_left' (henc x)]
    rw [ht]
    have := hdec x []
    rw [List.append_nil] at this
    rw [this]

/-! ### Writing records at the cursor -/

theorem storeBytes_at_end (pre rest bs : List Byte) (h : bs.length ≤ rest.length) :
    storeBytes (pre ++ rest) pre.length bs = .ok (pre ++ bs ++ rest.drop bs.length) := by
  unfold storeBytes
  rw [if_pos (by rw [List.length_append]; omega)]
  rw [List.take_left, List.drop_append]

theorem storeBytes_at_cursor (pre rest bs : List Byte) (n : Nat) (hn : pre.length = n)
    (h : bs.length ≤ rest.length) :
    storeBytes (pre ++ rest) n bs = .ok (pre ++ bs ++ rest.drop bs.length) := by
  subst hn
  exact storeBytes_at_end pre rest bs h

theorem store_four (pre rest a b c d : List Byte) (ha : a.length = 4) (hb : b.length = 4)
    (hc : c.length = 4) (hd : d.length = 4) (h : 16 ≤ rest.length) :
    (do
      let buf ← storeBytes (pre ++ rest) pre.length a
      let buf ← storeBytes buf (pre.length + 4) b
      let buf ← storeBytes buf (pre.length + 8) c
      storeBytes buf (pre.length + 12) d : Except Error (List Byte))
      = .ok (pre ++ (a ++ b ++ c ++ d) ++ rest.drop 16) := by
  rw [storeBytes_at_end pre rest a (by omega)]
  simp only [bind, Except.bind]
  rw [storeBytes_at_cursor (pre ++ a) (rest.drop a.length) b (pre.length + 4)
    (by rw [List.length_append, ha]) (by rw [List.length_drop]; omega)]
  simp only []
  rw [storeBytes_at_cursor (pre ++ a ++ b) ((rest.drop a.length).drop b.length) c (pre.length + 8)
    (by simp only [List.length_append, ha, hb]) (by simp only [List.length_drop]; omega)]
  simp only []
  rw [storeBytes_at_cursor (pre ++ a ++ b ++ c)
    (((rest.drop a.length).drop b.length).drop c.length) d (pre.length + 12)
    (by simp only [List.length_append, ha, hb, hc]) (by simp only [List.length_drop]; omega)]
  simp only [List.drop_drop, ha, hb, hc, hd, List.append_assoc]

theorem store_GLViewport_at_end (pre rest : List Byte) (v : GLViewport)
    (h : 16 ≤ rest.length) :
    store_GLViewport (pre ++ rest) pre.length v = .ok (pre ++ v.toBytes ++ rest.drop 16) :=
  store_four pre rest _ _ _ _ rfl rfl rfl rfl h

theorem store_GLScissor_at_end (pre rest : List Byte) (sc : GLScissor)
    (h : 16 ≤ rest.length) :
    store_GLScissor (pre ++ rest) pre.length sc = .ok (pre ++ sc.toBytes ++ rest.drop 16) :=
  store_four pre rest _ _ _ _ rfl rfl rfl rfl h

theorem store_GLDepthRange_at_end (pre rest : List Byte) (d : GLDepthRange)
    (h : 16 ≤ rest.length) :
    store_GLDepthRange (pre ++ rest) pre.length d = .ok (pre ++ d.toBytes ++ rest.drop 16) := by
  unfold store_GLDepthRange
  rw [storeBytes_at_end pre rest _ (by rw [gldouble_toBytes_length]; omega)]
  simp only [bind, Except.bind]
  rw [storeBytes_at_cursor (pre ++ d.minDepth.toBytes) (rest.drop d.minDepth.toBytes.length)
    d.maxDepth.toBytes (pre.length + 8)
    (by rw [List.length_append, gldouble_toBytes_length])
    (by rw [List.length_drop, gldouble_toBytes_length, gldouble_toBytes_length]; omega)]
  simp only [List.drop_drop, gldouble_toBytes_length, GLDepthRange.toBytes, List.append_assoc]

theorem elemAt_of_drop {α : Type} (xs : List α) (i : Nat) (x : α) (l : List α)
    (h : xs.drop i = x :: l) : elemAt xs i = .ok x ∧ xs.drop (i + 1) = l := by
  have h1 : xs[i]? = some x := by
    have := congrArg (fun t => t[0]?) h
    simpa [List.getElem?_drop] using this
  constructor
  · simp [elemAt, h1]
  · have := congrArg (List.drop 1) h
    simpa [List.drop_drop, Nat.add_comm] using this

/-- A loop that writes one 16-byte record per element at the cursor fills the
buffer with the records back to back and advances the cursor past them. -/
theorem staticLoop_ok {α : Type} (xs : List α) (enc : α → List Byte)
    (write : α → Nat → List Byte → Except Error (List Byte))
    (henc : ∀ x, (enc x).length = 16)
    (hwrite : ∀ x pre rest, 16 ≤ rest.length →
      write x pre.length (pre ++ rest) = .ok (pre ++ enc x ++ rest.drop 16)) :
    ∀ (l : List α) (i : Nat) (self : GLGraphicsPipeline) (pre rest : List Byte),
      xs.drop i = l → self.staticStateBuffer_ = some (pre ++ rest) →
      16 * l.length ≤ rest.length →
      forLoopFrom
        (fun i (st : GLGraphicsPipeline × RawBufferIterator) => do
          let (dst, it) := st.2.Next 16 1
          let x ← elemAt xs i
          let self1 ← st.1.storeStatic (write x dst)
          pure (self1, it))
        l.length i (self, { byteBuffer_ := pre.length })
      = .ok ({ self with
                staticStateBuffer_ := some (pre ++ l.flatMap enc ++ rest.drop (16 * l.length)) },
              { byteBuffer_ := pre.length + 16 * l.length }) := by
  intro l
  induction l with
  | nil =>
    intro i self pre rest _ hbuf _
    simp only [List.length_nil, forLoopFrom, List.flatMap_nil, List.append_nil, Nat.mul_zero,
      List.drop_zero, Nat.add_zero]
    rw [← hbuf]
  | cons x l ih =>
    intro i self pre rest hdrop hbuf hlen
    obtain ⟨hx, hdrop1⟩ := elemAt_of_drop xs i x l hdrop
    rw [List.length_cons] at hlen ⊢
    unfold forLoopFrom
    have hstep : (do
          let (dst, it) := (self, ({ byteBuffer_ := pre.length } : RawBufferIterator)).2.Next 16 1
          let x ← elemAt xs i
          let self1 ← (self, ({ byteBuffer_ := pre.length } : RawBufferIterator)).1.storeStatic
            (write x dst)
          pure (self1, it) : Except Error (GLGraphicsPipeline × RawBufferIterator))
        = .ok ({ self with staticStateBuffer_ := some (pre ++ enc x ++ rest.drop 16) },
            { byteBuffer_ := (pre ++ enc x).length }) := by
      simp only [RawBufferIterator.Next, hx, bind, Except.bind, GLGraphicsPipeline.storeStatic,
        hbuf, hwrite x pre rest (by omega), pure, Except.pure, List.length_append, henc,
        Nat.mul_one]
    rw [hstep]
    simp only []
    rw [ih (i + 1) _ (pre ++ enc x) (rest.drop 16) hdrop1 rfl
      (by rw [List.length_drop]; omega)]
    have e1 : 16 * (l.length + 1) = 16 + 16 * l.length := by omega
    have e2 : pre.length + 16 + 16 * l.length = pre.length + (16 + 16 * l.length) := by omega
    simp only [List.length_append, henc, List.flatMap_cons, List.append_assoc, List.drop_drop,
      e1, e2]

theorem buildStaticViewports_ok (env : GLEnv) (self : GLGraphicsPipeline) (vs : List Viewport)
    (pre rest : List Byte) (hbuf : self.staticStateBuffer_ = some (pre ++ rest))
    (hlimit : static_cast_GLsizei vs.length ≤ (env.LLGL_MAX_NUM_VIEWPORTS_AND_SCISSORS : Int))
    (hlen : 32 * vs.length ≤ rest.length) :
    self.BuildStaticViewports env vs.length vs { byteBuffer_ := pre.length }
      = (.ok { byteBuffer_ := pre.length + 32 * vs.length },
          { self with
            numStaticViewports_ := static_cast_GLsizei vs.length
            staticStateBuffer_ := some (pre ++ vs.flatMap (fun v => (viewportRecord v).toBytes)
              ++ vs.flatMap (fun v => (depthRangeRecord v).toBytes)
              ++ rest.drop (32 * vs.length)) }) := by
  unfold GLGraphicsPipeline.BuildStaticViewports
  simp only [forLoop, sizeof_GLViewport, sizeof_GLDepthRange]
  rw [if_neg (by omega)]
  have h1 := staticLoop_ok vs (fun v => (viewportRecord v).toBytes)
    (fun v dst buf => store_GLViewport buf dst (viewportRecord v))
    (fun v => glViewport_toBytes_length _)
    (fun v pre rest h => store_GLViewport_at_end pre rest _ h)
    vs 0 { self with numStaticViewports_ := static_cast_GLsizei vs.length } pre rest
    (List.drop_zero vs) hbuf (by omega)
  simp only [] at h1
  rw [h1]
  simp only []
  have h2 := staticLoop_ok vs (fun v => (depthRangeRecord v).toBytes)
    (fun v dst buf => store_GLDepthRange buf dst (depthRangeRecord v))
    (fun v => glDepthRange_toBytes_length _)
    (fun v pre rest h => store_GLDepthRange_at_end pre rest _ h)
    vs 0
    { self with
      numStaticViewports_ := static_cast_GLsizei vs.length
      staticStateBuffer_ := some (pre ++ vs.flatMap (fun v => (viewportRecord v).toBytes)
        ++ rest.drop (16 * vs.length)) }
    (pre ++ vs.flatMap (fun v => (viewportRecord v).toBytes)) (rest.drop (16 * vs.length))
    (List.drop_zero vs) rfl (by rw [List.length_drop]; omega)
  have hl : (pre ++ vs.flatMap (fun v => (viewportRecord v).toBytes)).length
      = pre.length + 16 * vs.length := by
    rw [List.length_append]
    congr 1
    clear h1 h2 hlen hlimit
    induction vs with
    | nil => rfl
    | cons v vs ih =>
      rw [List.flatMap_cons, List.length_append, ih, glViewport_toBytes_length, List.length_cons]
      omega
  rw [hl] at h2
  simp only [] at h2
  rw [h2]
  simp only [List.drop_drop, Prod.mk.injEq, Except.ok.injEq, RawBufferIterator.mk.injEq]
  refine ⟨by omega, ?_⟩
  have e : 16 * vs.length + 16 * vs.length = 32 * vs.length := by omega
  rw [e]

theorem flatMap_length_16 {α : Type} (enc : α → List Byte) (henc : ∀ x, (enc x).length = 16)
    (l : List α) : (l.flatMap enc).length = 16 * l.length := by
  induction l with
  | nil => rfl
  | cons x xs ih =>
    rw [List.flatMap_cons, List.length_append, ih, henc, List.length_cons]
    omega

theorem buildStaticScissors_ok (env : GLEnv) (self : GLGraphicsPipeline) (ss : List Scissor)
    (pre rest : List Byte) (hbuf : self.staticStateBuffer_ = some (pre ++ rest))
    (hlimit : static_cast_GLsizei ss.length ≤ (env.LLGL_MAX_NUM_VIEWPORTS_AND_SCISSORS : Int))
    (hlen : 16 * ss.length ≤ rest.length) :
    self.BuildStaticScissors env ss.length ss { byteBuffer_ := pre.length }
      = (.ok { byteBuffer_ := pre.length + 16 * ss.length },
          { self with
            numStaticScissors_ := static_cast_GLsizei ss.length
            staticStateBuffer_ := some (pre ++ ss.flatMap (fun sc => (scissorRecord sc).toBytes)
              ++ rest.drop (16 * ss.length)) }) := by
  unfold GLGraphicsPipeline.BuildStaticScissors
  simp only [forLoop, sizeof_GLScissor]
  rw [if_neg (by omega)]
  have h1 := staticLoop_ok ss (fun sc => (scissorRecord sc).toBytes)
    (fun sc dst buf => store_GLScissor buf dst (scissorRecord sc))
    (fun sc => glScissor_toBytes_length _)
    (fun sc pre rest h => store_GLScissor_at_end pre rest _ h)
    ss 0 { self with numStaticScissors_ := static_cast_GLsizei ss.length } pre rest
    (List.drop_zero ss) hbuf hlen
  simp only [] at h1
  rw [h1]

theorem static_cast_GLsizei_zero : static_cast_GLsizei 0 = 0 := by
  simp [static_cast_GLsizei, Int32.ofBits]

theorem buildStaticStateBuffer_ok (env : GLEnv) (self : GLGraphicsPipeline)
    (desc : GraphicsPipelineDescriptor)
    (hv0 : self.numStaticViewports_ = 0) (hs0 : self.numStaticScissors_ = 0)
    (hV : static_cast_GLsizei desc.viewports.length
      ≤ (env.LLGL_MAX_NUM_VIEWPORTS_AND_SCISSORS : Int))
    (hS : static_cast_GLsizei desc.scissors.length
      ≤ (env.LLGL_MAX_NUM_VIEWPORTS_AND_SCISSORS : Int))
    (hsize : desc.viewports.length * 32 + desc.scissors.length * 16 < 18446744073709551616) :
    self.BuildStaticStateBuffer env desc
      = (.ok (),
          { self with
            staticStateBuffer_ := some (packedStaticState desc.viewports desc.scissors)
            numStaticViewports_ := static_cast_GLsizei desc.viewports.length
            numStaticScissors_ := static_cast_GLsizei desc.scissors.length }) := by
  unfold GLGraphicsPipeline.BuildStaticStateBuffer
  have hB : staticStateBufferSize desc
      = 32 * desc.viewports.length + 16 * desc.scissors.length := by
    unfold staticStateBufferSize sizeof_GLViewport sizeof_GLDepthRange sizeof_GLScissor
    rw [Nat.mod_eq_of_lt (by omega)]
    omega
  simp only [hB, MakeUniqueArray]
  have hv := buildStaticViewports_ok env
    { self with staticStateBuffer_ := some (List.replicate
        (32 * desc.viewports.length + 16 * desc.scissors.length) 0) }
    desc.viewports [] (List.replicate (32 * desc.viewports.length + 16 * desc.scissors.length) 0)
    rfl hV (by rw [List.length_replicate]; omega)
  simp only [List.length_nil, List.nil_append, Nat.zero_add] at hv
  have hvl : (desc.viewports.flatMap (fun v => (viewportRecord v).toBytes) ++
      desc.viewports.flatMap (fun v => (depthRangeRecord v).toBytes)).length
      = 32 * desc.viewports.length := by
    rw [List.length_append, flatMap_length_16 _ (fun v => glViewport_toBytes_length _),
      flatMap_length_16 _ (fun v => glDepthRange_toBytes_length _)]
    omega
  by_cases hve : desc.viewports = []
  · by_cases hse : desc.scissors = []
    · simp [hve, hse, packedStaticState, hv0, hs0, static_cast_GLsizei_zero]
    · have hs := buildStaticScissors_ok env
        { self with staticStateBuffer_ := some (List.replicate
            (32 * desc.viewports.length + 16 * desc.scissors.length) 0) }
        desc.scissors []
        (List.replicate (32 * desc.viewports.length + 16 * desc.scissors.length) 0)
        rfl hS (by rw [List.length_replicate]; omega)
      simp only [List.length_nil, List.nil_append, Nat.zero_add] at hs
      have hie : desc.scissors.isEmpty = false := by
        cases hd : desc.scissors with
        | nil => exact absurd hd hse
        | cons a b => rfl
      simp only [hve, List.isEmpty_nil, Bool.not_true, Bool.false_eq_true, if_false, hie,
        Bool.not_false, if_true]
      simp only [hve] at hs
      rw [hs]
      simp [hve, packedStaticState, hv0, static_cast_GLsizei_zero]
  · have hie : desc.viewports.isEmpty = false := by
      cases hd : desc.viewports with
      | nil => exact absurd hd hve
      | cons a b => rfl
    simp only [hie, Bool.not_false, if_true]
    rw [hv]
    simp only []
    by_cases hse : desc.scissors = []
    · simp [hse, packedStaticState, hs0, static_cast_GLsizei_zero]
    · have hie2 : desc.scissors.isEmpty = false := by
        cases hd : desc.scissors with
        | nil => exact absurd hd hse
        | cons a b => rfl
      have hs := buildStaticScissors_ok env
        { self with
          staticStateBuffer_ := some
            (desc.viewports.flatMap (fun v => (viewportRecord v).toBytes) ++
              desc.viewports.flatMap (fun v => (depthRangeRecord v).toBytes) ++
              List.drop (32 * desc.viewports.length) (List.replicate
                (32 * desc.viewports.length + 16 * desc.scissors.length) 0))
          numStaticViewports_ := static_cast_GLsizei desc.viewports.length }
        desc.scissors
        (desc.viewports.flatMap (fun v => (viewportRecord v).toBytes) ++
              desc.viewports.flatMap (fun v => (depthRangeRecord v).toBytes))
        (List.drop (32 * desc.viewports.length) (List.replicate
                (32 * desc.viewports.length + 16 * desc.scissors.length) 0))
        rfl hS (by rw [List.length_drop, List.length_replicate]; omega)
      rw [hvl] at hs
      simp only [hie2, Bool.not_false, if_true]
      rw [hs]
      simp [packedStaticState]

theorem loadBytes_middle (a b c : List Byte) (n k : Nat) (hn : a.length = n)
    (hk : b.length = k) : loadBytes (a ++ b ++ c) n k = .ok b := by
  subst hn hk
  unfold loadBytes
  rw [if_pos (by simp only [List.length_append]; omega)]
  rw [List.append_assoc, List.drop_left, List.take_left]

theorem toSizeT_natCast (n : Nat) (h : n < 2147483648) : toSizeT (n : Int) = n := by
  unfold toSizeT
  omega

theorem static_cast_GLsizei_of_lt (n : Nat) (h : n < 2147483648) :
    static_cast_GLsizei n = n := by
  unfold static_cast_GLsizei Int32.ofBits
  simp only []
  split <;> omega

theorem flatMap_map_toBytes {α β : Type} (f : α → β) (enc : β → List Byte) (l : List α) :
    l.flatMap (fun x => enc (f x)) = (l.map f).flatMap enc := by
  induction l with
  | nil => rfl
  | cons x xs ih => simp [List.flatMap_cons, ih]

theorem setStaticViewports_ok (env : GLEnv) (p : GLGraphicsPipeline) (m : GLStateManager)
    (vs : List Viewport) (tail : List Byte)
    (hnv : p.numStaticViewports_ = vs.length)
    (hV : vs.length ≤ env.LLGL_MAX_NUM_VIEWPORTS_AND_SCISSORS) :
    p.SetStaticViewports env
        (vs.flatMap (fun v => (viewportRecord v).toBytes) ++
          vs.flatMap (fun v => (depthRangeRecord v).toBytes) ++ tail)
        m { byteBuffer_ := 0 }
      = .ok ({ calls := m.calls ++
                [GLCommand.SetViewportArray 0 vs.length (vs.map viewportRecord),
                 GLCommand.SetDepthRangeArray 0 vs.length (vs.map (depthRangeRecord))] },
             { byteBuffer_ := 32 * vs.length }) := by
  have hL := env.limit_is_int
  have hA : (vs.flatMap (fun v => (viewportRecord v).toBytes)).length = 16 * vs.length :=
    flatMap_length_16 _ (fun v => glViewport_toBytes_length _) vs
  have hB : (vs.flatMap (fun v => (depthRangeRecord v).toBytes)).length = 16 * vs.length :=
    flatMap_length_16 _ (fun v => glDepthRange_toBytes_length _) vs
  have hdv : decodeRecords GLViewport.ofBytes 16 vs.length
      (vs.flatMap (fun v => (viewportRecord v).toBytes)) = vs.map viewportRecord := by
    have := decodeRecords_flatMap GLViewport.ofBytes GLViewport.toBytes 16
      glViewport_toBytes_length glViewport_ofBytes_toBytes (vs.map viewportRecord) []
    rw [List.length_map, List.append_nil, ← flatMap_map_toBytes] at this
    exact this
  have hdd : decodeRecords GLDepthRange.ofBytes 16 vs.length
      (vs.flatMap (fun v => (depthRangeRecord v).toBytes))
      = vs.map (depthRangeRecord) := by
    have := decodeRecords_flatMap GLDepthRange.ofBytes GLDepthRange.toBytes 16
      glDepthRange_toBytes_length glDepthRange_ofBytes_toBytes (vs.map (depthRangeRecord)) []
    rw [List.length_map, List.append_nil, ← flatMap_map_toBytes] at this
    exact this
  have hcount : toSizeT (vs.length : Int) = vs.length := toSizeT_natCast _ (by omega)
  have hbytes : vs.length * 16 % 18446744073709551616 = 16 * vs.length := by omega
  have l1 : loadBytes (vs.flatMap (fun v => (viewportRecord v).toBytes) ++
      vs.flatMap (fun v => (depthRangeRecord v).toBytes) ++ tail) 0 (16 * vs.length)
      = .ok (vs.flatMap (fun v => (viewportRecord v).toBytes)) := by
    have := loadBytes_middle [] (vs.flatMap (fun v => (viewportRecord v).toBytes))
      (vs.flatMap (fun v => (depthRangeRecord v).toBytes) ++ tail) 0 (16 * vs.length) rfl hA
    simpa [List.append_assoc] using this
  have l2 : loadBytes (vs.flatMap (fun v => (viewportRecord v).toBytes) ++
      vs.flatMap (fun v => (depthRangeRecord v).toBytes) ++ tail) (16 * vs.length)
      (vs.length * 16)
      = .ok (vs.flatMap (fun v => (depthRangeRecord v).toBytes)) :=
    loadBytes_middle _ _ _ _ _ hA (by rw [hB]; omega)
  unfold GLGraphicsPipeline.SetStaticViewports
  simp only [hnv, hcount, RawBufferIterator.Next, sizeof_GLViewport, sizeof_GLDepthRange, hbytes,
    Nat.zero_add, l1, bind, Except.bind, Int.toNat_ofNat, l2, hdv, hdd, pure, Except.pure,
    GLStateManager.call]
  rw [if_neg (by omega)]
  simp only [Except.ok.injEq, Prod.mk.injEq, RawBufferIterator.mk.injEq, List.append_assoc,
    List.singleton_append, true_and]
  omega

theorem setStaticScissors_ok (env : GLEnv) (p : GLGraphicsPipeline) (m : GLStateManager)
    (ss : List Scissor) (pre : List Byte)
    (hns : p.numStaticScissors_ = ss.length)
    (hS : ss.length ≤ env.LLGL_MAX_NUM_VIEWPORTS_AND_SCISSORS) :
    p.SetStaticScissors env (pre ++ ss.flatMap (fun sc => (scissorRecord sc).toBytes))
        m { byteBuffer_ := pre.length }
      = .ok ({ calls := m.calls ++
                [GLCommand.SetScissorArray 0 ss.length (ss.map scissorRecord)] },
             { byteBuffer_ := pre.length + 16 * ss.length }) := by
  have hL := env.limit_is_int
  have hC : (ss.flatMap (fun sc => (scissorRecord sc).toBytes)).length = 16 * ss.length :=
    flatMap_length_16 _ (fun v => glScissor_toBytes_length _) ss
  have hds : decodeRecords GLScissor.ofBytes 16 ss.length
      (ss.flatMap (fun sc => (scissorRecord sc).toBytes)) = ss.map scissorRecord := by
    have := decodeRecords_flatMap GLScissor.ofBytes GLScissor.toBytes 16
      glScissor_toBytes_length glScissor_ofBytes_toBytes (ss.map scissorRecord) []
    rw [List.length_map, List.append_nil, ← flatMap_map_toBytes] at this
    exact this
  have hcount : toSizeT (ss.length : Int) = ss.length := toSizeT_natCast _ (by omega)
  have hbytes : ss.length * 16 % 18446744073709551616 = 16 * ss.length := by omega
  have l1 : loadBytes (pre ++ ss.flatMap (fun sc => (scissorRecord sc).toBytes)) pre.length
      (16 * ss.length) = .ok (ss.flatMap (fun sc => (scissorRecord sc).toBytes)) := by
    have := loadBytes_middle pre (ss.flatMap (fun sc => (scissorRecord sc).toBytes)) []
      pre.length (16 * ss.length) rfl hC
    simpa using this
  unfold GLGraphicsPipeline.SetStaticScissors
  simp only [hns, hcount, RawBufferIterator.Next, sizeof_GLScissor, hbytes,
    l1, bind, Except.bind, Int.toNat_ofNat, hds, pure, Except.pure,
    GLStateManager.call]
  rw [if_neg (by omega)]

theorem bindStaticState_ok (env : GLEnv) (p : GLGraphicsPipeline) (m : GLStateManager)
    (vs : List Viewport) (ss : List Scissor)
    (hbuf : p.staticStateBuffer_ = some (packedStaticState vs ss))
    (hnv : p.numStaticViewports_ = vs.length) (hns : p.numStaticScissors_ = ss.length)
    (hV : vs.length ≤ env.LLGL_MAX_NUM_VIEWPORTS_AND_SCISSORS)
    (hS : ss.length ≤ env.LLGL_MAX_NUM_VIEWPORTS_AND_SCISSORS) :
    p.BindStaticState env m = .ok { calls := m.calls ++ staticArrayCalls vs ss } := by
  have hA : (vs.flatMap (fun v => (viewportRecord v).toBytes)).length = 16 * vs.length :=
    flatMap_length_16 _ (fun v => glViewport_toBytes_length _) vs
  have hB : (vs.flatMap (fun v => (depthRangeRecord v).toBytes)).length = 16 * vs.length :=
    flatMap_length_16 _ (fun v => glDepthRange_toBytes_length _) vs
  unfold GLGraphicsPipeline.BindStaticState
  rw [hbuf]
  simp only []
  by_cases hve : vs = []
  · subst hve
    have h0 : ¬ p.numStaticViewports_ > 0 := by rw [hnv]; simp
    rw [if_neg h0]
    simp only []
    by_cases hse : ss = []
    · subst hse
      have h1 : ¬ p.numStaticScissors_ > 0 := by rw [hns]; simp
      rw [if_neg h1]
      simp [staticArrayCalls]
    · have h1 : p.numStaticScissors_ > 0 := by
        rw [hns]
        have := List.length_pos.mpr hse
        omega
      rw [if_pos h1]
      have hs := setStaticScissors_ok env p m ss [] hns hS
      simp only [List.nil_append, List.length_nil] at hs
      simp only [packedStaticState, List.flatMap_nil, List.nil_append, hs]
      simp [staticArrayCalls, hse]
  · have h0 : p.numStaticViewports_ > 0 := by
      rw [hnv]
      have := List.length_pos.mpr hve
      omega
    rw [if_pos h0]
    have hv := setStaticViewports_ok env p m vs
      (ss.flatMap (fun sc => (scissorRecord sc).toBytes)) hnv hV
    unfold packedStaticState
    rw [hv]
    simp only []
    by_cases hse : ss = []
    · subst hse
      have h1 : ¬ p.numStaticScissors_ > 0 := by rw [hns]; simp
      rw [if_neg h1]
      simp [staticArrayCalls, hve]
    · have h1 : p.numStaticScissors_ > 0 := by
        rw [hns]
        have := List.length_pos.mpr hse
        omega
      rw [if_pos h1]
      have hs := setStaticScissors_ok env p
        { calls := m.calls ++
            [GLCommand.SetViewportArray 0 vs.length (vs.map viewportRecord),
             GLCommand.SetDepthRangeArray 0 vs.length (vs.map (depthRangeRecord))] }
        ss (vs.flatMap (fun v => (viewportRecord v).toBytes) ++
          vs.flatMap (fun v => (depthRangeRecord v).toBytes)) hns hS
      have hl : (vs.flatMap (fun v => (viewportRecord v).toBytes) ++
          vs.flatMap (fun v => (depthRangeRecord v).toBytes)).length = 32 * vs.length := by
        rw [List.length_append, hA, hB]
        omega
      rw [hl] at hs
      rw [hs]
      simp [staticArrayCalls, hve, hse]

/-- When the constructor gets as far as line 174, it comes down to
`BuildStaticStateBuffer`. -/
theorem ctor_eq_build (env : GLEnv) (desc : GraphicsPipelineDescriptor) (limits : RenderingLimits)
    (sp : GLShaderProgram) (hsp : desc.shaderProgram = some sp)
    (hr : GLGraphicsPipeline.reachesStatic env desc limits) :
    GLGraphicsPipeline.ctor env desc limits
      = if desc.viewports = [] ∧ desc.scissors = [] then
          (.ok (), GLGraphicsPipeline.beforeStatic env desc limits)
        else
          (GLGraphicsPipeline.beforeStatic env desc limits).BuildStaticStateBuffer env desc := by
  rw [ctor_of_reaches env desc limits (by rw [hsp]; rfl) hr]
  by_cases hve : desc.viewports = []
  · by_cases hse : desc.scissors = []
    · simp [hve, hse]
    · have : desc.scissors.isEmpty = false := by
        cases hd : desc.scissors with
        | nil => exact absurd hd hse
        | cons a b => rfl
      simp [hve, hse, this]
  · have : desc.viewports.isEmpty = false := by
      cases hd : desc.viewports with
      | nil => exact absurd hd hve
      | cons a b => rfl
    simp [hve, this]

theorem filter_call (m : GLStateManager) (c : GLCommand) (h : c.isStaticArray = false) :
    (m.call c).calls.filter GLCommand.isStaticArray
      = m.calls.filter GLCommand.isStaticArray := by
  simp [GLStateManager.call, h]

/-- The first part of `Bind` issues no viewport, depth-range or scissor array. -/
theorem bindRenderState_filter (self : GLGraphicsPipeline) (sp : GLShaderProgram)
    (m : GLStateManager) :
    (self.BindRenderState sp m).calls.filter GLCommand.isStaticArray
      = m.calls.filter GLCommand.isStaticArray := by
  unfold GLGraphicsPipeline.BindRenderState
  simp only [apply_ite GLStateManager.calls, apply_ite (List.filter GLCommand.isStaticArray),
    filter_call, GLCommand.isStaticArray, ite_self]

theorem staticArrayCalls_filter (vs : List Viewport) (ss : List Scissor) :
    (staticArrayCalls vs ss).filter GLCommand.isStaticArray = staticArrayCalls vs ss := by
  unfold staticArrayCalls
  by_cases hve : vs = [] <;> by_cases hse : ss = [] <;>
    simp [hve, hse, GLCommand.isStaticArray]

/-- What the constructor builds when the shader program is present, the patch size is
within its limit, both counts pass the limit check as `GLsizei`, and the buffer
size does not wrap. -/
theorem ctor_ok_static (env : GLEnv) (desc : GraphicsPipelineDescriptor)
    (limits : RenderingLimits) (sp : GLShaderProgram) (hsp : desc.shaderProgram = some sp)
    (hr : GLGraphicsPipeline.reachesStatic env desc limits)
    (hV : static_cast_GLsizei desc.viewports.length
      ≤ (env.LLGL_MAX_NUM_VIEWPORTS_AND_SCISSORS : Int))
    (hS : static_cast_GLsizei desc.scissors.length
      ≤ (env.LLGL_MAX_NUM_VIEWPORTS_AND_SCISSORS : Int))
    (hsize : desc.viewports.length * 32 + desc.scissors.length * 16 < 18446744073709551616) :
    (GLGraphicsPipeline.ctor env desc limits).1 = .ok () ∧
    (GLGraphicsPipeline.ctor env desc limits).2.shaderProgram_ = some sp ∧
    (GLGraphicsPipeline.ctor env desc limits).2.staticStateBuffer_
      = (if desc.viewports = [] ∧ desc.scissors = [] then none
          else some (packedStaticState desc.viewports desc.scissors)) ∧
    (GLGraphicsPipeline.ctor env desc limits).2.numStaticViewports_
      = static_cast_GLsizei desc.viewports.length ∧
    (GLGraphicsPipeline.ctor env desc limits).2.numStaticScissors_
      = static_cast_GLsizei desc.scissors.length := by
  obtain ⟨m1, m2, m3, m4⟩ := beforeStatic_members env desc limits hr
  rw [ctor_eq_build env desc limits sp hsp hr]
  by_cases hboth : desc.viewports = [] ∧ desc.scissors = []
  · rw [if_pos hboth, if_pos hboth]
    refine ⟨rfl, m1.trans hsp, m2, ?_, ?_⟩
    · rw [hboth.1]
      exact m3.trans static_cast_GLsizei_zero.symm
    · rw [hboth.2]
      exact m4.trans static_cast_GLsizei_zero.symm
  · rw [if_neg hboth, if_neg hboth,
      buildStaticStateBuffer_ok env _ desc m3 m4 hV hS hsize]
    exact ⟨rfl, m1.trans hsp, rfl, rfl, rfl⟩

/-- C1 (amended): for a descriptor with a shader program, a patch size within
`maxPatchVertices`, enumeration values that the tables of `GLTypes::Map` hold, a
polygon mode that is one of its three enumerators, and at most
`LLGL_MAX_NUM_VIEWPORTS_AND_SCISSORS` viewports and scissors, construction
succeeds, and `Bind` ends with the static arrays: for a non-empty viewport list
`SetViewportArray` with the `x`, `y`, `width`, `height` of every descriptor
viewport and `SetDepthRangeArray` with its `minDepth`, `maxDepth` converted to
`GLdouble`, entry for entry and in order; for a non-empty scissor list
`SetScissorArray` with the `x`, `y`, `width`, `height` of every descriptor
scissor; nothing for an empty list; `Bind` issues no other array call; the
conversion to `GLdouble` keeps the number a `float` stands for. -/
theorem bind_replays_static_state (env : GLEnv) (desc : GraphicsPipelineDescriptor)
    (limits : RenderingLimits) (sp : GLShaderProgram) (stateMngr : GLStateManager)
    (hsp : desc.shaderProgram = some sp)
    (hpatch : GetPrimitiveTopologyPatchSize desc.primitiveTopology ≤ limits.maxPatchVertices)
    (hmap : desc.isMappable env = true)
    (hV : desc.viewports.length ≤ env.LLGL_MAX_NUM_VIEWPORTS_AND_SCISSORS)
    (hS : desc.scissors.length ≤ env.LLGL_MAX_NUM_VIEWPORTS_AND_SCISSORS) :
    (GLGraphicsPipeline.ctor env desc limits).1 = .ok () ∧
    ∃ stateMngr1 : GLStateManager,
      (GLGraphicsPipeline.ctor env desc limits).2.Bind env stateMngr = .ok stateMngr1 ∧
      stateMngr1.calls
        = ((GLGraphicsPipeline.ctor env desc limits).2.BindRenderState sp stateMngr).calls ++
          ((if desc.viewports = [] then []
            else
              [GLCommand.SetViewportArray 0 desc.viewports.length
                (desc.viewports.map fun v =>
                  { x := v.x, y := v.y, width := v.width, height := v.height }),
               GLCommand.SetDepthRangeArray 0 desc.viewports.length
                (desc.viewports.map fun v =>
                  { minDepth := static_cast_GLdouble v.minDepth
                    maxDepth := static_cast_GLdouble v.maxDepth })]) ++
           (if desc.scissors = [] then []
            else
              [GLCommand.SetScissorArray 0 desc.scissors.length
                (desc.scissors.map fun sc =>
                  { x := sc.x, y := sc.y, width := sc.width, height := sc.height })])) ∧
      stateMngr1.calls.filter GLCommand.isStaticArray
        = stateMngr.calls.filter GLCommand.isStaticArray ++
          ((if desc.viewports = [] then []
            else
              [GLCommand.SetViewportArray 0 desc.viewports.length
                (desc.viewports.map fun v =>
                  { x := v.x, y := v.y, width := v.width, height := v.height }),
               GLCommand.SetDepthRangeArray 0 desc.viewports.length
                (desc.viewports.map fun v =>
                  { minDepth := static_cast_GLdouble v.minDepth
                    maxDepth := static_cast_GLdouble v.maxDepth })]) ++
           (if desc.scissors = [] then []
            else
              [GLCommand.SetScissorArray 0 desc.scissors.length
                (desc.scissors.map fun sc =>
                  { x := sc.x, y := sc.y, width := sc.width, height := sc.height })])) ∧
      ∀ f : CFloat, (static_cast_GLdouble f).value = f.value := by
  have hL := env.limit_is_int
  have hcv := static_cast_GLsizei_of_lt desc.viewports.length (by omega)
  have hcs := static_cast_GLsizei_of_lt desc.scissors.length (by omega)
  have hr := reachesStatic_of_mappable env desc limits hmap hpatch
  obtain ⟨c1, c2, c3, c4, c5⟩ := ctor_ok_static env desc limits sp hsp hr
    (by rw [hcv]; omega) (by rw [hcs]; omega) (by omega)
  rw [hcv] at c4
  rw [hcs] at c5
  refine ⟨c1, ?_⟩
  have hbind : (GLGraphicsPipeline.ctor env desc limits).2.Bind env stateMngr
      = .ok { calls :=
          ((GLGraphicsPipeline.ctor env desc limits).2.BindRenderState sp stateMngr).calls ++
            staticArrayCalls desc.viewports desc.scissors } := by
    unfold GLGraphicsPipeline.Bind
    rw [c2]
    simp only []
    by_cases hboth : desc.viewports = [] ∧ desc.scissors = []
    · rw [if_pos hboth] at c3
      unfold GLGraphicsPipeline.BindStaticState
      rw [c3]
      simp [staticArrayCalls, hboth.1, hboth.2]
    · rw [if_neg hboth] at c3
      exact bindStaticState_ok env _ _ desc.viewports desc.scissors c3 c4 c5 hV hS
  have hfilter : ({ calls :=
        ((GLGraphicsPipeline.ctor env desc limits).2.BindRenderState sp stateMngr).calls ++
          staticArrayCalls desc.viewports desc.scissors } : GLStateManager).calls.filter
        GLCommand.isStaticArray
      = stateMngr.calls.filter GLCommand.isStaticArray ++
        staticArrayCalls desc.viewports desc.scissors := by
    simp only [List.filter_append, bindRenderState_filter, staticArrayCalls_filter]
  exact ⟨_, hbind, rfl, hfilter, static_cast_GLdouble_value⟩

/-- Witness for C1: the sample descriptor (one viewport of 640.0f x 480.0f with the
depth range 0.0f to 1.0f, one scissor); the depth range arrives as the `double`
values 0.0 and 1.0 (`0x3FF0000000000000`). -/
theorem bind_replays_static_state_witness :
    (GLGraphicsPipeline.ctor sampleGLEnv sampleDesc sampleLimits).1 = .ok () ∧
    ∃ stateMngr1 : GLStateManager,
      (GLGraphicsPipeline.ctor sampleGLEnv sampleDesc sampleLimits).2.Bind sampleGLEnv
        { calls := [] } = .ok stateMngr1 ∧
      stateMngr1.calls.filter GLCommand.isStaticArray
        = [GLCommand.SetViewportArray 0 1 [⟨0, 0, 1142947840, 1139802112⟩],
           GLCommand.SetDepthRangeArray 0 1 [⟨0, 4607182418800017408⟩],
           GLCommand.SetScissorArray 0 1
            [⟨⟨0, by decide⟩, ⟨-5, by decide⟩, ⟨640, by decide⟩, ⟨480, by decide⟩⟩]] :=
  match bind_replays_static_state sampleGLEnv sampleDesc sampleLimits ⟨7, true⟩ { calls := [] }
    rfl (by decide) (by decide) (by decide) (by decide) with
  | ⟨h1, m1, h2, _, h4, _⟩ => ⟨h1, m1, h2, h4.trans rfl⟩

/-- Counterexample to C1 as stated: the sample descriptor has a shader program, one
viewport and one scissor, yet with `maxPatchVertices = 2` its three-point patch
topology makes the constructor throw `std::runtime_error`. -/
theorem ctor_fails_on_patch_limit :
    sampleDesc.shaderProgram ≠ none ∧
    sampleDesc.viewports.length ≤ sampleGLEnv.LLGL_MAX_NUM_VIEWPORTS_AND_SCISSORS ∧
    sampleDesc.scissors.length ≤ sampleGLEnv.LLGL_MAX_NUM_VIEWPORTS_AND_SCISSORS ∧
    sampleDesc.viewports ≠ [] ∧
    GetPrimitiveTopologyPatchSize sampleDesc.primitiveTopology = 3 ∧
    succeeded (GLGraphicsPipeline.ctor sampleGLEnv sampleDesc { maxPatchVertices := 2 }).1
      = false ∧
    threwRuntimeError (GLGraphicsPipeline.ctor sampleGLEnv sampleDesc
      { maxPatchVertices := 2 }).1 = true := by
  refine ⟨by decide, by decide, by decide, by decide, by decide, by decide, by decide⟩

theorem isEmpty_eq_false_of_ne_nil {α : Type} (l : List α) (h : l ≠ []) : l.isEmpty = false := by
  cases l with
  | nil => exact absurd rfl h
  | cons a b => rfl

/-- C2 (amended): for a descriptor with a shader program, a patch size within its
limit, enumeration values that the tables of `GLTypes::Map` hold, a polygon mode
that is one of its three enumerators, and fewer than 2^31 viewports and
scissors, if the number of viewports or
the number of scissors exceeds `LLGL_MAX_NUM_VIEWPORTS_AND_SCISSORS` the
constructor throws `std::invalid_argument` ("too many viewports ..." when the
viewports are over the limit, "too many scissors ..." otherwise); the static
state buffer has been allocated, at its full size, before the check, and is
still owned by the object when the exception is raised. -/
theorem ctor_limit_exceeded (env : GLEnv) (desc : GraphicsPipelineDescriptor)
    (limits : RenderingLimits) (sp : GLShaderProgram) (hsp : desc.shaderProgram = some sp)
    (hpatch : GetPrimitiveTopologyPatchSize desc.primitiveTopology ≤ limits.maxPatchVertices)
    (hmap : desc.isMappable env = true)
    (hV31 : desc.viewports.length < 2147483648) (hS31 : desc.scissors.length < 2147483648)
    (hover : env.LLGL_MAX_NUM_VIEWPORTS_AND_SCISSORS < desc.viewports.length ∨
      env.LLGL_MAX_NUM_VIEWPORTS_AND_SCISSORS < desc.scissors.length) :
    (GLGraphicsPipeline.ctor env desc limits).1
      = .error (.invalid_argument
          (if env.LLGL_MAX_NUM_VIEWPORTS_AND_SCISSORS < desc.viewports.length then
            "too many viewports in graphics pipeline state (" ++
              toString (desc.viewports.length : Int) ++ " specified, but limit is " ++
              toString env.LLGL_MAX_NUM_VIEWPORTS_AND_SCISSORS ++ ")"
          else
            "too many scissors in graphics pipeline state (" ++
              toString (desc.scissors.length : Int) ++ " specified, but limit is " ++
              toString env.LLGL_MAX_NUM_VIEWPORTS_AND_SCISSORS ++ ")")) ∧
    (GLGraphicsPipeline.ctor env desc limits).2.staticStateBuffer_.map List.length
      = some (desc.viewports.length * 32 + desc.scissors.length * 16) := by
  have hcv := static_cast_GLsizei_of_lt desc.viewports.length hV31
  have hcs := static_cast_GLsizei_of_lt desc.scissors.length hS31
  have hr := reachesStatic_of_mappable env desc limits hmap hpatch
  obtain ⟨_, _, m3, m4⟩ := beforeStatic_members env desc limits hr
  have hB : staticStateBufferSize desc
      = 32 * desc.viewports.length + 16 * desc.scissors.length := by
    unfold staticStateBufferSize sizeof_GLViewport sizeof_GLDepthRange sizeof_GLScissor
    rw [Nat.mod_eq_of_lt (by omega)]
    omega
  have hboth : ¬ (desc.viewports = [] ∧ desc.scissors = []) := by
    rintro ⟨h1, h2⟩
    rw [h1, h2] at hover
    simp at hover
  rw [ctor_eq_build env desc limits sp hsp hr, if_neg hboth]
  unfold GLGraphicsPipeline.BuildStaticStateBuffer
  simp only [hB, MakeUniqueArray]
  by_cases hvo : env.LLGL_MAX_NUM_VIEWPORTS_AND_SCISSORS < desc.viewports.length
  · have hve : desc.viewports ≠ [] := by
      intro h
      rw [h] at hvo
      simp at hvo
    rw [if_pos hvo]
    simp only [isEmpty_eq_false_of_ne_nil _ hve, Bool.not_false, if_true]
    unfold GLGraphicsPipeline.BuildStaticViewports
    simp only [hcv]
    rw [if_pos (by omega)]
    simp only [Option.map_some', List.length_replicate, true_and]
    congr 1
    omega
  · rw [if_neg hvo]
    have hso : env.LLGL_MAX_NUM_VIEWPORTS_AND_SCISSORS < desc.scissors.length := by
      rcases hover with h | h
      · exact absurd h hvo
      · exact h
    have hse : desc.scissors ≠ [] := by
      intro h
      rw [h] at hso
      simp at hso
    have hscis : ∀ (self : GLGraphicsPipeline) (it : RawBufferIterator),
        self.BuildStaticScissors env desc.scissors.length desc.scissors it
          = (.error (.invalid_argument
              ("too many scissors in graphics pipeline state (" ++
                toString (desc.scissors.length : Int) ++ " specified, but limit is " ++
                toString env.LLGL_MAX_NUM_VIEWPORTS_AND_SCISSORS ++ ")")),
              { self with numStaticScissors_ := (desc.scissors.length : Int) }) := by
      intro self it
      unfold GLGraphicsPipeline.BuildStaticScissors
      simp only [hcs]
      rw [if_pos (by omega)]
    by_cases hve : desc.viewports = []
    · simp only [hve, List.isEmpty_nil, Bool.not_true, Bool.false_eq_true, if_false,
        isEmpty_eq_false_of_ne_nil _ hse, Bool.not_false, if_true, hscis]
      simp only [Option.map_some', List.length_replicate, List.length_nil, true_and]
      congr 1
      omega
    · have hv := buildStaticViewports_ok env
        { GLGraphicsPipeline.beforeStatic env desc limits with
          staticStateBuffer_ := some (List.replicate
            (32 * desc.viewports.length + 16 * desc.scissors.length) 0) }
        desc.viewports []
        (List.replicate (32 * desc.viewports.length + 16 * desc.scissors.length) 0)
        rfl (by rw [hcv]; omega) (by rw [List.length_replicate]; omega)
      simp only [List.length_nil, List.nil_append, Nat.zero_add] at hv
      simp only [isEmpty_eq_false_of_ne_nil _ hve, Bool.not_false, if_true, hv,
        isEmpty_eq_false_of_ne_nil _ hse, hscis]
      simp only [Option.map_some', List.length_append, List.length_drop, List.length_replicate,
        flatMap_length_16 _ (fun v => glViewport_toBytes_length (viewportRecord v)),
        flatMap_length_16 _ (fun v => glDepthRange_toBytes_length (depthRangeRecord v)),
        true_and]
      congr 1
      omega

/-- Witness for C2 (amended): seventeen viewports against the limit 16. -/
theorem ctor_limit_exceeded_witness :
    (GLGraphicsPipeline.ctor sampleGLEnv overLimitDesc sampleLimits).1
      = .error (.invalid_argument
          "too many viewports in graphics pipeline state (17 specified, but limit is 16)") ∧
    (GLGraphicsPipeline.ctor sampleGLEnv overLimitDesc sampleLimits).2.staticStateBuffer_.map
      List.length = some 560 :=
  ⟨(ctor_limit_exceeded sampleGLEnv overLimitDesc sampleLimits ⟨7, true⟩ rfl (by decide)
      (by decide) (by decide) (by decide) (Or.inl (by decide))).1.trans rfl,
   (ctor_limit_exceeded sampleGLEnv overLimitDesc sampleLimits ⟨7, true⟩ rfl (by decide)
      (by decide) (by decide) (by decide) (Or.inl (by decide))).2.trans (by decide)⟩

/-- Counterexample to C2 as stated: with seventeen viewports against the limit 16
the constructor throws `std::invalid_argument`, and at that moment the object
owns a static state buffer: the allocation came before the limit check. -/
theorem ctor_allocates_before_limit_check :
    sampleGLEnv.LLGL_MAX_NUM_VIEWPORTS_AND_SCISSORS < overLimitDesc.viewports.length ∧
    succeeded (GLGraphicsPipeline.ctor sampleGLEnv overLimitDesc sampleLimits).1 = false ∧
    threwInvalidArgument (GLGraphicsPipeline.ctor sampleGLEnv overLimitDesc sampleLimits).1
      = true ∧
    (GLGraphicsPipeline.ctor sampleGLEnv overLimitDesc sampleLimits).2.staticStateBuffer_
      ≠ none := by
  refine ⟨by decide, by decide, by decide, by decide⟩

theorem hugeDesc_viewports_length : hugeDesc.viewports.length = 4294967296 :=
  List.length_replicate _ _

/-- C3 (the code at the failing input): a descriptor with 2^32 viewports is far over
the limit 16, yet the constructor succeeds and stores the count 0: the limit
check at lines 304-306 compares the count after its truncation to `GLsizei`. -/
theorem ctor_truncates_viewport_count :
    sampleGLEnv.LLGL_MAX_NUM_VIEWPORTS_AND_SCISSORS < hugeDesc.viewports.length ∧
    (GLGraphicsPipeline.ctor sampleGLEnv hugeDesc sampleLimits).1 = .ok () ∧
    (GLGraphicsPipeline.ctor sampleGLEnv hugeDesc sampleLimits).2.numStaticViewports_ = 0 := by
  have hlen := hugeDesc_viewports_length
  have hs : hugeDesc.scissors.length = 0 := rfl
  have hcast : static_cast_GLsizei hugeDesc.viewports.length = 0 := by
    rw [hlen]
    decide
  have hcast0 : static_cast_GLsizei hugeDesc.scissors.length = 0 := by
    rw [hs]
    decide
  obtain ⟨c1, _, _, c4, _⟩ := ctor_ok_static sampleGLEnv hugeDesc sampleLimits ⟨7, true⟩ rfl
    (reachesStatic_of_mappable sampleGLEnv hugeDesc sampleLimits (by decide) (by decide))
    (by rw [hcast]; decide) (by rw [hcast0]; decide) (by rw [hlen, hs]; decide)
  refine ⟨?_, c1, c4.trans hcast⟩
  rw [hlen]
  decide

/-! ### The patch limit message, the resolve target and the multi-sample switch -/

/-- C11: at the failing input (the sample descriptor, whose topology has three
control points per patch, with `maxPatchVertices = 2`) the constructor throws
`std::runtime_error` with a message that names the limit 2 but prints 0, not
the requested patch size 3; a 32-point topology gives the same message.  The
number printed is the member `patchVertices_`, which line 125 assigns only when
the check passes. -/
theorem ctor_patch_limit_message :
    GetPrimitiveTopologyPatchSize sampleDesc.primitiveTopology = 3 ∧
    (GLGraphicsPipeline.ctor sampleGLEnv sampleDesc { maxPatchVertices := 2 }).1
      = .error (.runtime_error
          "renderer does not support 0 control points for patches (limit is 2)") ∧
    (GLGraphicsPipeline.ctor sampleGLEnv
        { sampleDesc with primitiveTopology := PrimitiveTopology.Patches 31 }
        { maxPatchVertices := 2 }).1
      = .error (.runtime_error
          "renderer does not support 0 control points for patches (limit is 2)") ∧
    ∀ self : GLGraphicsPipeline,
      (self.ctorInputAssembler sampleGLEnv sampleDesc { maxPatchVertices := 2 }).1
        = .error (.runtime_error
            ("renderer does not support " ++ toString self.patchVertices_ ++
              " control points for patches (limit is " ++ "2" ++ ")")) :=
  ⟨rfl, rfl, rfl, fun _ => rfl⟩

/-- C12: at the failing input (mip level 1 of layer 2 of a texture with four mip
levels, attached to a 4x multisample render target) the constructor returns and
the recorded pending resolve has destination subresource 3 = 1 + 2 × 1, where
the subresource of that mip level and layer in the original texture is
9 = 1 + 2 × 4; `ResolveSubresources` then resolves into subresource 3. -/
theorem resolve_target_ignores_mip_count :
    (D3D11RenderTarget.ctor sampleD3D11Env mippedArrayTargetDesc).1 = .ok () ∧
    (D3D11RenderTarget.ctor sampleD3D11Env mippedArrayTargetDesc).2.multiSampledAttachments_.map
      (fun e => e.targetSubresourceIndex) = [3] ∧
    D3D11CalcSubresource 1 2 mippedArrayTexture.GetDesc.MipLevels = 9 ∧
    ((D3D11RenderTarget.ctor sampleD3D11Env mippedArrayTargetDesc).2.ResolveSubresources []).1
      = [ContextCall.ResolveSubresource (some (ComObject.external 2)) 3
          (some (ComObject.created 0)) 0 28] :=
  ⟨rfl, rfl, rfl, rfl⟩

theorem attachTexture_unsupported (env : D3D11Env) (self : D3D11RenderTarget)
    (texture : D3D11Texture) (a : AttachmentDescriptor) (hms : self.multiSamples_ > 1)
    (hty : texture.GetType = TextureType.Texture1D ∨ texture.GetType = TextureType.Texture3D ∨
      texture.GetType = TextureType.Texture1DArray) :
    self.AttachTexture env texture a
      = (match env.ValidateMipResolution self texture a.mipLevel with
          | .error e => .error e
          | .ok () => .error (.invalid_argument
              "failed to attach D3D11 texture to multi-sample render-target"), self) := by
  unfold D3D11RenderTarget.AttachTexture
  cases hv : env.ValidateMipResolution self texture a.mipLevel with
  | error e => rfl
  | ok u =>
    cases u
    rcases hty with h | h | h <;>
      simp [D3D11RenderTarget.HasMultiSampling, hms, h, IsMultiSampleTexture, intermediateViewDesc]

theorem createAndAppendRTV_deviceCalls (env : D3D11Env) (self : D3D11RenderTarget)
    (resource : Option ComObject) (rtvDesc : D3D11_RENDER_TARGET_VIEW_DESC) :
    (self.CreateAndAppendRTV env resource rtvDesc).2.deviceCalls
      = self.deviceCalls ++ [DeviceCall.CreateRenderTargetView resource rtvDesc
          (env.CreateRenderTargetView self.deviceCalls resource rtvDesc)] := by
  unfold D3D11RenderTarget.CreateAndAppendRTV D3D11RenderTarget.deviceCreateRenderTargetView
  simp only []
  split <;> rfl

theorem attachTexture_intermediate (env : D3D11Env) (self : D3D11RenderTarget)
    (texture : D3D11Texture) (a : AttachmentDescriptor) (view : D3D11_RENDER_TARGET_VIEW_DESC)
    (hms : self.multiSamples_ > 1)
    (hnms : IsMultiSampleTexture texture.GetType = false)
    (hview : intermediateViewDesc texture.GetType a
      { Format := texture.GetFormat, View := D3D11_RTV_DIMENSION.UNKNOWN } = .ok view)
    (hv : env.ValidateMipResolution self texture a.mipLevel = .ok ())
    (hc : ∀ d : D3D11_TEXTURE2D_DESC, FAILED (env.CreateTexture2D self.deviceCalls d) = false) :
    ∃ (texDesc : D3D11_TEXTURE2D_DESC) (hr1 hr2 : HRESULT),
      (self.AttachTexture env texture a).2.deviceCalls
        = self.deviceCalls ++
          [DeviceCall.CreateTexture2D texDesc hr1,
           DeviceCall.CreateRenderTargetView (some (ComObject.created self.deviceCalls.length))
             view hr2] ∧
      texDesc.SampleDesc.Count = self.multiSamples_ := by
  unfold D3D11RenderTarget.AttachTexture
  simp only [hv, D3D11RenderTarget.HasMultiSampling, hms, hnms, hview, decide_True,
    Bool.not_false, Bool.and_self, if_true, D3D11RenderTarget.deviceCreateTexture2D, hc,
    DXThrowIfFailed, Bool.false_eq_true, if_false]
  rw [createAndAppendRTV_deviceCalls]
  exact ⟨_, _, _, List.append_assoc _ _ _, rfl⟩

/-- C13: on a render target with more than one sample, `AttachTexture` with a
`Texture1D`, `Texture3D` or `Texture1DArray` texture fails and leaves the render
target as it was: no device call is made (no surface, no view) and no pending
resolve is recorded; once `ValidateMipResolution` has passed, the failure is
`std::invalid_argument`.  For `Texture2D` the intermediate view description has
the dimension `TEXTURE2DMS`; for `TextureCube`, `Texture2DArray` and
`TextureCubeArray` it has `TEXTURE2DMSARRAY` with first slice `arrayLayer` and
size 1; when validation passes and the device creates the surface, that
description is the one passed to `CreateRenderTargetView`, for the surface just
created. -/
theorem attachTexture_rejects_unsupported_type (env : D3D11Env) (self : D3D11RenderTarget)
    (texture : D3D11Texture) (a : AttachmentDescriptor) (hms : self.multiSamples_ > 1) :
    ((texture.GetType = TextureType.Texture1D ∨ texture.GetType = TextureType.Texture3D ∨
        texture.GetType = TextureType.Texture1DArray) →
      (self.AttachTexture env texture a).2 = self ∧
      succeeded (self.AttachTexture env texture a).1 = false ∧
      (env.ValidateMipResolution self texture a.mipLevel = .ok () →
        (self.AttachTexture env texture a).1 = .error (.invalid_argument
          "failed to attach D3D11 texture to multi-sample render-target"))) ∧
    ((texture.GetType = TextureType.Texture2D ∨ texture.GetType = TextureType.TextureCube ∨
        texture.GetType = TextureType.Texture2DArray ∨
        texture.GetType = TextureType.TextureCubeArray) →
      env.ValidateMipResolution self texture a.mipLevel = .ok () →
      (∀ d : D3D11_TEXTURE2D_DESC, FAILED (env.CreateTexture2D self.deviceCalls d) = false) →
      ∃ (texDesc : D3D11_TEXTURE2D_DESC) (hr1 hr2 : HRESULT),
        (self.AttachTexture env texture a).2.deviceCalls
          = self.deviceCalls ++
            [DeviceCall.CreateTexture2D texDesc hr1,
             DeviceCall.CreateRenderTargetView
               (some (ComObject.created self.deviceCalls.length))
               { Format := texture.GetFormat
                 View := if texture.GetType = TextureType.Texture2D then
                     D3D11_RTV_DIMENSION.TEXTURE2DMS
                   else D3D11_RTV_DIMENSION.TEXTURE2DMSARRAY a.arrayLayer 1 } hr2] ∧
        texDesc.SampleDesc.Count = self.multiSamples_) := by
  refine ⟨?_, ?_⟩
  · intro hty
    rw [attachTexture_unsupported env self texture a hms hty]
    refine ⟨rfl, ?_, ?_⟩
    · cases env.ValidateMipResolution self texture a.mipLevel with
      | error e => rfl
      | ok u => rfl
    · intro hv
      rw [hv]
  · intro hty hv hc
    apply attachTexture_intermediate env self texture a _ hms ?_ ?_ hv hc
    · rcases hty with h | h | h | h <;> rw [h] <;> rfl
    · rcases hty with h | h | h | h <;> rw [h] <;> rfl

/-- Witness for C13: a 3D texture is rejected by the sample 4x render target, which
stays without device calls and without pending resolves; the sample 2D array
texture gets a `TEXTURE2DMSARRAY` view on layer 2. -/
theorem attachTexture_rejects_unsupported_type_witness :
    (emptyMultiSampleTarget.AttachTexture sampleD3D11Env volumeTexture
        ⟨AttachmentType.Color, some volumeTexture, 0, 0⟩).2 = emptyMultiSampleTarget ∧
    emptyMultiSampleTarget.deviceCalls = [] ∧
    emptyMultiSampleTarget.multiSampledAttachments_ = [] ∧
    (emptyMultiSampleTarget.AttachTexture sampleD3D11Env volumeTexture
        ⟨AttachmentType.Color, some volumeTexture, 0, 0⟩).1
      = .error (.invalid_argument
          "failed to attach D3D11 texture to multi-sample render-target") ∧
    ∃ (texDesc : D3D11_TEXTURE2D_DESC) (hr1 hr2 : HRESULT),
      (emptyMultiSampleTarget.AttachTexture sampleD3D11Env mippedArrayTexture
          ⟨AttachmentType.Color, some mippedArrayTexture, 1, 2⟩).2.deviceCalls
        = [DeviceCall.CreateTexture2D texDesc hr1,
           DeviceCall.CreateRenderTargetView (some (ComObject.created 0))
             { Format := 28, View := D3D11_RTV_DIMENSION.TEXTURE2DMSARRAY 2 1 } hr2] ∧
      texDesc.SampleDesc.Count = 4 :=
  ⟨((attachTexture_rejects_unsupported_type sampleD3D11Env emptyMultiSampleTarget volumeTexture
      ⟨AttachmentType.Color, some volumeTexture, 0, 0⟩ (by decide)).1 (Or.inr (Or.inl rfl))).1,
    rfl, rfl,
    ((attachTexture_rejects_unsupported_type sampleD3D11Env emptyMultiSampleTarget volumeTexture
      ⟨AttachmentType.Color, some volumeTexture, 0, 0⟩ (by decide)).1
        (Or.inr (Or.inl rfl))).2.2 rfl,
    (attachTexture_rejects_unsupported_type sampleD3D11Env emptyMultiSampleTarget
      mippedArrayTexture ⟨AttachmentType.Color, some mippedArrayTexture, 1, 2⟩ (by decide)).2
        (Or.inr (Or.inr (Or.inl rfl))) rfl (fun _ => rfl)⟩

/-! ### The cursor over the static state buffer -/

theorem buildStaticStateBuffer_eq_iter (env : GLEnv) (self : GLGraphicsPipeline)
    (desc : GraphicsPipelineDescriptor) :
    self.BuildStaticStateBuffer env desc
      = ((self.BuildStaticStateBufferIter env desc).1.map (fun _ => ()),
          (self.BuildStaticStateBufferIter env desc).2) := by
  unfold GLGraphicsPipeline.BuildStaticStateBuffer GLGraphicsPipeline.BuildStaticStateBufferIter
  simp only []
  split
  · rfl
  · split
    · split
      · rename_i h
        rw [h]
        rfl
      · rename_i h
        rw [h]
        rfl
    · rfl

theorem bindStaticState_eq_iter (env : GLEnv) (self : GLGraphicsPipeline)
    (m : GLStateManager) :
    self.BindStaticState env m
      = (match self.staticStateBuffer_ with
          | none => .ok m
          | some buf => (self.BindStaticStateIter env buf m).map Prod.fst) := by
  unfold GLGraphicsPipeline.BindStaticState GLGraphicsPipeline.BindStaticStateIter
  cases self.staticStateBuffer_ with
  | none => rfl
  | some buf =>
    simp only []
    split
    · rfl
    · split
      · split
        · rename_i h
          rw [h]
          rfl
        · rename_i h
          rw [h]
          rfl
      · rfl

theorem buildStaticStateBufferIter_ok (env : GLEnv) (self : GLGraphicsPipeline)
    (desc : GraphicsPipelineDescriptor)
    (hv0 : self.numStaticViewports_ = 0) (hs0 : self.numStaticScissors_ = 0)
    (hV : static_cast_GLsizei desc.viewports.length
      ≤ (env.LLGL_MAX_NUM_VIEWPORTS_AND_SCISSORS : Int))
    (hS : static_cast_GLsizei desc.scissors.length
      ≤ (env.LLGL_MAX_NUM_VIEWPORTS_AND_SCISSORS : Int))
    (hsize : desc.viewports.length * 32 + desc.scissors.length * 16 < 18446744073709551616) :
    self.BuildStaticStateBufferIter env desc
      = (.ok { byteBuffer_ := 32 * desc.viewports.length + 16 * desc.scissors.length },
          { self with
            staticStateBuffer_ := some (packedStaticState desc.viewports desc.scissors)
            numStaticViewports_ := static_cast_GLsizei desc.viewports.length
            numStaticScissors_ := static_cast_GLsizei desc.scissors.length }) := by
  unfold GLGraphicsPipeline.BuildStaticStateBufferIter
  have hB : staticStateBufferSize desc
      = 32 * desc.viewports.length + 16 * desc.scissors.length := by
    unfold staticStateBufferSize sizeof_GLViewport sizeof_GLDepthRange sizeof_GLScissor
    rw [Nat.mod_eq_of_lt (by omega)]
    omega
  simp only [hB, MakeUniqueArray]
  have hv := buildStaticViewports_ok env
    { self with staticStateBuffer_ := some (List.replicate
        (32 * desc.viewports.length + 16 * desc.scissors.length) 0) }
    desc.viewports [] (List.replicate (32 * desc.viewports.length + 16 * desc.scissors.length) 0)
    rfl hV (by rw [List.length_replicate]; omega)
  simp only [List.length_nil, List.nil_append, Nat.zero_add] at hv
  have hvl : (desc.viewports.flatMap (fun v => (viewportRecord v).toBytes) ++
      desc.viewports.flatMap (fun v => (depthRangeRecord v).toBytes)).length
      = 32 * desc.viewports.length := by
    rw [List.length_append, flatMap_length_16 _ (fun v => glViewport_toBytes_length _),
      flatMap_length_16 _ (fun v => glDepthRange_toBytes_length _)]
    omega
  by_cases hve : desc.viewports = []
  · by_cases hse : desc.scissors = []
    · simp [hve, hse, packedStaticState, hv0, hs0, static_cast_GLsizei_zero]
    · have hs := buildStaticScissors_ok env
        { self with staticStateBuffer_ := some (List.replicate
            (32 * desc.viewports.length + 16 * desc.scissors.length) 0) }
        desc.scissors []
        (List.replicate (32 * desc.viewports.length + 16 * desc.scissors.length) 0)
        rfl hS (by rw [List.length_replicate]; omega)
      simp only [List.length_nil, List.nil_append, Nat.zero_add] at hs
      have hie : desc.scissors.isEmpty = false := isEmpty_eq_false_of_ne_nil _ hse
      simp only [hve, List.isEmpty_nil, Bool.not_true, Bool.false_eq_true, if_false, hie,
        Bool.not_false, if_true]
      simp only [hve] at hs
      rw [hs]
      simp [hve, packedStaticState, hv0, static_cast_GLsizei_zero]
  · have hie : desc.viewports.isEmpty = false := isEmpty_eq_false_of_ne_nil _ hve
    simp only [hie, Bool.not_false, if_true]
    rw [hv]
    simp only []
    by_cases hse : desc.scissors = []
    · simp [hse, packedStaticState, hs0, static_cast_GLsizei_zero]
    · have hie2 : desc.scissors.isEmpty = false := isEmpty_eq_false_of_ne_nil _ hse
      have hs := buildStaticScissors_ok env
        { self with
          staticStateBuffer_ := some
            (desc.viewports.flatMap (fun v => (viewportRecord v).toBytes) ++
              desc.viewports.flatMap (fun v => (depthRangeRecord v).toBytes) ++
              List.drop (32 * desc.viewports.length) (List.replicate
                (32 * desc.viewports.length + 16 * desc.scissors.length) 0))
          numStaticViewports_ := static_cast_GLsizei desc.viewports.length }
        desc.scissors
        (desc.viewports.flatMap (fun v => (viewportRecord v).toBytes) ++
              desc.viewports.flatMap (fun v => (depthRangeRecord v).toBytes))
        (List.drop (32 * desc.viewports.length) (List.replicate
                (32 * desc.viewports.length + 16 * desc.scissors.length) 0))
        rfl hS (by rw [List.length_drop, List.length_replicate]; omega)
      rw [hvl] at hs
      simp only [hie2, Bool.not_false, if_true]
      rw [hs]
      simp [packedStaticState]

theorem bindStaticStateIter_ok (env : GLEnv) (p : GLGraphicsPipeline) (m : GLStateManager)
    (vs : List Viewport) (ss : List Scissor)
    (hnv : p.numStaticViewports_ = vs.length) (hns : p.numStaticScissors_ = ss.length)
    (hV : vs.length ≤ env.LLGL_MAX_NUM_VIEWPORTS_AND_SCISSORS)
    (hS : ss.length ≤ env.LLGL_MAX_NUM_VIEWPORTS_AND_SCISSORS) :
    p.BindStaticStateIter env (packedStaticState vs ss) m
      = .ok ({ calls := m.calls ++ staticArrayCalls vs ss },
             { byteBuffer_ := 32 * vs.length + 16 * ss.length }) := by
  have hA : (vs.flatMap (fun v => (viewportRecord v).toBytes)).length = 16 * vs.length :=
    flatMap_length_16 _ (fun v => glViewport_toBytes_length _) vs
  have hB : (vs.flatMap (fun v => (depthRangeRecord v).toBytes)).length = 16 * vs.length :=
    flatMap_length_16 _ (fun v => glDepthRange_toBytes_length _) vs
  unfold GLGraphicsPipeline.BindStaticStateIter
  simp only []
  by_cases hve : vs = []
  · subst hve
    have h0 : ¬ p.numStaticViewports_ > 0 := by rw [hnv]; simp
    rw [if_neg h0]
    simp only []
    by_cases hse : ss = []
    · subst hse
      have h1 : ¬ p.numStaticScissors_ > 0 := by rw [hns]; simp
      rw [if_neg h1]
      simp [staticArrayCalls]
    · have h1 : p.numStaticScissors_ > 0 := by
        rw [hns]
        have := List.length_pos.mpr hse
        omega
      rw [if_pos h1]
      have hs := setStaticScissors_ok env p m ss [] hns hS
      simp only [List.nil_append, List.length_nil] at hs
      simp only [packedStaticState, List.flatMap_nil, List.nil_append, hs]
      simp [staticArrayCalls, hse]
  · have h0 : p.numStaticViewports_ > 0 := by
      rw [hnv]
      have := List.length_pos.mpr hve
      omega
    rw [if_pos h0]
    have hv := setStaticViewports_ok env p m vs
      (ss.flatMap (fun sc => (scissorRecord sc).toBytes)) hnv hV
    unfold packedStaticState
    rw [hv]
    simp only []
    by_cases hse : ss = []
    · subst hse
      have h1 : ¬ p.numStaticScissors_ > 0 := by rw [hns]; simp
      rw [if_neg h1]
      simp [staticArrayCalls, hve]
    · have h1 : p.numStaticScissors_ > 0 := by
        rw [hns]
        have := List.length_pos.mpr hse
        omega
      rw [if_pos h1]
      have hs := setStaticScissors_ok env p
        { calls := m.calls ++
            [GLCommand.SetViewportArray 0 vs.length (vs.map viewportRecord),
             GLCommand.SetDepthRangeArray 0 vs.length (vs.map (depthRangeRecord))] }
        ss (vs.flatMap (fun v => (viewportRecord v).toBytes) ++
          vs.flatMap (fun v => (depthRangeRecord v).toBytes)) hns hS
      have hl : (vs.flatMap (fun v => (viewportRecord v).toBytes) ++
          vs.flatMap (fun v => (depthRangeRecord v).toBytes)).length = 32 * vs.length := by
        rw [List.length_append, hA, hB]
        omega
      rw [hl] at hs
      rw [hs]
      simp [staticArrayCalls, hve, hse]

theorem flatMap_record {α : Type} (enc : α → List Byte) (henc : ∀ x, (enc x).length = 16) :
    ∀ (l : List α) (k : Nat) (hk : k < l.length) (rest : List Byte),
      ((l.flatMap enc ++ rest).drop (16 * k)).take 16 = enc (l.get ⟨k, hk⟩) := by
  intro l
  induction l with
  | nil => intro k hk; simp at hk
  | cons x xs ih =>
    intro k hk rest
    cases k with
    | zero =>
      simp only [List.flatMap_cons, Nat.mul_zero, List.drop_zero, List.append_assoc]
      rw [List.take_left' (henc x)]
      rfl
    | succ k =>
      have hk1 : k < xs.length := by simpa using hk
      have e : 16 * (k + 1) = (enc x).length + 16 * k := by rw [henc x]; omega
      simp only [List.flatMap_cons, List.append_assoc]
      rw [e, ← List.drop_drop, List.drop_left]
      exact ih k hk1 rest

theorem packedStaticState_length (vs : List Viewport) (ss : List Scissor) :
    (packedStaticState vs ss).length = 32 * vs.length + 16 * ss.length := by
  unfold packedStaticState
  rw [List.length_append, List.length_append,
    flatMap_length_16 _ (fun v => glViewport_toBytes_length _),
    flatMap_length_16 _ (fun v => glDepthRange_toBytes_length _),
    flatMap_length_16 _ (fun sc => glScissor_toBytes_length _)]
  omega

/-- C14: for a descriptor with `V` viewports and `S` scissors, both within
`LLGL_MAX_NUM_VIEWPORTS_AND_SCISSORS`, on an object whose static counts are
still zero: the buffer size is `V × (sizeof(GLViewport) + sizeof(GLDepthRange))
+ S × sizeof(GLScissor)`; `BuildStaticStateBuffer` returns (no bounds-checked
write fails), its cursor ends at the buffer size, and the buffer holds the packed
state, whose length is the buffer size and in which viewport record `k` lies at
offset `16k`, depth-range record `k` at `16V + 16k` and scissor record `k` at
`32V + 16k`.  On the built object the viewport reads of `Bind` take the cursor
from 0 to `32V`, the scissor read takes it from `32V` to the buffer size, the
whole block ends with the cursor at the buffer size, and the records read are
the records written. -/
theorem static_state_buffer_exact (env : GLEnv) (self : GLGraphicsPipeline)
    (desc : GraphicsPipelineDescriptor) (m : GLStateManager)
    (hv0 : self.numStaticViewports_ = 0) (hs0 : self.numStaticScissors_ = 0)
    (hV : desc.viewports.length ≤ env.LLGL_MAX_NUM_VIEWPORTS_AND_SCISSORS)
    (hS : desc.scissors.length ≤ env.LLGL_MAX_NUM_VIEWPORTS_AND_SCISSORS) :
    staticStateBufferSize desc
      = desc.viewports.length * (sizeof_GLViewport + sizeof_GLDepthRange) +
        desc.scissors.length * sizeof_GLScissor ∧
    (packedStaticState desc.viewports desc.scissors).length = staticStateBufferSize desc ∧
    (∃ built : GLGraphicsPipeline,
      self.BuildStaticStateBufferIter env desc
        = (.ok { byteBuffer_ := staticStateBufferSize desc }, built) ∧
      self.BuildStaticStateBuffer env desc = (.ok (), built) ∧
      built.staticStateBuffer_ = some (packedStaticState desc.viewports desc.scissors) ∧
      built.SetStaticViewports env (packedStaticState desc.viewports desc.scissors) m
          { byteBuffer_ := 0 }
        = .ok ({ calls := m.calls ++
                  [GLCommand.SetViewportArray 0 desc.viewports.length
                     (desc.viewports.map viewportRecord),
                   GLCommand.SetDepthRangeArray 0 desc.viewports.length
                     (desc.viewports.map (depthRangeRecord))] },
               { byteBuffer_ :=
                  (sizeof_GLViewport + sizeof_GLDepthRange) * desc.viewports.length }) ∧
      built.SetStaticScissors env (packedStaticState desc.viewports desc.scissors) m
          { byteBuffer_ := (sizeof_GLViewport + sizeof_GLDepthRange) * desc.viewports.length }
        = .ok ({ calls := m.calls ++
                  [GLCommand.SetScissorArray 0 desc.scissors.length
                     (desc.scissors.map scissorRecord)] },
               { byteBuffer_ := staticStateBufferSize desc }) ∧
      built.BindStaticStateIter env (packedStaticState desc.viewports desc.scissors) m
        = .ok ({ calls := m.calls ++ staticArrayCalls desc.viewports desc.scissors },
               { byteBuffer_ := staticStateBufferSize desc }) ∧
      built.BindStaticState env m
        = .ok { calls := m.calls ++ staticArrayCalls desc.viewports desc.scissors }) ∧
    (∀ (k : Nat) (hk : k < desc.viewports.length),
      ((packedStaticState desc.viewports desc.scissors).drop
          (sizeof_GLViewport * k)).take sizeof_GLViewport
        = (viewportRecord (desc.viewports.get ⟨k, hk⟩)).toBytes) ∧
    (∀ (k : Nat) (hk : k < desc.viewports.length),
      ((packedStaticState desc.viewports desc.scissors).drop
          (sizeof_GLViewport * desc.viewports.length + sizeof_GLDepthRange * k)).take
          sizeof_GLDepthRange
        = (depthRangeRecord (desc.viewports.get ⟨k, hk⟩)).toBytes) ∧
    (∀ (k : Nat) (hk : k < desc.scissors.length),
      ((packedStaticState desc.viewports desc.scissors).drop
          ((sizeof_GLViewport + sizeof_GLDepthRange) * desc.viewports.length +
            sizeof_GLScissor * k)).take sizeof_GLScissor
        = (scissorRecord (desc.scissors.get ⟨k, hk⟩)).toBytes) := by
  have hL := env.limit_is_int
  have hcv := static_cast_GLsizei_of_lt desc.viewports.length (by omega)
  have hcs := static_cast_GLsizei_of_lt desc.scissors.length (by omega)
  have hB : staticStateBufferSize desc
      = 32 * desc.viewports.length + 16 * desc.scissors.length := by
    unfold staticStateBufferSize sizeof_GLViewport sizeof_GLDepthRange sizeof_GLScissor
    rw [Nat.mod_eq_of_lt (by omega)]
    omega
  have hA : (desc.viewports.flatMap (fun v => (viewportRecord v).toBytes)).length
      = 16 * desc.viewports.length :=
    flatMap_length_16 _ (fun v => glViewport_toBytes_length _) _
  have hD : (desc.viewports.flatMap (fun v => (depthRangeRecord v).toBytes)).length
      = 16 * desc.viewports.length :=
    flatMap_length_16 _ (fun v => glDepthRange_toBytes_length _) _
  have hbuild := buildStaticStateBufferIter_ok env self desc hv0 hs0
    (by rw [hcv]; omega) (by rw [hcs]; omega) (by omega)
  have hbuild2 := buildStaticStateBuffer_ok env self desc hv0 hs0
    (by rw [hcv]; omega) (by rw [hcs]; omega) (by omega)
  rw [hcv, hcs] at hbuild hbuild2
  refine ⟨?_, ?_, ⟨_, ?_, hbuild2, rfl, ?_, ?_, ?_, ?_⟩, ?_, ?_, ?_⟩
  · rw [hB]
    unfold sizeof_GLViewport sizeof_GLDepthRange sizeof_GLScissor
    omega
  · rw [hB]
    exact packedStaticState_length _ _
  · rw [hbuild, hB]
  · have h := setStaticViewports_ok env
      { self with
        staticStateBuffer_ := some (packedStaticState desc.viewports desc.scissors)
        numStaticViewports_ := (desc.viewports.length : Int)
        numStaticScissors_ := (desc.scissors.length : Int) } m desc.viewports
      (desc.scissors.flatMap (fun sc => (scissorRecord sc).toBytes)) rfl hV
    exact h
  · have h := setStaticScissors_ok env
      { self with
        staticStateBuffer_ := some (packedStaticState desc.viewports desc.scissors)
        numStaticViewports_ := (desc.viewports.length : Int)
        numStaticScissors_ := (desc.scissors.length : Int) } m desc.scissors
      (desc.viewports.flatMap (fun v => (viewportRecord v).toBytes) ++
        desc.viewports.flatMap (fun v => (depthRangeRecord v).toBytes)) rfl hS
    rw [List.length_append, hA, hD] at h
    rw [hB]
    have e : (sizeof_GLViewport + sizeof_GLDepthRange) * desc.viewports.length
        = 16 * desc.viewports.length + 16 * desc.viewports.length := by
      unfold sizeof_GLViewport sizeof_GLDepthRange
      omega
    have e2 : 32 * desc.viewports.length + 16 * desc.scissors.length
        = 16 * desc.viewports.length + 16 * desc.viewports.length + 16 * desc.scissors.length := by
      omega
    rw [e, e2]
    exact h
  · rw [hB]
    exact bindStaticStateIter_ok env _ m desc.viewports desc.scissors rfl rfl hV hS
  · exact bindStaticState_ok env _ m desc.viewports desc.scissors rfl rfl rfl hV hS
  · intro k hk
    unfold packedStaticState
    rw [List.append_assoc]
    exact flatMap_record _ (fun v => glViewport_toBytes_length _) desc.viewports k hk _
  · intro k hk
    unfold packedStaticState
    have e : sizeof_GLViewport * desc.viewports.length + sizeof_GLDepthRange * k
        = (desc.viewports.flatMap (fun v => (viewportRecord v).toBytes)).length + 16 * k := by
      rw [hA]
      rfl
    rw [e, List.append_assoc, ← List.drop_drop, List.drop_left]
    exact flatMap_record _ (fun v => glDepthRange_toBytes_length _) desc.viewports k hk _
  · intro k hk
    unfold packedStaticState
    have e : (sizeof_GLViewport + sizeof_GLDepthRange) * desc.viewports.length +
        sizeof_GLScissor * k
        = (desc.viewports.flatMap (fun v => (viewportRecord v).toBytes) ++
            desc.viewports.flatMap (fun v => (depthRangeRecord v).toBytes)).length
          + 16 * k := by
      rw [List.length_append, hA, hD]
      unfold sizeof_GLViewport sizeof_GLDepthRange sizeof_GLScissor
      omega
    rw [e, ← List.drop_drop, List.drop_left]
    have h := flatMap_record (fun sc : Scissor => (scissorRecord sc).toBytes)
      (fun sc => glScissor_toBytes_length _) desc.scissors k hk []
    rw [List.append_nil] at h
    exact h

/-- Witness for C14: the sample descriptor (one viewport, one scissor) on the object
the constructor has built up to line 174: the buffer has 48 bytes and both
cursors end at 48. -/
theorem static_state_buffer_exact_witness :
    staticStateBufferSize sampleDesc = 48 ∧
    (packedStaticState sampleDesc.viewports sampleDesc.scissors).length = 48 ∧
    ∃ built : GLGraphicsPipeline,
      (GLGraphicsPipeline.beforeStatic sampleGLEnv sampleDesc
          sampleLimits).BuildStaticStateBufferIter sampleGLEnv sampleDesc
        = (.ok { byteBuffer_ := 48 }, built) ∧
      built.BindStaticStateIter sampleGLEnv
          (packedStaticState sampleDesc.viewports sampleDesc.scissors)
          { calls := [] }
        = .ok ({ calls := staticArrayCalls sampleDesc.viewports sampleDesc.scissors },
               { byteBuffer_ := 48 }) :=
  match static_state_buffer_exact sampleGLEnv
      (GLGraphicsPipeline.beforeStatic sampleGLEnv sampleDesc sampleLimits) sampleDesc
      { calls := [] } rfl rfl (by decide) (by decide) with
  | ⟨h1, h2, ⟨built, b1, _, _, _, _, b6, _⟩, _⟩ =>
    ⟨h1.trans rfl, h2.trans (h1.trans rfl), built, b1.trans rfl, b6.trans rfl⟩

/-! ### The calls of the first part of `Bind` -/

theorem call_calls (m : GLStateManager) (c : GLCommand) : (m.call c).calls = m.calls ++ [c] :=
  rfl

theorem ite_append_left {α : Type} (c : Prop) [Decidable c] (l a b : List α) :
    (if c then l ++ a else l ++ b) = l ++ (if c then a else b) := by
  split <;> rfl

theorem ite_append_left_nil {α : Type} (c : Prop) [Decidable c] (l a : List α) :
    (if c then l ++ a else l) = l ++ (if c then a else []) := by
  split <;> simp

theorem ite_cons_left {α : Type} (c : Prop) [Decidable c] (x : α) (a b : List α) :
    (if c then x :: a else x :: b) = x :: (if c then a else b) := by
  split <;> rfl

/-- The first part of `Bind` appends exactly `renderStateCalls` to the log. -/
theorem bindRenderState_calls (self : GLGraphicsPipeline) (sp : GLShaderProgram)
    (m : GLStateManager) :
    (self.BindRenderState sp m).calls = m.calls ++ self.renderStateCalls sp := by
  unfold GLGraphicsPipeline.BindRenderState GLGraphicsPipeline.renderStateCalls
  simp only [apply_ite GLStateManager.calls, call_calls, List.append_assoc, List.cons_append,
    List.nil_append, ite_append_left, ite_append_left_nil, ite_cons_left]

theorem setStaticViewports_calls (env : GLEnv) (p : GLGraphicsPipeline) (buf : List Byte)
    (m m1 : GLStateManager) (it it1 : RawBufferIterator)
    (h : p.SetStaticViewports env buf m it = .ok (m1, it1)) :
    ∃ tail, m1.calls = m.calls ++ tail ∧ ∀ c ∈ tail, GLCommand.isStaticArray c = true := by
  unfold GLGraphicsPipeline.SetStaticViewports at h
  simp only [bind, Except.bind, RawBufferIterator.Next, pure, Except.pure] at h
  split at h
  · simp at h
  · split at h
    · simp [throw, throwThe, MonadExceptOf.throw] at h
    · split at h
      · simp at h
      · simp only [Except.ok.injEq, Prod.mk.injEq] at h
        obtain ⟨hm, _⟩ := h
        subst hm
        simp only [call_calls, List.append_assoc]
        exact ⟨_, rfl, by simp [GLCommand.isStaticArray]⟩

theorem setStaticScissors_calls (env : GLEnv) (p : GLGraphicsPipeline) (buf : List Byte)
    (m m1 : GLStateManager) (it it1 : RawBufferIterator)
    (h : p.SetStaticScissors env buf m it = .ok (m1, it1)) :
    ∃ tail, m1.calls = m.calls ++ tail ∧ ∀ c ∈ tail, GLCommand.isStaticArray c = true := by
  unfold GLGraphicsPipeline.SetStaticScissors at h
  simp only [bind, Except.bind, RawBufferIterator.Next, pure, Except.pure] at h
  split at h
  · simp at h
  · split at h
    · simp [throw, throwThe, MonadExceptOf.throw] at h
    · simp only [Except.ok.injEq, Prod.mk.injEq] at h
      obtain ⟨hm, _⟩ := h
      subst hm
      simp only [call_calls]
      exact ⟨_, rfl, by simp [GLCommand.isStaticArray]⟩

/-- Whatever the last part of `Bind` adds to the log is a viewport, depth-range or
scissor array call. -/
theorem bindStaticState_calls (env : GLEnv) (p : GLGraphicsPipeline) (m m1 : GLStateManager)
    (h : p.BindStaticState env m = .ok m1) :
    ∃ tail, m1.calls = m.calls ++ tail ∧ ∀ c ∈ tail, GLCommand.isStaticArray c = true := by
  unfold GLGraphicsPipeline.BindStaticState at h
  cases hb : p.staticStateBuffer_ with
  | none =>
    rw [hb] at h
    simp only [Except.ok.injEq] at h
    exact ⟨[], by rw [← h, List.append_nil], by simp⟩
  | some buf =>
    rw [hb] at h
    simp only [] at h
    cases hv : (if p.numStaticViewports_ > 0 then
        p.SetStaticViewports env buf m { byteBuffer_ := 0 }
      else .ok (m, { byteBuffer_ := 0 }) : Except Error (GLStateManager × RawBufferIterator)) with
    | error e =>
      rw [hv] at h
      simp at h
    | ok r =>
      obtain ⟨ma, ita⟩ := r
      rw [hv] at h
      simp only [] at h
      have h1 : ∃ tail, ma.calls = m.calls ++ tail ∧
          ∀ c ∈ tail, GLCommand.isStaticArray c = true := by
        split at hv
        · exact setStaticViewports_calls env p buf m ma _ ita hv
        · simp only [Except.ok.injEq, Prod.mk.injEq] at hv
          exact ⟨[], by rw [← hv.1, List.append_nil], by simp⟩
      obtain ⟨t1, e1, a1⟩ := h1
      split at h
      · cases hs : p.SetStaticScissors env buf ma ita with
        | error e =>
          rw [hs] at h
          simp at h
        | ok r2 =>
          obtain ⟨mb, itb⟩ := r2
          rw [hs] at h
          simp only [Except.ok.injEq] at h
          obtain ⟨t2, e2, a2⟩ := setStaticScissors_calls env p buf ma mb ita itb hs
          refine ⟨t1 ++ t2, ?_, ?_⟩
          · rw [← h, e2, e1, List.append_assoc]
          · intro c hc
            rcases List.mem_append.mp hc with hc | hc
            · exact a1 c hc
            · exact a2 c hc
      · simp only [Except.ok.injEq] at h
        exact ⟨t1, by rw [← h, e1], a1⟩

/-- When `Bind` returns, the log has grown by `renderStateCalls` followed by array
calls only. -/
theorem bind_calls (env : GLEnv) (p : GLGraphicsPipeline) (sp : GLShaderProgram)
    (m m1 : GLStateManager) (hsp : p.shaderProgram_ = some sp)
    (h : p.Bind env m = .ok m1) :
    ∃ tail, m1.calls = m.calls ++ p.renderStateCalls sp ++ tail ∧
      ∀ c ∈ tail, GLCommand.isStaticArray c = true := by
  unfold GLGraphicsPipeline.Bind at h
  rw [hsp] at h
  simp only [] at h
  obtain ⟨tail, e, a⟩ := bindStaticState_calls env p _ m1 h
  exact ⟨tail, by rw [e, bindRenderState_calls], a⟩

/-! ### What a successful construction leaves in the render state -/

theorem ctor_ok_patch (env : GLEnv) (desc : GraphicsPipelineDescriptor)
    (limits : RenderingLimits) (h : (GLGraphicsPipeline.ctor env desc limits).1 = .ok ()) :
    desc.shaderProgram ≠ none ∧
    GetPrimitiveTopologyPatchSize desc.primitiveTopology ≤ limits.maxPatchVertices := by
  obtain ⟨hsp, hr⟩ := reachesStatic_of_ok env desc limits h
  refine ⟨?_, (beforeStatic_eq env desc limits hr).1⟩
  intro hn
  rw [hn] at hsp
  cases hsp

/-- After a successful construction all members but the static buffer and counts
are those in place at line 174. -/
theorem ctor_ok_renderState (env : GLEnv) (desc : GraphicsPipelineDescriptor)
    (limits : RenderingLimits) (h : (GLGraphicsPipeline.ctor env desc limits).1 = .ok ()) :
    (GLGraphicsPipeline.ctor env desc limits).2.renderState
      = (GLGraphicsPipeline.beforeStatic env desc limits).renderState := by
  obtain ⟨hsp, _⟩ := ctor_ok_patch env desc limits h
  obtain ⟨_, hr⟩ := reachesStatic_of_ok env desc limits h
  obtain ⟨sp, hsome⟩ := Option.ne_none_iff_exists'.mp hsp
  rw [ctor_eq_build env desc limits sp hsome hr]
  split
  · rfl
  · exact buildStaticStateBuffer_renderState env _ desc

/-! ### The calls of `Bind` on a compiled pipeline state -/

/-- When `Bind` returns on a compiled pipeline state, the log has grown by the
render-state calls of the members in place at line 174, followed by array calls
only. -/
theorem compiled_bind_calls (env : GLEnv) (desc : GraphicsPipelineDescriptor)
    (limits : RenderingLimits) (sp : GLShaderProgram) (m m1 : GLStateManager)
    (hok : (GLGraphicsPipeline.ctor env desc limits).1 = .ok ())
    (hsp : desc.shaderProgram = some sp)
    (hb : (GLGraphicsPipeline.ctor env desc limits).2.Bind env m = .ok m1) :
    ∃ tail, m1.calls
        = m.calls ++ (GLGraphicsPipeline.beforeStatic env desc limits).renderStateCalls sp ++ tail ∧
      ∀ c ∈ tail, GLCommand.isStaticArray c = true := by
  have hs : (GLGraphicsPipeline.ctor env desc limits).2.shaderProgram_ = some sp :=
    (ctor_ok_flags env desc limits hok).1.trans hsp
  obtain ⟨tail, e, a⟩ := bind_calls env _ sp m m1 hs hb
  refine ⟨tail, ?_, a⟩
  rw [e]
  have hr : (GLGraphicsPipeline.ctor env desc limits).2.renderStateCalls sp
      = (GLGraphicsPipeline.beforeStatic env desc limits).renderStateCalls sp := by
    have := congrArg (fun p => GLGraphicsPipeline.renderStateCalls p sp)
      (ctor_ok_renderState env desc limits hok)
    exact this
  rw [hr]

/-- With a shader program, a constructor that gets as far as line 174 and list
lengths within their limit, `Bind` on the compiled pipeline state returns. -/
theorem bind_ok_of_fits (env : GLEnv) (desc : GraphicsPipelineDescriptor)
    (limits : RenderingLimits) (sp : GLShaderProgram) (m : GLStateManager)
    (hsp : desc.shaderProgram = some sp)
    (hr : GLGraphicsPipeline.reachesStatic env desc limits)
    (hV : desc.viewports.length ≤ env.LLGL_MAX_NUM_VIEWPORTS_AND_SCISSORS)
    (hS : desc.scissors.length ≤ env.LLGL_MAX_NUM_VIEWPORTS_AND_SCISSORS) :
    (GLGraphicsPipeline.ctor env desc limits).2.Bind env m
      = .ok { calls :=
          ((GLGraphicsPipeline.ctor env desc limits).2.BindRenderState sp m).calls ++
            staticArrayCalls desc.viewports desc.scissors } := by
  have hL := env.limit_is_int
  have hcv := static_cast_GLsizei_of_lt desc.viewports.length (by omega)
  have hcs := static_cast_GLsizei_of_lt desc.scissors.length (by omega)
  obtain ⟨_, c2, c3, c4, c5⟩ := ctor_ok_static env desc limits sp hsp hr
    (by rw [hcv]; omega) (by rw [hcs]; omega) (by omega)
  rw [hcv] at c4
  rw [hcs] at c5
  unfold GLGraphicsPipeline.Bind
  rw [c2]
  simp only []
  by_cases hboth : desc.viewports = [] ∧ desc.scissors = []
  · rw [if_pos hboth] at c3
    unfold GLGraphicsPipeline.BindStaticState
    rw [c3]
    simp [staticArrayCalls, hboth.1, hboth.2]
  · rw [if_neg hboth] at c3
    exact bindStaticState_ok env _ _ desc.viewports desc.scissors c3 c4 c5 hV hS

theorem filter_eq_nil_of_staticArray (q : GLCommand → Bool) (tail : List GLCommand)
    (hq : ∀ c, GLCommand.isStaticArray c = true → q c = false)
    (h : ∀ c ∈ tail, GLCommand.isStaticArray c = true) : tail.filter q = [] := by
  rw [List.filter_eq_nil_iff]
  intro c hc
  rw [hq c (h c hc)]
  simp

theorem isSetPatchVertices_of_staticArray (c : GLCommand)
    (h : GLCommand.isStaticArray c = true) : GLCommand.isSetPatchVertices c = false := by
  cases c <;> simp_all [GLCommand.isStaticArray, GLCommand.isSetPatchVertices]

theorem isPolygonOffsetCall_of_staticArray (c : GLCommand)
    (h : GLCommand.isStaticArray c = true) : GLCommand.isPolygonOffsetCall c = false := by
  cases c <;> simp_all [GLCommand.isStaticArray, GLCommand.isPolygonOffsetCall]

theorem isLogicOpCall_of_staticArray (c : GLCommand)
    (h : GLCommand.isStaticArray c = true) : GLCommand.isLogicOpCall c = false := by
  cases c <;> simp_all [GLCommand.isStaticArray, GLCommand.isLogicOpCall]

/-- C15: on a compiled pipeline state, what `Bind` adds to the log starts with
`BindShaderProgram`, immediately followed by `Set(RASTERIZER_DISCARD, v)` where
`v` is true exactly when the shader program has no fragment shader; then comes
`SetPatchVertices` if the stored patch vertex count is positive, and no
`SetPatchVertices` occurs anywhere else; the stored count is the patch size of
the topology; within the limits of C1 `Bind` returns. -/
theorem bind_starts_with_shader_program (env : GLEnv) (desc : GraphicsPipelineDescriptor)
    (limits : RenderingLimits) (sp : GLShaderProgram) (m : GLStateManager)
    (hok : (GLGraphicsPipeline.ctor env desc limits).1 = .ok ())
    (hsp : desc.shaderProgram = some sp) :
    (∀ m1 : GLStateManager,
      (GLGraphicsPipeline.ctor env desc limits).2.Bind env m = .ok m1 →
      ∃ rest : List GLCommand,
        m1.calls = m.calls ++
          GLCommand.BindShaderProgram sp.GetID ::
          GLCommand.Set GLState.RASTERIZER_DISCARD (!sp.HasFragmentShader) ::
          ((if (GLGraphicsPipeline.ctor env desc limits).2.patchVertices_ > 0 then
              [GLCommand.SetPatchVertices (GLGraphicsPipeline.ctor env desc limits).2.patchVertices_]
            else []) ++ rest) ∧
        rest.filter GLCommand.isSetPatchVertices = []) ∧
    ((!sp.HasFragmentShader) = true ↔ sp.HasFragmentShader = false) ∧
    (GLGraphicsPipeline.ctor env desc limits).2.patchVertices_
      = (GetPrimitiveTopologyPatchSize desc.primitiveTopology : Int) ∧
    (desc.viewports.length ≤ env.LLGL_MAX_NUM_VIEWPORTS_AND_SCISSORS →
      desc.scissors.length ≤ env.LLGL_MAX_NUM_VIEWPORTS_AND_SCISSORS →
      ∃ m1 : GLStateManager,
        (GLGraphicsPipeline.ctor env desc limits).2.Bind env m = .ok m1) := by
  obtain ⟨_, hr⟩ := reachesStatic_of_ok env desc limits hok
  have hpv : (GLGraphicsPipeline.ctor env desc limits).2.patchVertices_
      = (GLGraphicsPipeline.beforeStatic env desc limits).patchVertices_ :=
    congrArg (fun p => p.patchVertices_) (ctor_ok_renderState env desc limits hok)
  refine ⟨?_, by simp, hpv.trans (beforeStatic_renderState env desc limits hr).1, ?_⟩
  · intro m1 hb
    obtain ⟨tail, e, a⟩ := compiled_bind_calls env desc limits sp m m1 hok hsp hb
    rw [e, hpv]
    unfold GLGraphicsPipeline.renderStateCalls
    simp only [List.append_assoc, List.cons_append, List.nil_append]
    refine ⟨_, rfl, ?_⟩
    simp only [List.filter_append, apply_ite (List.filter GLCommand.isSetPatchVertices),
      List.filter_cons, List.filter_nil, GLCommand.isSetPatchVertices, Bool.false_eq_true,
      if_false, ite_self, List.append_nil, List.nil_append]
    exact filter_eq_nil_of_staticArray _ tail isSetPatchVertices_of_staticArray a
  · intro hV hS
    exact ⟨_, bind_ok_of_fits env desc limits sp m hsp hr hV hS⟩

/-- Witness for C15: binding the sample pipeline state (patches of three control
points, a fragment shader) starts with the shader bind, rasterizer discard off
and the patch vertex count 3. -/
theorem bind_starts_with_shader_program_witness :
    ∃ m1 : GLStateManager,
      (GLGraphicsPipeline.ctor sampleGLEnv sampleDesc sampleLimits).2.Bind sampleGLEnv
        { calls := [] } = .ok m1 ∧
      m1.calls.take 3 = [GLCommand.BindShaderProgram 7,
        GLCommand.Set GLState.RASTERIZER_DISCARD false, GLCommand.SetPatchVertices 3] :=
  match (bind_starts_with_shader_program sampleGLEnv sampleDesc sampleLimits ⟨7, true⟩
      { calls := [] } rfl rfl).2.2.2 (by decide) (by decide) with
  | ⟨m1, hb⟩ =>
    match (bind_starts_with_shader_program sampleGLEnv sampleDesc sampleLimits ⟨7, true⟩
        { calls := [] } rfl rfl).1 m1 hb with
    | ⟨_, hcalls, _⟩ => ⟨m1, hb, by rw [hcalls]; rfl⟩

theorem polygonOffset_isPolygonOffset (mode : PolygonMode) (state : GLState)
    (h : PolygonModeToPolygonOffset mode = .ok state) : state.isPolygonOffset = true := by
  cases mode <;> simp only [PolygonModeToPolygonOffset] at h <;> cases h <;> rfl

theorem polygonOffset_ne_colorLogicOp (mode : PolygonMode) (state : GLState)
    (h : PolygonModeToPolygonOffset mode = .ok state) :
    (state == GLState.COLOR_LOGIC_OP) = false := by
  cases mode <;> simp only [PolygonModeToPolygonOffset] at h <;> cases h <;> rfl

/-- C16: on a compiled pipeline state, `PolygonModeToPolygonOffset` has returned a
state `mode` for the descriptor's fill mode, and the polygon-offset calls that
`Bind` adds to the log are exactly: `Enable(mode)` followed by
`SetPolygonOffset(slopeFactor, constantFactor, clamp)` if `polygonOffsetEnabled_`
is set, `Disable(mode)` alone otherwise; Fill, Wireframe and Points select
`POLYGON_OFFSET_FILL`, `POLYGON_OFFSET_LINE` and `POLYGON_OFFSET_POINT`, and no
two fill modes select the same state; no other polygon-offset state is toggled;
within the limits of C1 `Bind` returns. -/
theorem bind_toggles_one_polygon_offset (env : GLEnv) (desc : GraphicsPipelineDescriptor)
    (limits : RenderingLimits) (sp : GLShaderProgram) (m : GLStateManager)
    (hok : (GLGraphicsPipeline.ctor env desc limits).1 = .ok ())
    (hsp : desc.shaderProgram = some sp) :
    (∃ mode : GLState,
      PolygonModeToPolygonOffset desc.rasterizer.polygonMode = .ok mode ∧
      ∀ m1 : GLStateManager,
        (GLGraphicsPipeline.ctor env desc limits).2.Bind env m = .ok m1 →
        m1.calls.filter GLCommand.isPolygonOffsetCall
          = m.calls.filter GLCommand.isPolygonOffsetCall ++
            (if (GLGraphicsPipeline.ctor env desc limits).2.polygonOffsetEnabled_ then
              [GLCommand.Enable mode,
               GLCommand.SetPolygonOffset desc.rasterizer.depthBias.slopeFactor
                 desc.rasterizer.depthBias.constantFactor desc.rasterizer.depthBias.clamp]
            else
              [GLCommand.Disable mode])) ∧
    (GLGraphicsPipeline.ctor env desc limits).2.polygonOffsetEnabled_
      = IsPolygonOffsetEnabled desc.rasterizer.depthBias ∧
    (PolygonModeToPolygonOffset PolygonMode.Fill = .ok GLState.POLYGON_OFFSET_FILL ∧
      PolygonModeToPolygonOffset PolygonMode.Wireframe = .ok GLState.POLYGON_OFFSET_LINE ∧
      PolygonModeToPolygonOffset PolygonMode.Points = .ok GLState.POLYGON_OFFSET_POINT ∧
      ∀ (a b : PolygonMode) (state : GLState),
        PolygonModeToPolygonOffset a = .ok state →
        PolygonModeToPolygonOffset b = .ok state → a = b) ∧
    (desc.viewports.length ≤ env.LLGL_MAX_NUM_VIEWPORTS_AND_SCISSORS →
      desc.scissors.length ≤ env.LLGL_MAX_NUM_VIEWPORTS_AND_SCISSORS →
      ∃ m1 : GLStateManager,
        (GLGraphicsPipeline.ctor env desc limits).2.Bind env m = .ok m1) := by
  obtain ⟨_, hr⟩ := reachesStatic_of_ok env desc limits hok
  obtain ⟨_, f2, f3, f4, f5, f6, _, _, _⟩ := beforeStatic_renderState env desc limits hr
  have hen : (GLGraphicsPipeline.ctor env desc limits).2.polygonOffsetEnabled_
      = (GLGraphicsPipeline.beforeStatic env desc limits).polygonOffsetEnabled_ :=
    congrArg (fun p => p.polygonOffsetEnabled_) (ctor_ok_renderState env desc limits hok)
  refine ⟨⟨_, f3, ?_⟩, hen.trans f2, ⟨rfl, rfl, rfl, ?_⟩, ?_⟩
  · intro m1 hb
    obtain ⟨tail, e, a⟩ := compiled_bind_calls env desc limits sp m m1 hok hsp hb
    have hiso := polygonOffset_isPolygonOffset _ _ f3
    rw [e, hen]
    unfold GLGraphicsPipeline.renderStateCalls
    rw [f4, f5, f6]
    simp only [List.filter_append, apply_ite (List.filter GLCommand.isPolygonOffsetCall),
      List.filter_cons, List.filter_nil, GLCommand.isPolygonOffsetCall,
      hiso, Bool.false_eq_true, if_false, if_true,
      filter_eq_nil_of_staticArray _ tail isPolygonOffsetCall_of_staticArray a]
    simp only [GLState.isPolygonOffset, Bool.false_eq_true, if_false, if_true, ite_self,
      List.append_nil, List.nil_append]
  · intro a b state ha hb
    cases a <;> cases b <;> simp only [PolygonModeToPolygonOffset] at ha hb <;>
      cases ha <;> cases hb <;> rfl
  · intro hV hS
    exact ⟨_, bind_ok_of_fits env desc limits sp m hsp hr hV hS⟩

/-- Witness for C16: the sample descriptor (fill mode, constant factor 1.0f) enables
`POLYGON_OFFSET_FILL` and sets the offset. -/
theorem bind_toggles_one_polygon_offset_witness :
    ∃ m1 : GLStateManager,
      (GLGraphicsPipeline.ctor sampleGLEnv sampleDesc sampleLimits).2.Bind sampleGLEnv
        { calls := [] } = .ok m1 ∧
      m1.calls.filter GLCommand.isPolygonOffsetCall
        = [GLCommand.Enable GLState.POLYGON_OFFSET_FILL,
           GLCommand.SetPolygonOffset 0 1065353216 0] := by
  obtain ⟨⟨mode, hmode, hcalls⟩, _, _, hret⟩ :=
    bind_toggles_one_polygon_offset sampleGLEnv sampleDesc sampleLimits ⟨7, true⟩
      { calls := [] } rfl rfl
  obtain ⟨m1, hb⟩ := hret (by decide) (by decide)
  have hfill : GLState.POLYGON_OFFSET_FILL = mode := Except.ok.inj hmode
  subst hfill
  exact ⟨m1, hb, (hcalls m1 hb).trans rfl⟩

/-- C17 (amended): on a compiled pipeline state, the calls concerning the colour
logic operation that `Bind` adds to the log are exactly: `Disable(COLOR_LOGIC_OP)`
alone, without `SetLogicOp`, if the descriptor's `logicOp` is
`LogicOp::Disabled`; `Enable(COLOR_LOGIC_OP)` followed by `SetLogicOp` with the
operation that `GLTypes::Map` holds for it, for every other `logicOp`; within
the limits of C1 `Bind` returns. -/
theorem bind_logic_op (env : GLEnv) (desc : GraphicsPipelineDescriptor)
    (limits : RenderingLimits) (sp : GLShaderProgram) (m : GLStateManager)
    (hok : (GLGraphicsPipeline.ctor env desc limits).1 = .ok ())
    (hsp : desc.shaderProgram = some sp) :
    (∃ opcode : GLenum,
      (desc.blend.logicOp ≠ LogicOp.Disabled →
        env.MapLogicOp desc.blend.logicOp = some opcode) ∧
      ∀ m1 : GLStateManager,
        (GLGraphicsPipeline.ctor env desc limits).2.Bind env m = .ok m1 →
        m1.calls.filter GLCommand.isLogicOpCall
          = m.calls.filter GLCommand.isLogicOpCall ++
            (if desc.blend.logicOp = LogicOp.Disabled then
              [GLCommand.Disable GLState.COLOR_LOGIC_OP]
            else
              [GLCommand.Enable GLState.COLOR_LOGIC_OP, GLCommand.SetLogicOp opcode])) ∧
    (desc.viewports.length ≤ env.LLGL_MAX_NUM_VIEWPORTS_AND_SCISSORS →
      desc.scissors.length ≤ env.LLGL_MAX_NUM_VIEWPORTS_AND_SCISSORS →
      ∃ m1 : GLStateManager,
        (GLGraphicsPipeline.ctor env desc limits).2.Bind env m = .ok m1) := by
  obtain ⟨_, hr⟩ := reachesStatic_of_ok env desc limits hok
  obtain ⟨_, _, f3, _, _, _, f7, _, f9⟩ := beforeStatic_renderState env desc limits hr
  refine ⟨⟨_, f9, ?_⟩, ?_⟩
  · intro m1 hb
    obtain ⟨tail, e, a⟩ := compiled_bind_calls env desc limits sp m m1 hok hsp hb
    have hne := polygonOffset_ne_colorLogicOp _ _ f3
    rw [e]
    unfold GLGraphicsPipeline.renderStateCalls
    rw [f7]
    by_cases hl : desc.blend.logicOp = LogicOp.Disabled
    · simp only [List.filter_append, apply_ite (List.filter GLCommand.isLogicOpCall),
        List.filter_cons, List.filter_nil, GLCommand.isLogicOpCall,
        hne, Bool.false_eq_true, if_false, if_true, ite_self,
        List.append_nil, List.nil_append, hl,
        filter_eq_nil_of_staticArray _ tail isLogicOpCall_of_staticArray a]
      simp
    · simp only [List.filter_append, apply_ite (List.filter GLCommand.isLogicOpCall),
        List.filter_cons, List.filter_nil, GLCommand.isLogicOpCall,
        hne, Bool.false_eq_true, if_false, if_true, ite_self,
        List.append_nil, List.nil_append, hl,
        filter_eq_nil_of_staticArray _ tail isLogicOpCall_of_staticArray a]
      simp [hl]
  · intro hV hS
    exact ⟨_, bind_ok_of_fits env desc limits sp m hsp hr hV hS⟩

/-- Witness for C17 (amended): the sample descriptor with a logic operation enables
`COLOR_LOGIC_OP` and sets the mapped operation. -/
theorem bind_logic_op_witness :
    ∃ m1 : GLStateManager,
      (GLGraphicsPipeline.ctor sampleGLEnv logicOpDesc sampleLimits).2.Bind sampleGLEnv
        { calls := [] } = .ok m1 ∧
      m1.calls.filter GLCommand.isLogicOpCall
        = [GLCommand.Enable GLState.COLOR_LOGIC_OP, GLCommand.SetLogicOp 3] := by
  obtain ⟨⟨opcode, hop, hcalls⟩, hret⟩ :=
    bind_logic_op sampleGLEnv logicOpDesc sampleLimits ⟨7, true⟩ { calls := [] } rfl rfl
  obtain ⟨m1, hb⟩ := hret (by decide) (by decide)
  have h3 : 3 = opcode := Option.some.inj (hop (by decide))
  subst h3
  exact ⟨m1, hb, (hcalls m1 hb).trans rfl⟩

/-- Counterexample to C17 as stated: the sample descriptor has `logicOp` disabled,
and `Bind` on its pipeline state issues `Disable(COLOR_LOGIC_OP)`. -/
theorem bind_disables_color_logic_op :
    sampleDesc.blend.logicOp = LogicOp.Disabled ∧
    ∃ m1 : GLStateManager,
      (GLGraphicsPipeline.ctor sampleGLEnv sampleDesc sampleLimits).2.Bind sampleGLEnv
        { calls := [] } = .ok m1 ∧
      GLCommand.Disable GLState.COLOR_LOGIC_OP ∈ m1.calls ∧
      m1.calls.filter GLCommand.isLogicOpCall = [GLCommand.Disable GLState.COLOR_LOGIC_OP] :=
  ⟨rfl, _, rfl, by decide, by decide⟩

end LLGL
